import Mathlib

/-!
# Alcovia intervention engine: the intervention lifecycle of `api/server.js`

A shallow embedding of the four route handlers of `api/server.js`
(`POST /api/daily-checkin`, `POST`/`GET /api/assign-intervention`,
`GET /api/student-status/:student_id`, `POST /api/complete-remedial`), of the
standalone handlers `api/complete-remedial.js` and `api/assign-intervention.js`, and of
the check-in submission of the client `frontend/App.js`, over an explicit model of the
three Supabase tables they touch.

Conventions.
* Times are milliseconds since the epoch (`Int`); one clock reading `now` per request.
* The time zone of the server process is the `TimeZone` argument of the check-in route,
  the one route that computes with local time.
* A store call can fail for reasons outside the program (network, database); which
  calls fail during one request is the `Faults` argument of a handler.
* The enum names of the specification denote the string literals the code writes:
  `OnTrack` is `'On Track'`, `NeedsIntervention` is `'Needs Intervention'`.
-/

namespace Alcovia

/-! ## Status literals -/

/-- Student status `'Normal'`. -/
abbrev Normal : String := "Normal"
/-- Student status `'On Track'` (the specification's `OnTrack`). -/
abbrev OnTrack : String := "On Track"
/-- Student status `'Needs Intervention'` (the specification's `NeedsIntervention`). -/
abbrev NeedsIntervention : String := "Needs Intervention"
/-- Student status `'Remedial'`. -/
abbrev Remedial : String := "Remedial"
/-- Intervention status `'Pending'`. -/
abbrev Pending : String := "Pending"
/-- Intervention status `'Assigned'`. -/
abbrev Assigned : String := "Assigned"
/-- Intervention status `'Completed'`. -/
abbrev Completed : String := "Completed"

/-! ## Tables -/

/-- A row of table `students`. -/
structure Student where
  student_id : String
  status : String
deriving DecidableEq, Repr

/-- A row of table `interventions`. The columns are those the handlers read or write;
`auto_unlock_at` is nullable because the status route guards on it being set. -/
structure Intervention where
  id : Nat
  student_id : String
  status : String
  task_description : Option String
  mentor_approved : Bool
  created_at : Int
  assigned_at : Option Int
  completed_at : Option Int
  auto_unlock_at : Option Int
deriving DecidableEq, Repr

/-- A row of table `daily_logs`. -/
structure DailyLog where
  student_id : String
  quiz_score : Int
  focus_minutes : Int
deriving DecidableEq, Repr

/-- The database: the three tables, each in insertion order. -/
structure Store where
  students : List Student
  interventions : List Intervention
  daily_logs : List DailyLog
deriving DecidableEq, Repr

/-- The empty database. -/
def Store.empty : Store := ⟨[], [], []⟩

/-- Which store calls of one request fail for reasons outside the program
(`true`: the call returns an error and writes nothing). -/
structure Faults where
  selectStudent : Bool
  insertStudent : Bool
  insertLog : Bool
  insertIntervention : Bool
  updateStudent : Bool
  updateIntervention : Bool
  selectIntervention : Bool
deriving DecidableEq, Repr

/-- Every store call succeeds. -/
def noFaults : Faults := ⟨false, false, false, false, false, false, false⟩

/-! ## Store calls (Supabase query builders used by the handlers) -/

/-- Result of a query ending in `.single()`. -/
inductive Single (α : Type) where
  | data (row : α)
  | pgrst116
  | failure
deriving DecidableEq, Repr

/-- The query `from('students').select('*').eq('student_id', sid).single()`:
the row when exactly one matches, error code `PGRST116` when none or several do. -/
def selectStudent (st : Store) (fault : Bool) (sid : String) : Single Student :=
  if fault then Single.failure
  else match st.students.filter (fun r => r.student_id == sid) with
    | [r] => Single.data r
    | _ => Single.pgrst116

/-- Modelled from the spec: the schema of table `students` is not in the repository;
`student_id` is its unique key, so inserting a second row for a key is an error.
The query is `from('students').insert([row])`; `none` is an error. -/
def insertStudent (st : Store) (fault : Bool) (row : Student) : Option Store :=
  if fault then none
  else if st.students.any (fun r => r.student_id == row.student_id) then none
  else some { st with students := st.students ++ [row] }

/-- The query `from('daily_logs').insert([row])`; `none` is an error. -/
def insertDailyLog (st : Store) (fault : Bool) (row : DailyLog) : Option Store :=
  if fault then none
  else some { st with daily_logs := st.daily_logs ++ [row] }

/-- Modelled from the spec: the schema of table `interventions` is not in the repository;
`id` is "unique, generated on creation". The generator returns a key that exceeds every
key in the table. -/
def freshId (rows : List Intervention) : Nat :=
  (rows.map (fun i => i.id)).foldr max 0 + 1

/-- Modelled from the spec: the column defaults of table `interventions` are not in the
repository; `task_description`, `assigned_at`, `completed_at` are "nullable until reached",
`mentor_approved` is "set true on Assign", and `created_at` is the insertion time.
The query is `from('interventions').insert([row]).select().single()` with the three
columns the handler supplies; it returns the stored row. `none` is an error. -/
def insertIntervention (st : Store) (fault : Bool) (now : Int) (sid : String)
    (auto_unlock_at : Int) (status : String) : Option (Intervention × Store) :=
  if fault then none
  else
    let row : Intervention :=
      { id := freshId st.interventions
        student_id := sid
        status := status
        task_description := none
        mentor_approved := false
        created_at := now
        assigned_at := none
        completed_at := none
        auto_unlock_at := some auto_unlock_at }
    some (row, { st with interventions := st.interventions ++ [row] })

/-- The query `from('students').update(\x7b status \x7d).eq('student_id', sid)`: every
matching row is rewritten, no match is not an error; `none` is an error. -/
def updateStudentStatus (st : Store) (fault : Bool) (sid : String) (status : String) :
    Option Store :=
  if fault then none
  else
    let rows := st.students.map
      (fun r => if r.student_id = sid then { r with status := status } else r)
    some { st with students := rows }

/-- The assignment update of `server.js`:
`update(\x7b task_description, mentor_approved: true, status: 'Assigned', assigned_at \x7d)`
filtered by `.eq('id', iid).eq('student_id', sid)`; `none` is an error. -/
def updateInterventionAssign (st : Store) (fault : Bool) (iid : Nat) (sid : String)
    (task : String) (now : Int) : Option Store :=
  if fault then none
  else
    let rows := st.interventions.map (fun i =>
      if i.id = iid ∧ i.student_id = sid then
        { i with task_description := some task, mentor_approved := true,
                 status := Assigned, assigned_at := some now }
      else i)
    some { st with interventions := rows }

/-- The completion update:
`update(\x7b status: 'Completed', completed_at \x7d).eq('student_id', sid).is('completed_at', null)`;
`none` is an error. -/
def updateInterventionComplete (st : Store) (fault : Bool) (sid : String) (now : Int) :
    Option Store :=
  if fault then none
  else
    let rows := st.interventions.map (fun i =>
      if i.student_id = sid ∧ i.completed_at = none then
        { i with status := Completed, completed_at := some now }
      else i)
    some { st with interventions := rows }

/-- First row of `rows` ordered by `created_at` descending (`order(...).limit(1)`);
among rows with the same `created_at` the earliest inserted is taken. -/
def latestCreated : List Intervention → Option Intervention
  | [] => none
  | i :: rest =>
    match latestCreated rest with
    | none => some i
    | some j => if j.created_at > i.created_at then some j else some i

/-- The rows of `sid` with `completed_at` null. -/
def openInterventions (st : Store) (sid : String) : List Intervention :=
  st.interventions.filter (fun i => i.student_id == sid && i.completed_at == none)

/-- The query `from('interventions').select('*').eq('student_id', sid)
.is('completed_at', null).order('created_at', descending).limit(1).single()`; its `data`
(null when no row matches or on error; the handler ignores the error). -/
def selectOpenIntervention (st : Store) (fault : Bool) (sid : String) : Option Intervention :=
  if fault then none else latestCreated (openInterventions st sid)

/-! ## Requests, responses, the webhook -/

/-- Body of `POST /api/daily-checkin`; `none` is a field that is absent (`undefined`),
`penalty` is the truthiness of the `penalty` field. -/
structure CheckinReq where
  student_id : Option String
  quiz_score : Option Int
  focus_minutes : Option Int
  penalty : Bool
deriving DecidableEq, Repr

/-- Body (POST) or query (GET) of `/api/assign-intervention`; `none` is an absent field.
In the JSON body of the POST route `intervention_id` is a number, in the query of the GET
route the text of a number. -/
structure AssignReq where
  student_id : Option String
  task : Option String
  intervention_id : Option Nat
deriving DecidableEq, Repr

/-- Body of `POST /api/complete-remedial`. -/
structure CompleteReq where
  student_id : Option String
deriving DecidableEq, Repr

/-- JavaScript truthiness of a string-valued field: present and not the empty string. -/
def truthy : Option String → Option String
  | some s => if s = "" then none else some s
  | none => none

/-- JavaScript truthiness of a number-valued field: present and not `0`. -/
def truthyId : Option Nat → Option Nat
  | some n => if n = 0 then none else some n
  | none => none

/-- What a handler sends back: the HTTP status code and the fields of the JSON body
(for the HTML pages of the GET route, the values interpolated into the page). -/
structure Response where
  code : Nat
  html : Bool
  status : Option String
  message : Option String
  student_id : Option String
  quiz_score : Option Int
  focus_minutes : Option Int
  intervention_id : Option Nat
  penalty_imposed : Option Bool
  task : Option String
  success : Option Bool
  error : Option String
  details : Option String
  required : List String
deriving DecidableEq, Repr

/-- A response with the given code and an empty body. -/
def Response.blank (code : Nat) : Response :=
  { code := code, html := false, status := none, message := none, student_id := none,
    quiz_score := none, focus_minutes := none, intervention_id := none,
    penalty_imposed := none, task := none, success := none, error := none,
    details := none, required := [] }

/-- Stands for `error.message` of an error returned by the Supabase client. -/
def storeErrorMessage : String := "store error"

/-- The body posted to the n8n webhook. -/
structure WebhookPayload where
  student_id : String
  quiz_score : Int
  focus_minutes : Int
  intervention_id : Nat
  requires_intervention : Bool
  timestamp : Int
  penalty_imposed : Bool
  penalty_reason : Option String
  submission_type : String
  performance_issue : String
deriving DecidableEq, Repr

/-- The webhook as the handler meets it: `N8N_WEBHOOK_URL` unset, or set and the `fetch`
answers OK, answers with a non-OK status, or throws. -/
inductive Webhook where
  | notConfigured
  | ok
  | nonOk
  | throws
deriving DecidableEq, Repr

/-- Outcome of one request: the response, the store afterwards, the webhook calls made. -/
structure Result where
  response : Response
  store : Store
  notified : List WebhookPayload
deriving DecidableEq, Repr

/-- Twelve hours in milliseconds. -/
def twelveHours : Int := 12 * 60 * 60 * 1000

/-- The time zone of the server process as JavaScript's `Date` sees it. `utcOffset t` is the
offset of local time from UTC, in milliseconds, in force at the instant `t`
(`LocalTZA(t, true)`); `localOffset tl` is the offset with which the local wall-clock value
`tl` is read back as an instant (`LocalTZA(tl, false)`). -/
structure TimeZone where
  utcOffset : Int → Int
  localOffset : Int → Int

/-- The zone UTC: local time is UTC. -/
def utc : TimeZone := ⟨fun _ => 0, fun _ => 0⟩

/-- Lines 147-148 of `server.js`:
`const autoUnlockAt = new Date(); autoUnlockAt.setHours(autoUnlockAt.getHours() + 12)`.
`getHours` and `setHours` work on the local wall clock: the instant `now` is turned into
local time, twelve hours are added to the wall-clock value, and the result is read back as
an instant with the offset that holds at that wall-clock value. -/
def autoUnlockAt (zone : TimeZone) (now : Int) : Int :=
  let tLocal := now + zone.utcOffset now
  let date := tLocal + twelveHours
  date - zone.localOffset date

/-! ## Route handlers of `api/server.js` -/

/-- Lines 91-112 of `server.js` ("First, ensure student exists"): the student is looked up
with `.single()`; only on error code `PGRST116` a row with status `'Normal'` is inserted,
and only a failing insert throws (`none`). -/
def ensureStudent (st : Store) (f : Faults) (student_id : String) : Option Store :=
  match selectStudent st f.selectStudent student_id with
  | Single.pgrst116 => insertStudent st f.insertStudent ⟨student_id, Normal⟩
  | _ => some st

/-- The route `POST /api/daily-checkin`, in a server process whose time zone is `zone`. -/
def dailyCheckin (zone : TimeZone) (st : Store) (now : Int) (f : Faults) (hook : Webhook)
    (req : CheckinReq) : Result :=
  let invalid : Result :=
    ⟨{ Response.blank 400 with
        error := some "Missing required fields",
        required := ["student_id", "quiz_score", "focus_minutes"] }, st, []⟩
  let failed (s : Store) (sid : String) : Result :=
    ⟨{ Response.blank 500 with
        error := some storeErrorMessage,
        details := some "Internal server error",
        student_id := some sid }, s, []⟩
  match truthy req.student_id, req.quiz_score, req.focus_minutes with
  | some student_id, some quiz_score, some focus_minutes =>
    -- First, ensure student exists
    match ensureStudent st f student_id with
    | none => failed st student_id
    | some st1 =>
      -- Insert daily log
      match insertDailyLog st1 f.insertLog ⟨student_id, quiz_score, focus_minutes⟩ with
      | none => failed st1 student_id
      | some st2 =>
        -- Check conditions
        if quiz_score > 7 ∧ focus_minutes > 60 then
          let st3 := (updateStudentStatus st2 f.updateStudent student_id OnTrack).getD st2
          ⟨{ Response.blank 200 with
              status := some "On Track",
              message := some "Great job! Keep up the good work.",
              student_id := some student_id,
              quiz_score := some quiz_score,
              focus_minutes := some focus_minutes }, st3, []⟩
        else
          match insertIntervention st2 f.insertIntervention now student_id
              (autoUnlockAt zone now) Pending with
          | none => failed st2 student_id
          | some (intervention, st3) =>
            let st4 :=
              (updateStudentStatus st3 f.updateStudent student_id NeedsIntervention).getD st3
            let webhookPayload : WebhookPayload :=
              { student_id := student_id
                quiz_score := quiz_score
                focus_minutes := focus_minutes
                intervention_id := intervention.id
                requires_intervention := true
                timestamp := now
                penalty_imposed := req.penalty
                penalty_reason :=
                  if req.penalty then some "Tab switching detected during focus session"
                  else none
                submission_type :=
                  if req.penalty then "Auto-submitted due to penalty" else "Manual submission"
                performance_issue :=
                  if req.penalty then "Focus violation"
                  else if quiz_score ≤ 7 then "Low quiz score" else "Insufficient focus time" }
            let sent : List WebhookPayload :=
              match hook with
              | Webhook.notConfigured => []
              | _ => [webhookPayload]
            ⟨{ Response.blank 200 with
                status := some "Pending Mentor Review",
                message := some (if req.penalty then
                  "Focus session interrupted! Your progress has been flagged for review."
                  else "Your progress is under review. A mentor will contact you soon."),
                student_id := some student_id,
                quiz_score := some quiz_score,
                focus_minutes := some focus_minutes,
                intervention_id := some intervention.id,
                penalty_imposed := some req.penalty }, st4, sent⟩
  | _, _, _ => invalid

/-- The route `POST /api/assign-intervention` (called by n8n). The validation
`!intervention_id` rejects the number `0`. -/
def assignInterventionPost (st : Store) (now : Int) (f : Faults) (req : AssignReq) : Result :=
  match truthy req.student_id, truthy req.task, truthyId req.intervention_id with
  | some student_id, some task, some intervention_id =>
    let failed (s : Store) : Result :=
      ⟨{ Response.blank 500 with
          error := some storeErrorMessage,
          details := some "Failed to assign intervention",
          student_id := some student_id,
          intervention_id := some intervention_id }, s, []⟩
    -- Update the specific intervention with task details
    match updateInterventionAssign st f.updateIntervention intervention_id student_id task now with
    | none => failed st
    | some st1 =>
      -- Update student status to Remedial
      match updateStudentStatus st1 f.updateStudent student_id Remedial with
      | none => failed st1
      | some st2 =>
        ⟨{ Response.blank 200 with
            success := some true,
            message := some "Intervention assigned successfully",
            student_id := some student_id,
            task := some task,
            intervention_id := some intervention_id }, st2, []⟩
  | _, _, _ =>
    ⟨{ Response.blank 400 with
        error := some "Missing required fields",
        required := ["student_id", "task", "intervention_id"] }, st, []⟩

/-- The route `GET /api/assign-intervention` (email links); it answers with HTML pages.
Its `intervention_id` is text from the query, so the text `0` passes the validation. -/
def assignInterventionGet (st : Store) (now : Int) (f : Faults) (req : AssignReq) : Result :=
  match truthy req.student_id, truthy req.task, req.intervention_id with
  | some student_id, some task, some intervention_id =>
    let failed (s : Store) : Result :=
      ⟨{ Response.blank 500 with
          html := true,
          error := some storeErrorMessage }, s, []⟩
    -- Update the specific intervention with task details
    match updateInterventionAssign st f.updateIntervention intervention_id student_id task now with
    | none => failed st
    | some st1 =>
      -- Update student status to Remedial
      match updateStudentStatus st1 f.updateStudent student_id Remedial with
      | none => failed st1
      | some st2 =>
        ⟨{ Response.blank 200 with
            html := true,
            student_id := some student_id,
            task := some task,
            intervention_id := some intervention_id }, st2, []⟩
  | _, _, _ =>
    ⟨{ Response.blank 400 with
        html := true,
        error := some "Missing Required Parameters",
        required := ["student_id", "task", "intervention_id"] }, st, []⟩

/-- The auto-unlock test of the status route:
`intervention && intervention.auto_unlock_at && new Date() > new Date(intervention.auto_unlock_at)`. -/
def autoUnlockDue (intervention : Option Intervention) (now : Int) : Bool :=
  match intervention with
  | some i =>
    match i.auto_unlock_at with
    | some t => decide (now > t)
    | none => false
  | none => false

/-- The route `GET /api/student-status/:student_id`. -/
def studentStatus (st : Store) (now : Int) (f : Faults) (student_id : String) : Result :=
  match selectStudent st f.selectStudent student_id with
  | Single.data student =>
    let intervention := selectOpenIntervention st f.selectIntervention student_id
    -- Auto-unlock check
    let unlocked := autoUnlockDue intervention now
    let st1 :=
      if unlocked then (updateStudentStatus st f.updateStudent student_id Normal).getD st
      else st
    let status := if unlocked then Normal else student.status
    ⟨{ Response.blank 200 with
        status := some status,
        task := intervention.bind (fun i => i.task_description),
        intervention_id := intervention.map (fun i => i.id),
        student_id := some student_id }, st1, []⟩
  | _ =>
    ⟨{ Response.blank 500 with
        error := some storeErrorMessage,
        details := some "Failed to get student status",
        student_id := some student_id }, st, []⟩

/-- The route `POST /api/complete-remedial`. -/
def completeRemedial (st : Store) (now : Int) (f : Faults) (req : CompleteReq) : Result :=
  match truthy req.student_id with
  | none => ⟨{ Response.blank 400 with error := some "Missing student_id" }, st, []⟩
  | some student_id =>
    let failed (s : Store) : Result :=
      ⟨{ Response.blank 500 with
          error := some storeErrorMessage,
          details := some "Failed to complete task",
          student_id := some student_id }, s, []⟩
    -- Update student status to Normal
    match updateStudentStatus st f.updateStudent student_id Normal with
    | none => failed st
    | some st1 =>
      -- Mark intervention as completed
      match updateInterventionComplete st1 f.updateIntervention student_id now with
      | none => failed st1
      | some st2 =>
        ⟨{ Response.blank 200 with
            success := some true,
            status := some "Normal",
            message := some "Task completed successfully",
            student_id := some student_id }, st2, []⟩

/-! ## The standalone handler `api/complete-remedial.js` -/

namespace CompleteRemedial

/-- The request method as the handler distinguishes it. -/
inductive Method where
  | OPTIONS
  | POST
  | other
deriving DecidableEq, Repr

/-- The default export of `api/complete-remedial.js`. It validates nothing and never looks
at the `error` the Supabase client returns, so both updates are always issued and the
answer to a POST is always the success body. A missing `student_id` reaches the filter as
the text `undefined`. For a method other than OPTIONS and POST no response is written
(`none`). -/
def handler (st : Store) (now : Int) (f : Faults) (method : Method) (req : CompleteReq) :
    Option Response × Store :=
  match method with
  | Method.OPTIONS => (some (Response.blank 200), st)
  | Method.POST =>
    let student_id := req.student_id.getD "undefined"
    let st1 := (updateStudentStatus st f.updateStudent student_id Normal).getD st
    let st2 := (updateInterventionComplete st1 f.updateIntervention student_id now).getD st1
    (some { Response.blank 200 with success := some true, status := some "Normal" }, st2)
  | Method.other => (none, st)

end CompleteRemedial

/-! ## Observations on a store -/

/-- The statuses stored for `sid` in table `students`, one per row of `sid`. -/
def storedStatus (st : Store) (sid : String) : List String :=
  (st.students.filter (fun r => r.student_id == sid)).map (fun r => r.status)

/-- The unique key of table `students` holds at `sid`: at most one row. -/
def UniqueStudent (st : Store) (sid : String) : Prop :=
  (st.students.filter (fun r => r.student_id == sid)).length ≤ 1

instance (st : Store) (sid : String) : Decidable (UniqueStudent st sid) := by
  unfold UniqueStudent; infer_instance

/-- The row the assignment update of `server.js` writes over `i`. -/
def assignedRow (i : Intervention) (task : String) (now : Int) : Intervention :=
  { i with task_description := some task, mentor_approved := true,
           status := Assigned, assigned_at := some now }

/-- The row the completion update writes over `i`. -/
def completedRow (i : Intervention) (now : Int) : Intervention :=
  { i with status := Completed, completed_at := some now }

/-- The Interventions of `sid` whose status is not `'Completed'`. -/
def nonCompleted (st : Store) (sid : String) : List Intervention :=
  st.interventions.filter (fun i => i.student_id == sid && i.status != Completed)

/-- A `'Pending'` Intervention has no task description. -/
def PendingNoTask (st : Store) : Prop :=
  ∀ i ∈ st.interventions, i.status = Pending → i.task_description = none

/-- At most one Intervention of each student has a status other than `'Completed'`. -/
def AtMostOneOpen (st : Store) : Prop :=
  ∀ sid : String, (nonCompleted st sid).length ≤ 1

/-- Store states reachable from the empty store by requests to the routes of `server.js`,
with any arguments, any clock readings, any time zone, any store-call failures and any
webhook. -/
inductive Reachable : Store → Prop where
  | empty : Reachable Store.empty
  | checkin (zone : TimeZone) (st : Store) (now : Int) (f : Faults) (hook : Webhook)
      (req : CheckinReq) :
      Reachable st → Reachable (dailyCheckin zone st now f hook req).store
  | assignPost (st : Store) (now : Int) (f : Faults) (req : AssignReq) :
      Reachable st → Reachable (assignInterventionPost st now f req).store
  | assignGet (st : Store) (now : Int) (f : Faults) (req : AssignReq) :
      Reachable st → Reachable (assignInterventionGet st now f req).store
  | status (st : Store) (now : Int) (f : Faults) (sid : String) :
      Reachable st → Reachable (studentStatus st now f sid).store
  | complete (st : Store) (now : Int) (f : Faults) (req : CompleteReq) :
      Reachable st → Reachable (completeRemedial st now f req).store

/-- A check-in request respects the one-open-Intervention discipline in `st`: its pair is
passing, or its student has no Intervention with a status other than `'Completed'`. -/
def CheckinGuard (st : Store) (req : CheckinReq) : Prop :=
  (∃ q fm, req.quiz_score = some q ∧ req.focus_minutes = some fm ∧ q > 7 ∧ fm > 60)
    ∨ ∀ i ∈ st.interventions, some i.student_id = req.student_id → i.status = Completed

/-- An assignment request respects the precondition of AssignTask in `st`: no Intervention
it addresses is `'Completed'`. -/
def AssignGuard (st : Store) (req : AssignReq) : Prop :=
  ∀ i ∈ st.interventions, some i.id = req.intervention_id →
    some i.student_id = req.student_id → i.status ≠ Completed

/-- Store states reachable as in `Reachable`, by requests that respect `CheckinGuard` and
`AssignGuard`. -/
inductive GuardedReachable : Store → Prop where
  | empty : GuardedReachable Store.empty
  | checkin (zone : TimeZone) (st : Store) (now : Int) (f : Faults) (hook : Webhook)
      (req : CheckinReq) :
      GuardedReachable st → CheckinGuard st req →
      GuardedReachable (dailyCheckin zone st now f hook req).store
  | assignPost (st : Store) (now : Int) (f : Faults) (req : AssignReq) :
      GuardedReachable st → AssignGuard st req →
      GuardedReachable (assignInterventionPost st now f req).store
  | assignGet (st : Store) (now : Int) (f : Faults) (req : AssignReq) :
      GuardedReachable st → AssignGuard st req →
      GuardedReachable (assignInterventionGet st now f req).store
  | status (st : Store) (now : Int) (f : Faults) (sid : String) :
      GuardedReachable st → GuardedReachable (studentStatus st now f sid).store
  | complete (st : Store) (now : Int) (f : Faults) (req : CompleteReq) :
      GuardedReachable st → GuardedReachable (completeRemedial st now f req).store

/-! ## Concrete scenarios -/

/-- The failing check-in `("s1", 4, 30)` without penalty. -/
def failingCheckin : CheckinReq := ⟨some "s1", some 4, some 30, false⟩

/-- The store after one failing check-in of `s1` at time 10 on the empty store. -/
def oneOpen : Store :=
  (dailyCheckin utc Store.empty 10 noFaults Webhook.notConfigured failingCheckin).store

/-- The store after a second failing check-in of `s1` at time 20. -/
def twoOpen : Store :=
  (dailyCheckin utc oneOpen 20 noFaults Webhook.notConfigured failingCheckin).store

/-- The store after one passing check-in of `s1` at time 10 on the empty store: `s1` has a
Student record and no Intervention. -/
def onTrackStore : Store :=
  (dailyCheckin utc Store.empty 10 noFaults Webhook.notConfigured
    ⟨some "s1", some 9, some 70, false⟩).store

/-- The store `oneOpen` after `s1` completed the remedial task at time 20. -/
def completedStore : Store :=
  (completeRemedial oneOpen 20 noFaults ⟨some "s1"⟩).store

/-- An Intervention with status `'Completed'` has its `completed_at` set. -/
def CompletedHasTime (st : Store) : Prop :=
  ∀ i ∈ st.interventions, i.status = Completed → i.completed_at ≠ none

/-! ## The end-to-end scenario of the specification

`clock k` is the clock reading of the `k`-th request, `zone` the time zone of the server. -/

/-- Step 1: the failing check-in `("s1", 4, 30, false)` on the empty store. -/
def scenarioCheckin (zone : TimeZone) (clock : Nat → Int) (hook : Webhook) : Result :=
  dailyCheckin zone Store.empty (clock 1) noFaults hook ⟨some "s1", some 4, some 30, false⟩

/-- Step 2: the assignment of the Intervention whose id step 1 answered. -/
def scenarioAssign (zone : TimeZone) (clock : Nat → Int) (hook : Webhook) : Result :=
  assignInterventionPost (scenarioCheckin zone clock hook).store (clock 2) noFaults
    ⟨some "s1", some "Review chapter 3", (scenarioCheckin zone clock hook).response.intervention_id⟩

/-- Step 3: a status read. -/
def scenarioStatus (zone : TimeZone) (clock : Nat → Int) (hook : Webhook) : Result :=
  studentStatus (scenarioAssign zone clock hook).store (clock 3) noFaults "s1"

/-- Step 4: the completion. -/
def scenarioComplete (zone : TimeZone) (clock : Nat → Int) (hook : Webhook) : Result :=
  completeRemedial (scenarioStatus zone clock hook).store (clock 4) noFaults ⟨some "s1"⟩

/-- Step 5: the passing check-in `("s1", 9, 70, false)`. -/
def scenarioSecondCheckin (zone : TimeZone) (clock : Nat → Int) (hook : Webhook) : Result :=
  dailyCheckin zone (scenarioComplete zone clock hook).store (clock 5) noFaults hook
    ⟨some "s1", some 9, some 70, false⟩

/-- Step 6: a last status read. -/
def scenarioLastStatus (zone : TimeZone) (clock : Nat → Int) (hook : Webhook) : Result :=
  studentStatus (scenarioSecondCheckin zone clock hook).store (clock 6) noFaults "s1"

/-- Only the insert into `daily_logs` fails. -/
def logFault : Faults := ⟨false, false, true, false, false, false, false⟩

/-! ## The standalone handler `api/assign-intervention.js` -/

namespace AssignIntervention

/-- The request method as the handler distinguishes it. -/
inductive Method where
  | OPTIONS
  | POST
  | other
deriving DecidableEq, Repr

/-- The assignment update of `api/assign-intervention.js`:
`update(\x7b task_description: task, mentor_approved: true, status: 'Assigned' \x7d)`
filtered by `.eq('id', intervention_id)` only, and without `assigned_at`. An absent `task`
drops the column from the update; an absent `intervention_id` matches no row. `none` is an
error. -/
def updateInterventionById (st : Store) (fault : Bool) (iid : Option Nat)
    (task : Option String) : Option Store :=
  if fault then none
  else
    let rows := st.interventions.map (fun i =>
      if some i.id = iid then
        { i with task_description := (match task with
                                      | some t => some t
                                      | none => i.task_description),
                 mentor_approved := true,
                 status := Assigned }
      else i)
    some { st with interventions := rows }

/-- The default export of `api/assign-intervention.js`. It validates nothing and never
looks at the `error` the Supabase client returns, so both updates are always issued and
the answer to a POST is always the success body. A missing `student_id` reaches the filter
as the text `undefined`. For a method other than OPTIONS and POST no response is written
(`none`). -/
def handler (st : Store) (f : Faults) (method : Method) (req : AssignReq) :
    Option Response × Store :=
  match method with
  | Method.OPTIONS => (some (Response.blank 200), st)
  | Method.POST =>
    let student_id := req.student_id.getD "undefined"
    let st1 :=
      (updateInterventionById st f.updateIntervention req.intervention_id req.task).getD st
    let st2 := (updateStudentStatus st1 f.updateStudent student_id Remedial).getD st1
    (some { Response.blank 200 with
             success := some true,
             message := some "Intervention assigned successfully" }, st2)
  | Method.other => (none, st)

end AssignIntervention

/-! ## The client: `frontend/App.js` -/

/-- The constant `STUDENT_ID` of `App.js`. -/
def STUDENT_ID : String := "demo_student_001"

/-- White space that JavaScript's `parseInt` skips at the start of its argument
(ECMAScript `WhiteSpace` and `LineTerminator` code points). -/
def isStrWhiteSpaceChar (c : Char) : Bool :=
  let n := c.toNat
  n == 0x09 || n == 0x0A || n == 0x0B || n == 0x0C || n == 0x0D || n == 0x20 || n == 0xA0
    || n == 0x1680 || (0x2000 ≤ n && n ≤ 0x200A) || n == 0x2028 || n == 0x2029
    || n == 0x202F || n == 0x205F || n == 0x3000 || n == 0xFEFF

/-- Value of a character as a digit (`0`-`9`, then letters of either case from 10). -/
def digitValue (c : Char) : Option Nat :=
  let n := c.toNat
  if 48 ≤ n ∧ n ≤ 57 then some (n - 48)
  else if 97 ≤ n ∧ n ≤ 122 then some (n - 97 + 10)
  else if 65 ≤ n ∧ n ≤ 90 then some (n - 65 + 10)
  else none

/-- The digits of the longest prefix of `cs` made of digits of radix `R`. -/
def radixDigits (R : Nat) : List Char → List Nat
  | [] => []
  | c :: cs =>
    match digitValue c with
    | some d => if d < R then d :: radixDigits R cs else []
    | none => []

/-- JavaScript's `parseInt(text)` with no radix argument: leading white space is skipped,
a sign is read, a `0x`/`0X` prefix selects radix 16 (else radix 10), and the longest prefix
of digits is the value; `none` is `NaN`. The value is the exact integer, which is what
JavaScript computes for up to fifteen digits (the input field holds at most two
characters). -/
def parseInt (text : String) : Option Int :=
  let S := text.toList.dropWhile isStrWhiteSpaceChar
  let negative : Bool :=
    match S with
    | c :: _ => c.toNat == 45
    | [] => false
  let S1 : List Char :=
    match S with
    | c :: rest => if c.toNat == 45 || c.toNat == 43 then rest else S
    | [] => S
  let hex : Bool :=
    match S1 with
    | a :: b :: _ => a.toNat == 48 && (b.toNat == 120 || b.toNat == 88)
    | _ => false
  let R : Nat := if hex then 16 else 10
  let S2 : List Char := if hex then S1.drop 2 else S1
  let Z := radixDigits R S2
  if Z.isEmpty then none
  else
    let mathInt : Nat := Z.foldl (fun acc d => acc * R + d) 0
    some (if negative then -(mathInt : Int) else (mathInt : Int))

/-- The body `handleDailyCheckin(penalty)` of `App.js` posts to `/api/daily-checkin`, given
the text of the quiz score field and the minute count of the focus timer:
`finalScore = penalty ? 0 : parseInt(quizScore) || 0`,
`finalFocusTime = penalty ? 0 : focusTime`. -/
def handleDailyCheckin (quizScore : String) (focusTime : Nat) (penalty : Bool) : CheckinReq :=
  let finalScore : Int :=
    if penalty then 0
    else
      match parseInt quizScore with
      | some v => if v = 0 then 0 else v
      | none => 0
  let finalFocusTime : Int := if penalty then 0 else (focusTime : Int)
  { student_id := some STUDENT_ID
    quiz_score := some finalScore
    focus_minutes := some finalFocusTime
    penalty := penalty }

/-- The body `handleTabSwitchPenalty` of `App.js` posts: it calls
`handleDailyCheckin(true)`. -/
def handleTabSwitchPenalty (quizScore : String) (focusTime : Nat) : CheckinReq :=
  handleDailyCheckin quizScore focusTime true

/-- The body the submit button of `App.js` posts: it calls `handleDailyCheckin()`, whose
parameter `penalty` defaults to `false`. -/
def submitAssessment (quizScore : String) (focusTime : Nat) : CheckinReq :=
  handleDailyCheckin quizScore focusTime false

/-! ## Further observations and scenarios -/

/-- The records of student `sid`: the rows of `sid` in table `students` and the
Interventions whose `student_id` is `sid`, in table order. -/
def recordsOf (st : Store) (sid : String) : List Student × List Intervention :=
  (st.students.filter (fun r => r.student_id == sid),
   st.interventions.filter (fun i => i.student_id == sid))

/-- A student whose stored status is `'Needs Intervention'` has an Intervention of their
own with `completed_at` null. -/
def NeedsInterventionHasOpen (st : Store) : Prop :=
  ∀ r ∈ st.students, r.status = NeedsIntervention →
    ∃ i ∈ st.interventions, i.student_id = r.student_id ∧ i.completed_at = none

/-- Store states reachable as in `Reachable`, by requests whose assignments respect
`AssignGuard` (no assignment addresses a `'Completed'` Intervention). -/
inductive ReachableNoReopen : Store → Prop where
  | empty : ReachableNoReopen Store.empty
  | checkin (zone : TimeZone) (st : Store) (now : Int) (f : Faults) (hook : Webhook)
      (req : CheckinReq) :
      ReachableNoReopen st → ReachableNoReopen (dailyCheckin zone st now f hook req).store
  | assignPost (st : Store) (now : Int) (f : Faults) (req : AssignReq) :
      ReachableNoReopen st → AssignGuard st req →
      ReachableNoReopen (assignInterventionPost st now f req).store
  | assignGet (st : Store) (now : Int) (f : Faults) (req : AssignReq) :
      ReachableNoReopen st → AssignGuard st req →
      ReachableNoReopen (assignInterventionGet st now f req).store
  | status (st : Store) (now : Int) (f : Faults) (sid : String) :
      ReachableNoReopen st → ReachableNoReopen (studentStatus st now f sid).store
  | complete (st : Store) (now : Int) (f : Faults) (req : CompleteReq) :
      ReachableNoReopen st → ReachableNoReopen (completeRemedial st now f req).store

/-- Only the update of table `students` fails. -/
def studentUpdateFault : Faults := ⟨false, false, false, false, true, false, false⟩

/-- Only the update of table `interventions` fails. -/
def interventionUpdateFault : Faults := ⟨false, false, false, false, false, true, false⟩

/-- Only the insert into table `interventions` fails. -/
def interventionInsertFault : Faults := ⟨false, false, false, true, false, false, false⟩

/-- The store `completedStore` after the completed Intervention of `s1` was assigned again
at time 30. -/
def reopenedStore : Store :=
  (assignInterventionPost completedStore 30 noFaults
    ⟨some "s1", some "Review chapter 3", some 1⟩).store

/-! ## A server in a zone with daylight saving time -/

/-- The zone America/New_York around the start of daylight saving time on 8 March 2026:
the offset is -5 h before 2026-03-08T07:00:00Z and -4 h from then on; a wall-clock value
before 03:00 of that day is read with -5 h, a later one with -4 h. -/
def newYork : TimeZone :=
  ⟨fun t => if t < 1772953200000 then -18000000 else -14400000,
   fun tl => if tl < 1772938800000 then -18000000 else -14400000⟩

/-- The instant 2026-03-08T06:30:00Z (01:30 local time in `newYork`). -/
def dstCheckinTime : Int := 1772951400000

/-- Clock readings of the end-to-end scenario: the check-in at 2026-03-08T06:30:00Z, the
assignment one minute later, the status read at 17:45:00Z (eleven hours and a quarter after
the check-in), then one request per minute. -/
def dstClock (k : Nat) : Int :=
  if k ≤ 1 then 1772951400000
  else if k = 2 then 1772951460000
  else 1772991900000 + 60000 * ((k : Int) - 3)

/-! ## Lemmas on the store calls -/

theorem filter_update_same (l : List Student) (sid status : String) :
    (l.map (fun r => if r.student_id = sid then { r with status := status } else r)).filter
        (fun r => r.student_id == sid)
      = (l.filter (fun r => r.student_id == sid)).map (fun r => { r with status := status }) := by
  induction l with
  | nil => rfl
  | cons a l ih =>
    by_cases h : a.student_id = sid
    · simp [List.filter_cons, h, ih]
    · simp [List.filter_cons, h, ih]

theorem filter_update_other (l : List Student) (sid sid2 status : String) (hne : sid2 ≠ sid) :
    (l.map (fun r => if r.student_id = sid then { r with status := status } else r)).filter
        (fun r => r.student_id == sid2)
      = l.filter (fun r => r.student_id == sid2) := by
  induction l with
  | nil => rfl
  | cons a l ih =>
    by_cases h : a.student_id = sid
    · have h2 : ¬ a.student_id = sid2 := fun e => hne (e.symm.trans h)
      simp [List.filter_cons, h, h2, ih, hne.symm]
    · by_cases h2 : a.student_id = sid2
      · simp [List.filter_cons, h, h2, ih, hne]
      · simp [List.filter_cons, h, h2, ih]

theorem storedStatus_update (st st2 : Store) (sid status : String)
    (h : updateStudentStatus st false sid status = some st2) :
    storedStatus st2 sid = (storedStatus st sid).map (fun _ => status)
      ∧ st2.interventions = st.interventions ∧ st2.daily_logs = st.daily_logs := by
  simp [updateStudentStatus] at h
  subst h
  simp [storedStatus, filter_update_same, List.map_map, Function.comp_def]

theorem ensureStudent_ok (st : Store) (sid : String) (hu : UniqueStudent st sid) :
    ∃ st1, ensureStudent st noFaults sid = some st1
      ∧ st1.interventions = st.interventions
      ∧ (storedStatus st1 sid).length = 1 := by
  unfold UniqueStudent at hu
  unfold ensureStudent selectStudent
  simp only [noFaults, Bool.false_eq_true, if_false]
  match hf : st.students.filter (fun r => r.student_id == sid) with
  | [] =>
    have hany : st.students.any (fun r => r.student_id == sid) = false := by
      rw [List.any_eq_false]
      intro x hx hx2
      have : x ∈ st.students.filter (fun r => r.student_id == sid) :=
        List.mem_filter.mpr ⟨hx, hx2⟩
      rw [hf] at this
      exact absurd this (List.not_mem_nil _)
    simp [insertStudent, hany, storedStatus, List.filter_append, hf]
  | [r] => simp [storedStatus, hf]
  | a :: b :: l => rw [hf] at hu; simp at hu

theorem noFaults_fields :
    noFaults.selectStudent = false ∧ noFaults.insertStudent = false
      ∧ noFaults.insertLog = false ∧ noFaults.insertIntervention = false
      ∧ noFaults.updateStudent = false ∧ noFaults.updateIntervention = false
      ∧ noFaults.selectIntervention = false :=
  ⟨rfl, rfl, rfl, rfl, rfl, rfl, rfl⟩

theorem storedStatus_length_one (st : Store) (sid : String)
    (h : (storedStatus st sid).length = 1) (status : String) :
    (storedStatus st sid).map (fun _ => status) = [status] := by
  match hs : storedStatus st sid with
  | [] => rw [hs] at h; simp at h
  | [a] => rfl
  | a :: b :: l => rw [hs] at h; simp at h

/-- The check-in handler on a passing pair, every store call succeeding. -/
theorem dailyCheckin_passing (zone : TimeZone) (st : Store) (now : Int) (hook : Webhook) (sid : String)
    (q fm : Int) (pen : Bool) (hs : sid ≠ "") (hu : UniqueStudent st sid)
    (hq : q > 7 ∧ fm > 60) :
    storedStatus (dailyCheckin zone st now noFaults hook ⟨some sid, some q, some fm, pen⟩).store sid
        = [OnTrack]
      ∧ (dailyCheckin zone st now noFaults hook ⟨some sid, some q, some fm, pen⟩).response.status
        = some OnTrack
      ∧ (dailyCheckin zone st now noFaults hook ⟨some sid, some q, some fm, pen⟩).response.code = 200
      ∧ (dailyCheckin zone st now noFaults hook
          ⟨some sid, some q, some fm, pen⟩).response.intervention_id = none
      ∧ (dailyCheckin zone st now noFaults hook ⟨some sid, some q, some fm, pen⟩).store.interventions
        = st.interventions
      ∧ (dailyCheckin zone st now noFaults hook ⟨some sid, some q, some fm, pen⟩).notified = [] := by
  obtain ⟨st1, h1, h2, h3⟩ := ensureStudent_ok st sid hu
  obtain ⟨n1, n2, n3, n4, n5, n6, n7⟩ := noFaults_fields
  have hst := storedStatus_length_one st1 sid h3 OnTrack
  simp only [storedStatus, List.map_map, Function.comp_def] at hst
  simp [dailyCheckin, truthy, hs, h1, insertDailyLog, n3, n5, hq, updateStudentStatus,
    storedStatus, filter_update_same, Response.blank, List.map_map, Function.comp_def, hst, h2]

theorem foldr_max_ge (l : List Nat) (x : Nat) (hx : x ∈ l) : x ≤ l.foldr max 0 := by
  induction l with
  | nil => exact absurd hx (List.not_mem_nil _)
  | cons a l ih =>
    rcases List.mem_cons.mp hx with h | h
    · subst h; exact Nat.le_max_left _ _
    · exact Nat.le_trans (ih h) (Nat.le_max_right _ _)

theorem freshId_gt (rows : List Intervention) (j : Intervention) (hj : j ∈ rows) :
    j.id < freshId rows := by
  unfold freshId
  exact Nat.lt_succ_of_le (foldr_max_ge _ _ (List.mem_map_of_mem (fun i => i.id) hj))

/-- The check-in handler on a failing pair, every store call succeeding. -/
theorem dailyCheckin_failing (zone : TimeZone) (st : Store) (now : Int) (hook : Webhook) (sid : String)
    (q fm : Int) (pen : Bool) (hs : sid ≠ "") (hu : UniqueStudent st sid)
    (hq : ¬ (q > 7 ∧ fm > 60)) :
    ∃ iv : Intervention,
      (dailyCheckin zone st now noFaults hook ⟨some sid, some q, some fm, pen⟩).store.interventions
          = st.interventions ++ [iv]
      ∧ iv = ⟨freshId st.interventions, sid, Pending, none, false, now, none, none,
               some (autoUnlockAt zone now)⟩
      ∧ (dailyCheckin zone st now noFaults hook
          ⟨some sid, some q, some fm, pen⟩).response.intervention_id = some iv.id
      ∧ (dailyCheckin zone st now noFaults hook ⟨some sid, some q, some fm, pen⟩).response.code = 200
      ∧ storedStatus (dailyCheckin zone st now noFaults hook
          ⟨some sid, some q, some fm, pen⟩).store sid = [NeedsIntervention] := by
  obtain ⟨st1, h1, h2, h3⟩ := ensureStudent_ok st sid hu
  obtain ⟨n1, n2, n3, n4, n5, n6, n7⟩ := noFaults_fields
  have hst := storedStatus_length_one st1 sid h3 NeedsIntervention
  simp only [storedStatus, List.map_map, Function.comp_def] at hst
  refine ⟨⟨freshId st.interventions, sid, Pending, none, false, now, none, none,
    some (autoUnlockAt zone now)⟩, ?_⟩
  simp [dailyCheckin, truthy, hs, h1, insertDailyLog, n3, n4, n5, hq, updateStudentStatus,
    insertIntervention, twelveHours,
    storedStatus, filter_update_same, Response.blank, List.map_map, Function.comp_def, hst, h2]

/-! ## Claims on `POST /api/daily-checkin` -/

/-- C1: for all integers `quiz_score` and `focus_minutes`, the check-in handler takes the
OnTrack branch (it stores and answers `'On Track'`) if and only if `quiz_score > 7` and
`focus_minutes > 60`, and the NeedsIntervention branch (it stores `'Needs Intervention'`)
otherwise; `(8, 61)` is OnTrack, `(7, 61)` and `(8, 60)` are NeedsIntervention. -/
theorem C1_dailyCheckin_verdict (zone : TimeZone) (st : Store) (now : Int) (hook : Webhook) (sid : String)
    (q fm : Int) (pen : Bool) (hs : sid ≠ "") (hu : UniqueStudent st sid) :
    (storedStatus (dailyCheckin zone st now noFaults hook ⟨some sid, some q, some fm, pen⟩).store sid
        = [OnTrack] ↔ q > 7 ∧ fm > 60)
    ∧ ((dailyCheckin zone st now noFaults hook ⟨some sid, some q, some fm, pen⟩).response.status
        = some OnTrack ↔ q > 7 ∧ fm > 60)
    ∧ (storedStatus (dailyCheckin zone st now noFaults hook ⟨some sid, some q, some fm, pen⟩).store sid
        = [NeedsIntervention] ↔ ¬ (q > 7 ∧ fm > 60))
    ∧ storedStatus (dailyCheckin zone st now noFaults hook ⟨some sid, some 8, some 61, pen⟩).store sid
        = [OnTrack]
    ∧ storedStatus (dailyCheckin zone st now noFaults hook ⟨some sid, some 7, some 61, pen⟩).store sid
        = [NeedsIntervention]
    ∧ storedStatus (dailyCheckin zone st now noFaults hook ⟨some sid, some 8, some 60, pen⟩).store sid
        = [NeedsIntervention] := by
  have hne : ([OnTrack] : List String) ≠ [NeedsIntervention] := by decide
  have hne2 : (some "Pending Mentor Review" : Option String) ≠ some OnTrack := by decide
  refine ⟨?_, ?_, ?_, ?_, ?_, ?_⟩
  · by_cases hq : q > 7 ∧ fm > 60
    · exact ⟨fun _ => hq, fun _ => (dailyCheckin_passing zone st now hook sid q fm pen hs hu hq).1⟩
    · obtain ⟨iv, _, _, _, _, h5⟩ := dailyCheckin_failing zone st now hook sid q fm pen hs hu hq
      constructor
      · intro h; rw [h5] at h; exact absurd h.symm hne
      · intro h; exact absurd h hq
  · by_cases hq : q > 7 ∧ fm > 60
    · exact ⟨fun _ => hq, fun _ => (dailyCheckin_passing zone st now hook sid q fm pen hs hu hq).2.1⟩
    · constructor
      · intro h
        obtain ⟨st1, h1, _, _⟩ := ensureStudent_ok st sid hu
        obtain ⟨_, _, n3, n4, _, _, _⟩ := noFaults_fields
        simp [dailyCheckin, truthy, hs, h1, insertDailyLog, n3, n4, hq, insertIntervention,
          Response.blank] at h
        exact absurd (congrArg some h) hne2
      · intro h; exact absurd h hq
  · by_cases hq : q > 7 ∧ fm > 60
    · constructor
      · intro h
        rw [(dailyCheckin_passing zone st now hook sid q fm pen hs hu hq).1] at h
        exact absurd h hne
      · intro h; exact absurd hq h
    · obtain ⟨iv, _, _, _, _, h5⟩ := dailyCheckin_failing zone st now hook sid q fm pen hs hu hq
      exact ⟨fun _ => hq, fun _ => h5⟩
  · exact (dailyCheckin_passing zone st now hook sid 8 61 pen hs hu (by decide)).1
  · obtain ⟨iv, _, _, _, _, h5⟩ :=
      dailyCheckin_failing zone st now hook sid 7 61 pen hs hu (by decide)
    exact h5
  · obtain ⟨iv, _, _, _, _, h5⟩ :=
      dailyCheckin_failing zone st now hook sid 8 60 pen hs hu (by decide)
    exact h5

/-- Witness of C1 on the empty store, student `s1`, pair `(8, 61)`. -/
theorem C1_dailyCheckin_verdict_witness :
    ("s1" ≠ "" ∧ UniqueStudent Store.empty "s1")
    ∧ storedStatus (dailyCheckin utc Store.empty 0 noFaults Webhook.ok
        ⟨some "s1", some 8, some 61, false⟩).store "s1" = [OnTrack] :=
  ⟨⟨by decide, by decide⟩,
   (C1_dailyCheckin_verdict utc Store.empty 0 Webhook.ok "s1" 8 61 false
      (by decide) (by decide)).1.mpr (by decide)⟩

/-- What a failing check-in creates, every store call succeeding: exactly one Intervention,
of the student, `'Pending'`, with the deadline `autoUnlockAt zone now`, no task description
and no completion time, and an id different from every id present before; the
`intervention_id` answered is its id, the Interventions present before are unchanged, and
the student's stored status becomes `'Needs Intervention'`. -/
theorem dailyCheckin_failing_creates (zone : TimeZone) (st : Store) (now : Int)
    (hook : Webhook) (sid : String) (q fm : Int) (pen : Bool) (hs : sid ≠ "")
    (hu : UniqueStudent st sid) (hq : ¬ (q > 7 ∧ fm > 60)) :
    ∃ iv : Intervention,
      (dailyCheckin zone st now noFaults hook ⟨some sid, some q, some fm, pen⟩).store.interventions
          = st.interventions ++ [iv]
      ∧ iv.student_id = sid ∧ iv.status = Pending
      ∧ iv.auto_unlock_at = some (autoUnlockAt zone now)
      ∧ iv.task_description = none ∧ iv.completed_at = none
      ∧ (∀ j ∈ st.interventions, j.id ≠ iv.id)
      ∧ (dailyCheckin zone st now noFaults hook
          ⟨some sid, some q, some fm, pen⟩).response.intervention_id = some iv.id
      ∧ storedStatus (dailyCheckin zone st now noFaults hook
          ⟨some sid, some q, some fm, pen⟩).store sid = [NeedsIntervention] := by
  obtain ⟨iv, h1, h2, h3, _, h5⟩ := dailyCheckin_failing zone st now hook sid q fm pen hs hu hq
  refine ⟨iv, h1, ?_, ?_, ?_, ?_, ?_, ?_, h3, h5⟩
  · rw [h2]
  · rw [h2]
  · rw [h2]
  · rw [h2]
  · rw [h2]
  · intro j hj
    have := freshId_gt st.interventions j hj
    rw [h2]
    exact Nat.ne_of_lt this

/-- In a zone whose offset at the wall-clock deadline is the offset at `now`, the deadline
is twelve hours after `now`. -/
theorem autoUnlockAt_fixed_offset (zone : TimeZone) (now : Int)
    (h : zone.localOffset (now + zone.utcOffset now + 43200000) = zone.utcOffset now) :
    autoUnlockAt zone now = now + 12 * 3600 * 1000 := by
  have e : twelveHours = 43200000 := by decide
  simp only [autoUnlockAt, e, h]
  omega

/-- C2 fails on the code: in the zone America/New_York, a failing check-in at
2026-03-08T06:30:00Z (01:30 local time, half an hour before daylight saving time starts)
creates the one `'Pending'` Intervention the claim describes, but with `auto_unlock_at`
2026-03-08T17:30:00Z, eleven hours after `now` and not twelve: `setHours` adds twelve hours
to the local wall clock. -/
theorem C2_auto_unlock_dst_failure :
    (dailyCheckin newYork Store.empty dstCheckinTime noFaults Webhook.notConfigured
        failingCheckin).store.interventions
      = [⟨1, "s1", Pending, none, false, dstCheckinTime, none, none, some 1772991000000⟩]
    ∧ (1772991000000 : Int) = dstCheckinTime + 11 * 3600 * 1000
    ∧ (1772991000000 : Int) ≠ dstCheckinTime + 12 * 3600 * 1000
    ∧ (dailyCheckin newYork Store.empty dstCheckinTime noFaults Webhook.notConfigured
        failingCheckin).response.intervention_id = some 1
    ∧ storedStatus (dailyCheckin newYork Store.empty dstCheckinTime noFaults
        Webhook.notConfigured failingCheckin).store "s1" = [NeedsIntervention] := by
  decide

/-- C3: on a passing pair (`quiz_score > 7` and `focus_minutes > 60`), every store call
succeeding, the check-in handler sets the student's stored status to `'On Track'`, answers
status `'On Track'` without an `intervention_id`, leaves table `interventions` as it was
and does not call the webhook. -/
theorem C3_dailyCheckin_passing (zone : TimeZone) (st : Store) (now : Int) (hook : Webhook) (sid : String)
    (q fm : Int) (pen : Bool) (hs : sid ≠ "") (hu : UniqueStudent st sid)
    (hq : q > 7 ∧ fm > 60) :
    storedStatus (dailyCheckin zone st now noFaults hook ⟨some sid, some q, some fm, pen⟩).store sid
        = [OnTrack]
      ∧ (dailyCheckin zone st now noFaults hook ⟨some sid, some q, some fm, pen⟩).response.status
        = some OnTrack
      ∧ (dailyCheckin zone st now noFaults hook
          ⟨some sid, some q, some fm, pen⟩).response.intervention_id = none
      ∧ (dailyCheckin zone st now noFaults hook ⟨some sid, some q, some fm, pen⟩).store.interventions
        = st.interventions
      ∧ (dailyCheckin zone st now noFaults hook ⟨some sid, some q, some fm, pen⟩).notified = [] := by
  obtain ⟨h1, h2, _, h4, h5, h6⟩ := dailyCheckin_passing zone st now hook sid q fm pen hs hu hq
  exact ⟨h1, h2, h4, h5, h6⟩

/-- Witness of C3 on the empty store, student `s1`, pair `(9, 70)`. -/
theorem C3_dailyCheckin_passing_witness :
    ("s1" ≠ "" ∧ UniqueStudent Store.empty "s1" ∧ ((9 : Int) > 7 ∧ (70 : Int) > 60))
    ∧ (dailyCheckin utc Store.empty 0 noFaults Webhook.ok
        ⟨some "s1", some 9, some 70, false⟩).response.status = some OnTrack
    ∧ (dailyCheckin utc Store.empty 0 noFaults Webhook.ok
        ⟨some "s1", some 9, some 70, false⟩).notified = [] :=
  ⟨⟨by decide, by decide, by decide⟩,
   (C3_dailyCheckin_passing utc Store.empty 0 Webhook.ok "s1" 9 70 false
      (by decide) (by decide) (by decide)).2.1,
   (C3_dailyCheckin_passing utc Store.empty 0 Webhook.ok "s1" 9 70 false
      (by decide) (by decide) (by decide)).2.2.2.2⟩

/-! ## Claims on `/api/assign-intervention` -/

/-- The POST assignment route with all three fields present (an `intervention_id` other
than the number `0`), every store call succeeding; the GET route does the same to the
store. -/
theorem assign_ok (st : Store) (now : Int) (sid task : String) (iid : Nat)
    (hs : sid ≠ "") (ht : task ≠ "") (hid0 : iid ≠ 0) :
    (assignInterventionPost st now noFaults ⟨some sid, some task, some iid⟩).store
        = ⟨st.students.map (fun r => if r.student_id = sid then { r with status := Remedial } else r),
           st.interventions.map (fun i =>
             if i.id = iid ∧ i.student_id = sid then assignedRow i task now else i),
           st.daily_logs⟩
    ∧ (assignInterventionGet st now noFaults ⟨some sid, some task, some iid⟩).store
        = (assignInterventionPost st now noFaults ⟨some sid, some task, some iid⟩).store
    ∧ (assignInterventionPost st now noFaults ⟨some sid, some task, some iid⟩).response.code = 200
    ∧ (assignInterventionPost st now noFaults
        ⟨some sid, some task, some iid⟩).response.success = some true
    ∧ (assignInterventionPost st now noFaults ⟨some sid, some task, some iid⟩).response.error
        = none := by
  obtain ⟨n1, n2, n3, n4, n5, n6, n7⟩ := noFaults_fields
  simp [assignInterventionPost, assignInterventionGet, truthy, truthyId, hs, ht, hid0, n5, n6,
    updateInterventionAssign, updateStudentStatus, Response.blank, assignedRow]

/-- The GET assignment route with all three fields present, every store call succeeding. -/
theorem assignGet_ok (st : Store) (now : Int) (sid task : String) (iid : Nat)
    (hs : sid ≠ "") (ht : task ≠ "") :
    (assignInterventionGet st now noFaults ⟨some sid, some task, some iid⟩).store
        = ⟨st.students.map (fun r => if r.student_id = sid then { r with status := Remedial } else r),
           st.interventions.map (fun i =>
             if i.id = iid ∧ i.student_id = sid then assignedRow i task now else i),
           st.daily_logs⟩
    ∧ (assignInterventionGet st now noFaults ⟨some sid, some task, some iid⟩).response.code = 200
    ∧ (assignInterventionGet st now noFaults ⟨some sid, some task, some iid⟩).response.error
        = none := by
  obtain ⟨n1, n2, n3, n4, n5, n6, n7⟩ := noFaults_fields
  simp [assignInterventionGet, truthy, hs, ht, n5, n6,
    updateInterventionAssign, updateStudentStatus, Response.blank, assignedRow]

/-- C4: in a store with an Intervention `i` of id `intervention_id` and student `s`, for every
clock reading and non-empty task, both assignment routes of `server.js` (the POST route for
an `intervention_id` other than the number `0`, which its validation rejects) leave in the
place of `i` a row with `task_description = task`, `mentor_approved = true`, status
`'Assigned'`, `assigned_at = now` and the `id`, `student_id`, `created_at`,
`auto_unlock_at` and `completed_at` of `i`, and every row of `s` in table `students` has
status `'Remedial'`. -/
theorem C4_assign_effect (st : Store) (now : Int) (sid task : String) (iid : Nat)
    (k : Nat) (i : Intervention) (hs : sid ≠ "") (ht : task ≠ "")
    (hi : st.interventions[k]? = some i) (hid : i.id = iid) (hsid : i.student_id = sid) :
    (iid ≠ 0 →
      ∃ j : Intervention,
        (assignInterventionPost st now noFaults
          ⟨some sid, some task, some iid⟩).store.interventions[k]? = some j
        ∧ j.task_description = some task ∧ j.mentor_approved = true
        ∧ j.status = Assigned ∧ j.assigned_at = some now
        ∧ j.id = i.id ∧ j.student_id = i.student_id ∧ j.created_at = i.created_at
        ∧ j.auto_unlock_at = i.auto_unlock_at ∧ j.completed_at = i.completed_at
        ∧ (assignInterventionPost st now noFaults
            ⟨some sid, some task, some iid⟩).store.interventions.length
          = st.interventions.length
        ∧ storedStatus (assignInterventionPost st now noFaults
            ⟨some sid, some task, some iid⟩).store sid
          = (storedStatus st sid).map (fun _ => Remedial))
    ∧ ∃ j : Intervention,
        (assignInterventionGet st now noFaults
          ⟨some sid, some task, some iid⟩).store.interventions[k]? = some j
        ∧ j.task_description = some task ∧ j.mentor_approved = true
        ∧ j.status = Assigned ∧ j.assigned_at = some now
        ∧ j.id = i.id ∧ j.student_id = i.student_id ∧ j.created_at = i.created_at
        ∧ j.auto_unlock_at = i.auto_unlock_at ∧ j.completed_at = i.completed_at
        ∧ (assignInterventionGet st now noFaults
            ⟨some sid, some task, some iid⟩).store.interventions.length
          = st.interventions.length
        ∧ storedStatus (assignInterventionGet st now noFaults
            ⟨some sid, some task, some iid⟩).store sid
          = (storedStatus st sid).map (fun _ => Remedial) := by
  constructor
  · intro hid0
    obtain ⟨h1, _, _, _, _⟩ := assign_ok st now sid task iid hs ht hid0
    refine ⟨assignedRow i task now, ?_⟩
    rw [h1]
    simp [List.getElem?_map, hi, hid, hsid, assignedRow, storedStatus, filter_update_same,
      List.map_map, Function.comp_def]
  · obtain ⟨h1, _, _⟩ := assignGet_ok st now sid task iid hs ht
    refine ⟨assignedRow i task now, ?_⟩
    rw [h1]
    simp [List.getElem?_map, hi, hid, hsid, assignedRow, storedStatus, filter_update_same,
      List.map_map, Function.comp_def]

/-- Witness of C4: the Intervention opened by one failing check-in of `s1`, assigned at
time 30 through the POST route. -/
theorem C4_assign_effect_witness :
    ("s1" ≠ "" ∧ "Review chapter 3" ≠ "" ∧ (1 : Nat) ≠ 0
      ∧ oneOpen.interventions[0]? = some ⟨1, "s1", Pending, none, false, 10, none, none,
          some 43200010⟩)
    ∧ ∃ j : Intervention,
        (assignInterventionPost oneOpen 30 noFaults
          ⟨some "s1", some "Review chapter 3", some 1⟩).store.interventions[0]? = some j
        ∧ j.task_description = some "Review chapter 3" ∧ j.mentor_approved = true
        ∧ j.status = Assigned ∧ j.assigned_at = some 30
        ∧ j.id = 1 ∧ j.student_id = "s1" ∧ j.created_at = 10
        ∧ j.auto_unlock_at = some 43200010 ∧ j.completed_at = none
        ∧ (assignInterventionPost oneOpen 30 noFaults
            ⟨some "s1", some "Review chapter 3", some 1⟩).store.interventions.length
          = oneOpen.interventions.length
        ∧ storedStatus (assignInterventionPost oneOpen 30 noFaults
            ⟨some "s1", some "Review chapter 3", some 1⟩).store "s1"
          = (storedStatus oneOpen "s1").map (fun _ => Remedial) :=
  ⟨⟨by decide, by decide, by decide, by decide⟩,
   (C4_assign_effect oneOpen 30 "s1" "Review chapter 3" 1 0
     ⟨1, "s1", Pending, none, false, 10, none, none, some 43200010⟩
     (by decide) (by decide) (by decide) rfl rfl).1 (by decide)⟩

theorem map_ite_of_forall_not {α : Type} (l : List α) (c : α → Prop) [DecidablePred c]
    (g : α → α) (h : ∀ x ∈ l, ¬ c x) : l.map (fun x => if c x then g x else x) = l := by
  induction l with
  | nil => rfl
  | cons a l ih =>
    have ha : ¬ c a := h a (List.mem_cons_self a l)
    have hl : ∀ x ∈ l, ¬ c x := fun x hx => h x (List.mem_cons_of_mem a hx)
    simp [ha, ih hl]

/-- C5 as stated fails: `POST /api/assign-intervention` answers success and rewrites the
student's status when no Intervention has the given id, and answers success and rewrites
the Intervention when it is `'Completed'`. -/
theorem C5_assign_error_counterexample :
    (∀ i ∈ onTrackStore.interventions, ¬ (i.id = 7 ∧ i.student_id = "s1"))
    ∧ (assignInterventionPost onTrackStore 30 noFaults
        ⟨some "s1", some "Review chapter 3", some 7⟩).response.code = 200
    ∧ (assignInterventionPost onTrackStore 30 noFaults
        ⟨some "s1", some "Review chapter 3", some 7⟩).response.error = none
    ∧ onTrackStore.students = [⟨"s1", OnTrack⟩]
    ∧ (assignInterventionPost onTrackStore 30 noFaults
        ⟨some "s1", some "Review chapter 3", some 7⟩).store.students = [⟨"s1", Remedial⟩]
    ∧ completedStore.interventions
        = [⟨1, "s1", Completed, none, false, 10, none, some 20, some 43200010⟩]
    ∧ (assignInterventionPost completedStore 30 noFaults
        ⟨some "s1", some "Review chapter 3", some 1⟩).response.code = 200
    ∧ (assignInterventionPost completedStore 30 noFaults
        ⟨some "s1", some "Review chapter 3", some 1⟩).store.interventions
        = [⟨1, "s1", Assigned, some "Review chapter 3", true, 10, some 30, some 20,
            some 43200010⟩] := by
  decide

/-- C5 amended: `POST /api/assign-intervention` with all three fields present (an
`intervention_id` other than the number `0`) and every store call succeeding answers
success, never a NotFound or Conflict error; when no Intervention has that id and student,
table `interventions` is unchanged and the only change to table `students` is that the rows
of `s` get status `'Remedial'`. -/
theorem C5_assign_missing_amended (st : Store) (now : Int) (sid task : String) (iid : Nat)
    (hs : sid ≠ "") (ht : task ≠ "") (hid0 : iid ≠ 0) :
    (assignInterventionPost st now noFaults ⟨some sid, some task, some iid⟩).response.code = 200
    ∧ (assignInterventionPost st now noFaults
        ⟨some sid, some task, some iid⟩).response.success = some true
    ∧ (assignInterventionPost st now noFaults ⟨some sid, some task, some iid⟩).response.error
        = none
    ∧ ((∀ i ∈ st.interventions, ¬ (i.id = iid ∧ i.student_id = sid)) →
        (assignInterventionPost st now noFaults ⟨some sid, some task, some iid⟩).store.interventions
            = st.interventions
        ∧ (assignInterventionPost st now noFaults ⟨some sid, some task, some iid⟩).store.daily_logs
            = st.daily_logs
        ∧ (assignInterventionPost st now noFaults ⟨some sid, some task, some iid⟩).store.students
            = st.students.map
                (fun r => if r.student_id = sid then { r with status := Remedial } else r)) := by
  obtain ⟨h1, _, h3, h4, h5⟩ := assign_ok st now sid task iid hs ht hid0
  refine ⟨h3, h4, h5, ?_⟩
  intro hno
  rw [h1]
  exact ⟨map_ite_of_forall_not st.interventions _ _ hno, rfl, rfl⟩

/-- Witness of C5 amended on `onTrackStore`, which holds no Intervention. -/
theorem C5_assign_missing_amended_witness :
    ("s1" ≠ "" ∧ "Review chapter 3" ≠ "" ∧ (7 : Nat) ≠ 0)
    ∧ (assignInterventionPost onTrackStore 30 noFaults
        ⟨some "s1", some "Review chapter 3", some 7⟩).response.success = some true :=
  ⟨⟨by decide, by decide, by decide⟩,
   (C5_assign_missing_amended onTrackStore 30 "s1" "Review chapter 3" 7
      (by decide) (by decide) (by decide)).2.1⟩

/-! ## Claims on `/api/complete-remedial` -/

/-- The completion route and the standalone handler, every store call succeeding. -/
theorem complete_ok (st : Store) (now : Int) (sid : String) (hs : sid ≠ "") :
    (completeRemedial st now noFaults ⟨some sid⟩).store
        = ⟨st.students.map (fun r => if r.student_id = sid then { r with status := Normal } else r),
           st.interventions.map (fun i =>
             if i.student_id = sid ∧ i.completed_at = none then completedRow i now else i),
           st.daily_logs⟩
    ∧ (CompleteRemedial.handler st now noFaults CompleteRemedial.Method.POST ⟨some sid⟩).2
        = (completeRemedial st now noFaults ⟨some sid⟩).store
    ∧ (completeRemedial st now noFaults ⟨some sid⟩).response.code = 200
    ∧ (completeRemedial st now noFaults ⟨some sid⟩).response.status = some Normal := by
  obtain ⟨n1, n2, n3, n4, n5, n6, n7⟩ := noFaults_fields
  simp [completeRemedial, CompleteRemedial.handler, truthy, hs, n5, n6,
    updateInterventionComplete, updateStudentStatus, Response.blank, completedRow]

/-- C6 as stated fails: after two failing check-ins `s1` has two Interventions with
`completed_at` null, and the completion (route and standalone handler alike) marks both
`'Completed'`, the older one included. -/
theorem C6_complete_latest_only_counterexample :
    twoOpen.interventions
        = [⟨1, "s1", Pending, none, false, 10, none, none, some 43200010⟩,
           ⟨2, "s1", Pending, none, false, 20, none, none, some 43200020⟩]
    ∧ (completeRemedial twoOpen 100 noFaults ⟨some "s1"⟩).store.interventions
        = [⟨1, "s1", Completed, none, false, 10, none, some 100, some 43200010⟩,
           ⟨2, "s1", Completed, none, false, 20, none, some 100, some 43200020⟩]
    ∧ (CompleteRemedial.handler twoOpen 100 noFaults CompleteRemedial.Method.POST
        ⟨some "s1"⟩).2.interventions
        = [⟨1, "s1", Completed, none, false, 10, none, some 100, some 43200010⟩,
           ⟨2, "s1", Completed, none, false, 20, none, some 100, some 43200020⟩] := by
  decide

/-- C6 amended: for every store, student `s` and clock reading, the completion (route of
`server.js` and standalone handler) sets the status of the rows of `s` in table `students`
to `'Normal'` and rewrites every Intervention of `s` with `completed_at` null, not only the
latest, to status `'Completed'` with `completed_at = now`; every Intervention of another
student or with `completed_at` set is unchanged. -/
theorem C6_complete_all_open_amended (st : Store) (now : Int) (sid : String) (hs : sid ≠ "") :
    ∀ st2 ∈ [(completeRemedial st now noFaults ⟨some sid⟩).store,
             (CompleteRemedial.handler st now noFaults CompleteRemedial.Method.POST
               ⟨some sid⟩).2],
      storedStatus st2 sid = (storedStatus st sid).map (fun _ => Normal)
      ∧ st2.interventions.length = st.interventions.length
      ∧ (∀ (k : Nat) (i : Intervention), st.interventions[k]? = some i →
          i.student_id = sid → i.completed_at = none →
          st2.interventions[k]? = some (completedRow i now))
      ∧ (∀ (k : Nat) (i : Intervention), st.interventions[k]? = some i →
          ¬ (i.student_id = sid ∧ i.completed_at = none) →
          st2.interventions[k]? = some i) := by
  obtain ⟨h1, h2, _, _⟩ := complete_ok st now sid hs
  have key : storedStatus (completeRemedial st now noFaults ⟨some sid⟩).store sid
        = (storedStatus st sid).map (fun _ => Normal)
      ∧ (completeRemedial st now noFaults ⟨some sid⟩).store.interventions.length
        = st.interventions.length
      ∧ (∀ (k : Nat) (i : Intervention), st.interventions[k]? = some i →
          i.student_id = sid → i.completed_at = none →
          (completeRemedial st now noFaults ⟨some sid⟩).store.interventions[k]?
            = some (completedRow i now))
      ∧ (∀ (k : Nat) (i : Intervention), st.interventions[k]? = some i →
          ¬ (i.student_id = sid ∧ i.completed_at = none) →
          (completeRemedial st now noFaults ⟨some sid⟩).store.interventions[k]? = some i) := by
    rw [h1]
    refine ⟨?_, ?_, ?_, ?_⟩
    · simp [storedStatus, filter_update_same, List.map_map, Function.comp_def]
    · simp
    · intro k i hi hsid hc
      simp [List.getElem?_map, hi, hsid, hc]
    · intro k i hi hn
      simp only [List.getElem?_map, hi, Option.map_some', if_neg hn]
  intro st2 hst2
  simp only [List.mem_cons, List.mem_singleton, List.not_mem_nil, or_false] at hst2
  rcases hst2 with h | h
  · rw [h]; exact key
  · rw [h, h2]; exact key

/-- Witness of C6 amended on `twoOpen`: the older open Intervention of `s1` is completed. -/
theorem C6_complete_all_open_amended_witness :
    "s1" ≠ ""
    ∧ (completeRemedial twoOpen 100 noFaults ⟨some "s1"⟩).store.interventions[0]?
        = some (completedRow ⟨1, "s1", Pending, none, false, 10, none, none, some 43200010⟩ 100) :=
  ⟨by decide,
   (C6_complete_all_open_amended twoOpen 100 "s1" (by decide) _
      (List.mem_cons_self _ _)).2.2.1 0 _ (by decide) (by decide) (by decide)⟩

/-! ## What each route does to table `interventions`, whatever fails -/

theorem truthyId_some (o : Option Nat) (n : Nat) (h : truthyId o = some n) :
    o = some n ∧ n ≠ 0 := by
  cases o with
  | none => simp [truthyId] at h
  | some x =>
    by_cases hx : x = 0
    · simp [truthyId, hx] at h
    · simp [truthyId, hx] at h
      subst h
      exact ⟨rfl, hx⟩

theorem truthy_some (o : Option String) (sid : String) (h : truthy o = some sid) :
    o = some sid ∧ sid ≠ "" := by
  cases o with
  | none => simp [truthy] at h
  | some x =>
    by_cases hx : x = ""
    · simp [truthy, hx] at h
    · simp [truthy, hx] at h
      subst h
      exact ⟨rfl, hx⟩

theorem ensureStudent_interventions (st st1 : Store) (f : Faults) (sid : String)
    (h : ensureStudent st f sid = some st1) : st1.interventions = st.interventions := by
  unfold ensureStudent at h
  split at h
  · unfold insertStudent at h
    split at h
    · exact absurd h (by simp)
    · split at h
      · exact absurd h (by simp)
      · simp at h; subst h; rfl
  · simp at h; subst h; rfl

theorem insertDailyLog_interventions (st st1 : Store) (b : Bool) (row : DailyLog)
    (h : insertDailyLog st b row = some st1) : st1.interventions = st.interventions := by
  unfold insertDailyLog at h
  split at h
  · exact absurd h (by simp)
  · simp at h; subst h; rfl

theorem updateStudentStatus_getD_interventions (st : Store) (b : Bool) (sid status : String) :
    ((updateStudentStatus st b sid status).getD st).interventions = st.interventions := by
  unfold updateStudentStatus
  split <;> rfl

theorem updateStudentStatus_interventions (st st1 : Store) (b : Bool) (sid status : String)
    (h : updateStudentStatus st b sid status = some st1) :
    st1.interventions = st.interventions := by
  unfold updateStudentStatus at h
  split at h
  · exact absurd h (by simp)
  · simp at h; subst h; rfl

/-- The check-in route leaves table `interventions` as it was, or (valid request, failing
pair) appends one `'Pending'` row of the request's student. -/
theorem dailyCheckin_interventions (zone : TimeZone) (st : Store) (now : Int) (f : Faults) (hook : Webhook)
    (req : CheckinReq) :
    (dailyCheckin zone st now f hook req).store.interventions = st.interventions
    ∨ ∃ sid q fm, req.student_id = some sid ∧ req.quiz_score = some q
        ∧ req.focus_minutes = some fm ∧ ¬ (q > 7 ∧ fm > 60)
        ∧ (dailyCheckin zone st now f hook req).store.interventions
            = st.interventions ++ [⟨freshId st.interventions, sid, Pending, none, false, now,
                none, none, some (autoUnlockAt zone now)⟩] := by
  unfold dailyCheckin
  split
  · rename_i sid q fm hsid hq hfm
    have hsid2 := (truthy_some _ _ hsid).1
    dsimp only
    split
    · exact Or.inl rfl
    · rename_i st1 h1
      have e1 := ensureStudent_interventions _ _ _ _ h1
      split
      · exact Or.inl e1
      · rename_i st2 h2
        have e2 := insertDailyLog_interventions _ _ _ _ h2
        split
        · left
          show ((updateStudentStatus st2 _ _ _).getD st2).interventions = _
          rw [updateStudentStatus_getD_interventions, e2, e1]
        · rename_i hpair
          split
          · exact Or.inl (e2.trans e1)
          · rename_i iv st3 h3
            right
            refine ⟨sid, q, fm, hsid2, hq, hfm, hpair, ?_⟩
            show ((updateStudentStatus st3 _ _ _).getD st3).interventions = _
            rw [updateStudentStatus_getD_interventions]
            unfold insertIntervention at h3
            split at h3
            · exact absurd h3 (by simp)
            · simp at h3
              rw [← h3.2]
              simp [e2, e1]
  · exact Or.inl rfl

/-- Both assignment routes leave table `interventions` as it was, or rewrite the rows with
the request's id and student to the assigned row. -/
theorem assign_interventions (st : Store) (now : Int) (f : Faults) (req : AssignReq) :
    ∀ res ∈ [assignInterventionPost st now f req, assignInterventionGet st now f req],
      res.store.interventions = st.interventions
      ∨ ∃ sid task iid, req.student_id = some sid ∧ req.intervention_id = some iid
          ∧ res.store.interventions = st.interventions.map (fun i =>
              if i.id = iid ∧ i.student_id = sid then assignedRow i task now else i) := by
  have aux : ∀ (st1 : Store) (b : Bool) (iid : Nat) (sid task : String),
      updateInterventionAssign st b iid sid task now = some st1 →
      st1.interventions = st.interventions.map (fun i =>
        if i.id = iid ∧ i.student_id = sid then assignedRow i task now else i) := by
    intro st1 b iid sid task h
    unfold updateInterventionAssign at h
    split at h
    · exact absurd h (by simp)
    · simp at h; subst h; rfl
  intro res hres
  simp only [List.mem_cons, List.mem_singleton, List.not_mem_nil, or_false] at hres
  rcases hres with h | h
  · subst h
    unfold assignInterventionPost
    split
    · rename_i sid task iid hsid htask hiid0
      have hiid := (truthyId_some _ _ hiid0).1
      dsimp only
      split
      · exact Or.inl rfl
      · rename_i st1 h1
        split
        · exact Or.inr ⟨sid, task, iid, (truthy_some _ _ hsid).1, hiid, aux _ _ _ _ _ h1⟩
        · rename_i st2 h2
          refine Or.inr ⟨sid, task, iid, (truthy_some _ _ hsid).1, hiid, ?_⟩
          exact (updateStudentStatus_interventions _ _ _ _ _ h2).trans (aux _ _ _ _ _ h1)
    · exact Or.inl rfl
  · subst h
    unfold assignInterventionGet
    split
    · rename_i sid task iid hsid htask hiid
      dsimp only
      split
      · exact Or.inl rfl
      · rename_i st1 h1
        split
        · exact Or.inr ⟨sid, task, iid, (truthy_some _ _ hsid).1, hiid, aux _ _ _ _ _ h1⟩
        · rename_i st2 h2
          refine Or.inr ⟨sid, task, iid, (truthy_some _ _ hsid).1, hiid, ?_⟩
          exact (updateStudentStatus_interventions _ _ _ _ _ h2).trans (aux _ _ _ _ _ h1)
    · exact Or.inl rfl

/-- The status route never writes table `interventions`. -/
theorem studentStatus_interventions (st : Store) (now : Int) (f : Faults) (sid : String) :
    (studentStatus st now f sid).store.interventions = st.interventions := by
  unfold studentStatus
  split
  · dsimp only
    split
    · exact updateStudentStatus_getD_interventions _ _ _ _
    · rfl
  · rfl

/-- The completion route leaves table `interventions` as it was, or rewrites every row of
the student with `completed_at` null to the completed row. -/
theorem completeRemedial_interventions (st : Store) (now : Int) (f : Faults)
    (req : CompleteReq) :
    (completeRemedial st now f req).store.interventions = st.interventions
    ∨ ∃ sid, req.student_id = some sid
        ∧ (completeRemedial st now f req).store.interventions = st.interventions.map (fun i =>
            if i.student_id = sid ∧ i.completed_at = none then completedRow i now else i) := by
  unfold completeRemedial
  split
  · exact Or.inl rfl
  · rename_i sid hsid
    dsimp only
    split
    · exact Or.inl rfl
    · rename_i st1 h1
      have e1 := updateStudentStatus_interventions _ _ _ _ _ h1
      split
      · exact Or.inl e1
      · rename_i st2 h2
        refine Or.inr ⟨sid, (truthy_some _ _ hsid).1, ?_⟩
        unfold updateInterventionComplete at h2
        split at h2
        · exact absurd h2 (by simp)
        · simp at h2; subst h2
          show List.map _ st1.interventions = _
          rw [e1]
          rfl

/-! ## The open Intervention selected by the status route -/

theorem latestCreated_eq_none (l : List Intervention) : latestCreated l = none ↔ l = [] := by
  cases l with
  | nil => simp [latestCreated]
  | cons a l =>
    simp only [latestCreated]
    cases latestCreated l with
    | none => simp
    | some j => by_cases h : j.created_at > a.created_at <;> simp [h]

theorem latestCreated_spec (l : List Intervention) (i : Intervention)
    (h : latestCreated l = some i) : i ∈ l ∧ ∀ j ∈ l, j.created_at ≤ i.created_at := by
  induction l generalizing i with
  | nil => simp [latestCreated] at h
  | cons a l ih =>
    simp only [latestCreated] at h
    cases hl : latestCreated l with
    | none =>
      rw [hl] at h
      simp at h
      subst h
      have : l = [] := (latestCreated_eq_none l).mp hl
      subst this
      simp
    | some j =>
      rw [hl] at h
      obtain ⟨hj, hmax⟩ := ih j hl
      by_cases hc : j.created_at > a.created_at
      · simp [hc] at h
        subst h
        refine ⟨List.mem_cons_of_mem _ hj, ?_⟩
        intro x hx
        rcases List.mem_cons.mp hx with e | e
        · subst e; exact Int.le_of_lt hc
        · exact hmax x e
      · simp [hc] at h
        subst h
        refine ⟨List.mem_cons_self _ _, ?_⟩
        intro x hx
        rcases List.mem_cons.mp hx with e | e
        · subst e; exact Int.le_refl _
        · exact Int.le_trans (hmax x e) (Int.not_lt.mp hc)

theorem mem_openInterventions (st : Store) (sid : String) (i : Intervention) :
    i ∈ openInterventions st sid
      ↔ i ∈ st.interventions ∧ i.student_id = sid ∧ i.completed_at = none := by
  simp [openInterventions, List.mem_filter]

theorem reachable_pendingNoTask (st : Store) (h : Reachable st) : PendingNoTask st := by
  have hAP : (Assigned : String) ≠ Pending := by decide
  have hCP : (Completed : String) ≠ Pending := by decide
  have assignCase : ∀ (st : Store) (res : Result) (now : Int) (f : Faults) (req : AssignReq),
      PendingNoTask st →
      res ∈ [assignInterventionPost st now f req, assignInterventionGet st now f req] →
      PendingNoTask res.store := by
    intro st res now f req ih hres
    rcases assign_interventions st now f req res hres with e | ⟨sid, task, iid, _, _, e⟩
    · intro i hi; rw [e] at hi; exact ih i hi
    · intro i hi hp
      rw [e] at hi
      obtain ⟨j, hj, hji⟩ := List.mem_map.mp hi
      by_cases c : j.id = iid ∧ j.student_id = sid
      · rw [if_pos c] at hji
        subst hji
        exact absurd hp hAP
      · rw [if_neg c] at hji
        subst hji
        exact ih j hj hp
  induction h with
  | empty => intro i hi; exact absurd hi (List.not_mem_nil _)
  | checkin zone st now f hook req _ ih =>
    rcases dailyCheckin_interventions zone st now f hook req with e | ⟨sid, q, fm, _, _, _, _, e⟩
    · intro i hi; rw [e] at hi; exact ih i hi
    · intro i hi hp
      rw [e] at hi
      rcases List.mem_append.mp hi with h1 | h1
      · exact ih i h1 hp
      · rw [List.mem_singleton] at h1
        subst h1
        rfl
  | assignPost st now f req _ ih =>
    exact assignCase st _ now f req ih (List.mem_cons_self _ _)
  | assignGet st now f req _ ih =>
    exact assignCase st _ now f req ih (List.mem_cons_of_mem _ (List.mem_cons_self _ _))
  | status st now f sid _ ih =>
    intro i hi
    rw [studentStatus_interventions] at hi
    exact ih i hi
  | complete st now f req _ ih =>
    rcases completeRemedial_interventions st now f req with e | ⟨sid, _, e⟩
    · intro i hi; rw [e] at hi; exact ih i hi
    · intro i hi hp
      rw [e] at hi
      obtain ⟨j, hj, hji⟩ := List.mem_map.mp hi
      by_cases c : j.student_id = sid ∧ j.completed_at = none
      · rw [if_pos c] at hji
        subst hji
        exact absurd hp hCP
      · rw [if_neg c] at hji
        subst hji
        exact ih j hj hp

/-! ## Claims on `GET /api/student-status/:student_id` -/

/-- The status route on a store with exactly one Student row `r` of `sid`, every store call
succeeding: its response and store in closed form. -/
theorem studentStatus_ok (st : Store) (now : Int) (sid : String) (r : Student)
    (hr : st.students.filter (fun x => x.student_id == sid) = [r]) :
    (studentStatus st now noFaults sid).response
        = { Response.blank 200 with
            status := some (if autoUnlockDue (latestCreated (openInterventions st sid)) now
              then Normal else r.status),
            task := (latestCreated (openInterventions st sid)).bind (fun i => i.task_description),
            intervention_id := (latestCreated (openInterventions st sid)).map (fun i => i.id),
            student_id := some sid }
    ∧ (studentStatus st now noFaults sid).store
        = if autoUnlockDue (latestCreated (openInterventions st sid)) now then
            ⟨st.students.map (fun x => if x.student_id = sid then { x with status := Normal } else x),
             st.interventions, st.daily_logs⟩
          else st := by
  obtain ⟨n1, n2, n3, n4, n5, n6, n7⟩ := noFaults_fields
  by_cases hd : autoUnlockDue (latestCreated (openInterventions st sid)) now = true
  · simp [studentStatus, selectStudent, selectOpenIntervention, n1, n5, n7, hr, hd,
      updateStudentStatus]
  · simp [studentStatus, selectStudent, selectOpenIntervention, n1, n5, n7, hr, hd]

/-- C7: on a store holding a Student record for `s`, the status route answers the status
stored for `s` once the call is over, together with the id and task description of the
Intervention of `s` with `completed_at` null and the latest `created_at`; with no such
Intervention both `intervention_id` and `task` are absent, and (in every reachable store)
when that Intervention is `'Pending'` the task is absent. -/
theorem C7_studentStatus_response (st : Store) (now : Int) (sid : String) (r : Student)
    (hr : st.students.filter (fun x => x.student_id == sid) = [r]) :
    (studentStatus st now noFaults sid).response.code = 200
    ∧ (∃ x, storedStatus (studentStatus st now noFaults sid).store sid = [x]
        ∧ (studentStatus st now noFaults sid).response.status = some x)
    ∧ ((∀ i ∈ st.interventions, ¬ (i.student_id = sid ∧ i.completed_at = none)) →
        (studentStatus st now noFaults sid).response.intervention_id = none
        ∧ (studentStatus st now noFaults sid).response.task = none)
    ∧ ((∃ i ∈ st.interventions, i.student_id = sid ∧ i.completed_at = none) →
        ∃ i ∈ st.interventions, i.student_id = sid ∧ i.completed_at = none
          ∧ (∀ j ∈ st.interventions, j.student_id = sid → j.completed_at = none →
              j.created_at ≤ i.created_at)
          ∧ (studentStatus st now noFaults sid).response.intervention_id = some i.id
          ∧ (studentStatus st now noFaults sid).response.task = i.task_description
          ∧ (Reachable st → i.status = Pending →
              (studentStatus st now noFaults sid).response.task = none)) := by
  obtain ⟨hresp, hstore⟩ := studentStatus_ok st now sid r hr
  refine ⟨?_, ?_, ?_, ?_⟩
  · rw [hresp]; rfl
  · rw [hresp, hstore]
    by_cases hd : autoUnlockDue (latestCreated (openInterventions st sid)) now = true
    · refine ⟨Normal, ?_, ?_⟩
      · simp [hd, storedStatus, filter_update_same, hr]
      · simp [hd]
    · refine ⟨r.status, ?_, ?_⟩
      · simp [hd, storedStatus, hr]
      · simp [hd]
  · intro hno
    have hnil : openInterventions st sid = [] := by
      rw [List.eq_nil_iff_forall_not_mem]
      intro i hi
      rw [mem_openInterventions] at hi
      exact hno i hi.1 hi.2
    rw [hresp, hnil]
    simp [latestCreated]
  · rintro ⟨i0, hi0, hi0s⟩
    have hne : openInterventions st sid ≠ [] := by
      intro e
      have : i0 ∈ openInterventions st sid := (mem_openInterventions st sid i0).mpr ⟨hi0, hi0s⟩
      rw [e] at this
      exact absurd this (List.not_mem_nil _)
    cases hl : latestCreated (openInterventions st sid) with
    | none => exact absurd ((latestCreated_eq_none _).mp hl) hne
    | some i =>
      obtain ⟨hmem, hmax⟩ := latestCreated_spec _ _ hl
      obtain ⟨hin, his, hic⟩ := (mem_openInterventions st sid i).mp hmem
      refine ⟨i, hin, his, hic, ?_, ?_, ?_, ?_⟩
      · intro j hj hjs hjc
        exact hmax j ((mem_openInterventions st sid j).mpr ⟨hj, hjs, hjc⟩)
      · rw [hresp, hl]; rfl
      · rw [hresp, hl]; rfl
      · intro hreach hp
        rw [hresp, hl]
        exact reachable_pendingNoTask st hreach i hin hp

/-- Witness of C7 on `oneOpen`: the status route answers the `'Pending'` Intervention of
`s1` and no task. -/
theorem C7_studentStatus_response_witness :
    oneOpen.students.filter (fun x => x.student_id == "s1") = [⟨"s1", NeedsIntervention⟩]
    ∧ (studentStatus oneOpen 30 noFaults "s1").response.code = 200 :=
  ⟨by decide,
   (C7_studentStatus_response oneOpen 30 "s1" ⟨"s1", NeedsIntervention⟩ (by decide)).1⟩

/-- C8: on a store holding a Student record for `s`, the status route changes no
Intervention and no Student row of another student; when the latest Intervention of `s`
with `completed_at` null has `auto_unlock_at` strictly before `now` it sets the stored
status of `s` to `'Normal'` and answers `'Normal'`; otherwise (also when `now` equals
`auto_unlock_at`, or there is no such Intervention) it leaves the whole store unchanged and
answers the stored status. -/
theorem C8_studentStatus_frame (st : Store) (now : Int) (sid : String) (r : Student)
    (hr : st.students.filter (fun x => x.student_id == sid) = [r]) :
    (studentStatus st now noFaults sid).store.interventions = st.interventions
    ∧ (∀ s2, s2 ≠ sid →
        (studentStatus st now noFaults sid).store.students.filter (fun x => x.student_id == s2)
          = st.students.filter (fun x => x.student_id == s2))
    ∧ ((∃ i t, latestCreated (openInterventions st sid) = some i
          ∧ i.auto_unlock_at = some t ∧ t < now) →
        storedStatus (studentStatus st now noFaults sid).store sid = [Normal]
        ∧ (studentStatus st now noFaults sid).response.status = some Normal
        ∧ (studentStatus st now noFaults sid).store
            = ⟨st.students.map
                 (fun x => if x.student_id = sid then { x with status := Normal } else x),
               st.interventions, st.daily_logs⟩)
    ∧ (¬ (∃ i t, latestCreated (openInterventions st sid) = some i
          ∧ i.auto_unlock_at = some t ∧ t < now) →
        (studentStatus st now noFaults sid).store = st
        ∧ (studentStatus st now noFaults sid).response.status = some r.status)
    ∧ ((latestCreated (openInterventions st sid) = none
          ∨ ∃ i, latestCreated (openInterventions st sid) = some i
              ∧ i.auto_unlock_at = some now) →
        (studentStatus st now noFaults sid).store = st) := by
  obtain ⟨hresp, hstore⟩ := studentStatus_ok st now sid r hr
  have hdue : autoUnlockDue (latestCreated (openInterventions st sid)) now = true
      ↔ ∃ i t, latestCreated (openInterventions st sid) = some i
          ∧ i.auto_unlock_at = some t ∧ t < now := by
    cases latestCreated (openInterventions st sid) with
    | none => simp [autoUnlockDue]
    | some i =>
      cases ha : i.auto_unlock_at with
      | none => simp [autoUnlockDue, ha]
      | some t => simp [autoUnlockDue, ha]
  refine ⟨studentStatus_interventions st now noFaults sid, ?_, ?_, ?_, ?_⟩
  · intro s2 hs2
    rw [hstore]
    by_cases hd : autoUnlockDue (latestCreated (openInterventions st sid)) now = true
    · simp only [hd, if_true]
      exact filter_update_other st.students sid s2 Normal hs2
    · simp [hd]
  · intro hex
    have hd := hdue.mpr hex
    rw [hresp, hstore]
    simp [hd, storedStatus, filter_update_same, hr]
  · intro hnex
    have hd : ¬ autoUnlockDue (latestCreated (openInterventions st sid)) now = true :=
      fun h => hnex (hdue.mp h)
    rw [hresp, hstore]
    simp [hd]
  · intro hcase
    have hd : ¬ autoUnlockDue (latestCreated (openInterventions st sid)) now = true := by
      intro h
      obtain ⟨i, t, hi, ht, hlt⟩ := hdue.mp h
      rcases hcase with e | ⟨i2, e, e2⟩
      · rw [e] at hi; exact absurd hi (by simp)
      · rw [e] at hi
        simp at hi
        subst hi
        rw [e2] at ht
        simp at ht
        subst ht
        exact absurd hlt (Int.lt_irrefl _)
    rw [hstore]
    simp [hd]

/-- Witness of C8 on `oneOpen`: one millisecond after the deadline the status route answers
`'Normal'`. -/
theorem C8_studentStatus_frame_witness :
    oneOpen.students.filter (fun x => x.student_id == "s1") = [⟨"s1", NeedsIntervention⟩]
    ∧ (studentStatus oneOpen 43200011 noFaults "s1").response.status = some Normal :=
  ⟨by decide,
   ((C8_studentStatus_frame oneOpen 43200011 "s1" ⟨"s1", NeedsIntervention⟩
      (by decide)).2.2.1
      ⟨⟨1, "s1", Pending, none, false, 10, none, none, some 43200010⟩, 43200010,
        by decide, rfl, by decide⟩).2.1⟩

/-! ## Assignment followed by a status read -/

theorem latestCreated_map (l : List Intervention) (g : Intervention → Intervention)
    (hg : ∀ x, (g x).created_at = x.created_at) :
    latestCreated (l.map g) = (latestCreated l).map g := by
  induction l with
  | nil => rfl
  | cons a l ih =>
    simp only [List.map_cons, latestCreated, ih]
    cases latestCreated l with
    | none => rfl
    | some j =>
      simp only [Option.map_some', hg]
      by_cases hc : j.created_at > a.created_at <;> simp [hc]

theorem latestCreated_of_strict (l : List Intervention) (i : Intervention) (hi : i ∈ l)
    (hmax : ∀ j ∈ l, j ≠ i → j.created_at < i.created_at) : latestCreated l = some i := by
  cases hl : latestCreated l with
  | none =>
    rw [(latestCreated_eq_none l).mp hl] at hi
    exact absurd hi (List.not_mem_nil _)
  | some k =>
    obtain ⟨hk, hkmax⟩ := latestCreated_spec l k hl
    by_cases e : k = i
    · rw [e]
    · exact absurd (hkmax i hi) (Int.not_le.mpr (hmax k hk e))

theorem openInterventions_assign (st : Store) (students : List Student) (logs : List DailyLog)
    (sid task : String) (iid : Nat) (now : Int) :
    openInterventions ⟨students, st.interventions.map (fun i =>
        if i.id = iid ∧ i.student_id = sid then assignedRow i task now else i), logs⟩ sid
      = (openInterventions st sid).map (fun i =>
        if i.id = iid ∧ i.student_id = sid then assignedRow i task now else i) := by
  unfold openInterventions
  simp only [List.filter_map]
  congr 1
  apply List.filter_congr
  intro x _
  by_cases c : x.id = iid ∧ x.student_id = sid <;> simp [c, assignedRow]

/-- C9 as stated fails: with two Interventions of `s1` open, assigning the older one makes
the status route answer no task (it reads the newer one); and after the deadline of the
assigned Intervention the status route answers `'Normal'`, not `'Remedial'`. -/
theorem C9_assign_then_status_counterexample :
    twoOpen.interventions[0]?
        = some ⟨1, "s1", Pending, none, false, 10, none, none, some 43200010⟩
    ∧ (studentStatus (assignInterventionPost twoOpen 30 noFaults
          ⟨some "s1", some "Review chapter 3", some 1⟩).store 40 noFaults "s1").response.task
        = none
    ∧ (studentStatus (assignInterventionPost twoOpen 30 noFaults
          ⟨some "s1", some "Review chapter 3", some 1⟩).store 40 noFaults
          "s1").response.intervention_id = some 2
    ∧ oneOpen.interventions
        = [⟨1, "s1", Pending, none, false, 10, none, none, some 43200010⟩]
    ∧ (studentStatus (assignInterventionPost oneOpen 30 noFaults
          ⟨some "s1", some "Review chapter 3", some 1⟩).store 43200011 noFaults
          "s1").response.status = some Normal := by
  decide

/-- C9 amended: on a store holding a Student record for `s` in which Intervention `i` of `s`
(its id not the number `0`, which the POST route rejects) has `completed_at` null and a
`created_at` strictly later than every other such Intervention of `s`, for every non-empty
task, the assignment of `i` followed by a status read no later than the `auto_unlock_at`
of `i` answers status `'Remedial'`, the id of `i` and a task equal to the supplied
string. -/
theorem C9_assign_then_status_amended (st : Store) (now1 now2 : Int) (sid task : String)
    (r : Student) (i : Intervention) (hs : sid ≠ "") (ht : task ≠ "")
    (hr : st.students.filter (fun x => x.student_id == sid) = [r])
    (hi : i ∈ st.interventions) (his : i.student_id = sid) (hic : i.completed_at = none)
    (hlatest : ∀ j ∈ st.interventions, j.student_id = sid → j.completed_at = none → j ≠ i →
      j.created_at < i.created_at)
    (hexp : ∀ t, i.auto_unlock_at = some t → now2 ≤ t) (hid0 : i.id ≠ 0) :
    (studentStatus (assignInterventionPost st now1 noFaults
        ⟨some sid, some task, some i.id⟩).store now2 noFaults sid).response.status
        = some Remedial
    ∧ (studentStatus (assignInterventionPost st now1 noFaults
        ⟨some sid, some task, some i.id⟩).store now2 noFaults sid).response.task = some task
    ∧ (studentStatus (assignInterventionPost st now1 noFaults
        ⟨some sid, some task, some i.id⟩).store now2 noFaults sid).response.intervention_id
        = some i.id := by
  obtain ⟨h1, _, _, _, _⟩ := assign_ok st now1 sid task i.id hs ht hid0
  have hsel : latestCreated (openInterventions st sid) = some i := by
    apply latestCreated_of_strict
    · exact (mem_openInterventions st sid i).mpr ⟨hi, his, hic⟩
    · intro j hj hne
      obtain ⟨hj1, hj2, hj3⟩ := (mem_openInterventions st sid j).mp hj
      exact hlatest j hj1 hj2 hj3 hne
  have hsel2 : latestCreated (openInterventions
      (assignInterventionPost st now1 noFaults ⟨some sid, some task, some i.id⟩).store sid)
      = some (assignedRow i task now1) := by
    rw [h1, openInterventions_assign, latestCreated_map, hsel]
    · simp [his]
    · intro x
      by_cases c : x.id = i.id ∧ x.student_id = sid <;> simp [c, assignedRow]
  have hr2 : (assignInterventionPost st now1 noFaults
      ⟨some sid, some task, some i.id⟩).store.students.filter (fun x => x.student_id == sid)
      = [{ r with status := Remedial }] := by
    rw [h1]
    simp only [filter_update_same, hr, List.map_cons, List.map_nil]
  have hdue : autoUnlockDue (some (assignedRow i task now1)) now2 = false := by
    unfold autoUnlockDue
    cases ha : i.auto_unlock_at with
    | none => simp [assignedRow, ha]
    | some t =>
      have := hexp t ha
      simp [assignedRow, ha, Int.not_lt.mpr this]
  obtain ⟨hresp, _⟩ := studentStatus_ok _ now2 sid _ hr2
  rw [hresp, hsel2, hdue]
  simp [assignedRow]

/-- Witness of C9 amended on `oneOpen`: assignment at time 30, status read at time 40. -/
theorem C9_assign_then_status_amended_witness :
    ("s1" ≠ "" ∧ "Review chapter 3" ≠ "" ∧ (1 : Nat) ≠ 0)
    ∧ (studentStatus (assignInterventionPost oneOpen 30 noFaults
        ⟨some "s1", some "Review chapter 3", some 1⟩).store 40 noFaults "s1").response.task
        = some "Review chapter 3" :=
  ⟨⟨by decide, by decide, by decide⟩,
   (C9_assign_then_status_amended oneOpen 30 40 "s1" "Review chapter 3"
      ⟨"s1", NeedsIntervention⟩
      ⟨1, "s1", Pending, none, false, 10, none, none, some 43200010⟩
      (by decide) (by decide) (by decide) (by decide) rfl rfl (by decide)
      (by intro t h; cases h; decide) (by decide)).2.1⟩

/-! ## At most one non-Completed Intervention per student -/

theorem filter_map_length_le {α : Type} (l : List α) (g : α → α) (p : α → Bool)
    (h : ∀ x ∈ l, p (g x) = true → p x = true) :
    ((l.map g).filter p).length ≤ (l.filter p).length := by
  induction l with
  | nil => simp
  | cons a l ih =>
    have hl : ∀ x ∈ l, p (g x) = true → p x = true :=
      fun x hx => h x (List.mem_cons_of_mem a hx)
    have ih2 := ih hl
    by_cases c : p (g a) = true
    · have c2 : p a = true := h a (List.mem_cons_self a l) c
      simp only [List.map_cons, List.filter_cons, c, c2, if_true, List.length_cons]
      exact Nat.succ_le_succ ih2
    · by_cases c2 : p a = true
      · simp only [List.map_cons, List.filter_cons, c, c2, if_true, List.length_cons]
        exact Nat.le_succ_of_le ih2
      · simp only [List.map_cons, List.filter_cons, c, c2]
        exact ih2

theorem assign_preserves_atMostOneOpen (st : Store) (res : Result) (now : Int) (f : Faults)
    (req : AssignReq) (hinv : AtMostOneOpen st) (hg : AssignGuard st req)
    (hres : res ∈ [assignInterventionPost st now f req, assignInterventionGet st now f req]) :
    AtMostOneOpen res.store := by
  intro s
  rcases assign_interventions st now f req res hres with e | ⟨sid, task, iid, h1, h2, e⟩
  · unfold nonCompleted; rw [e]; exact hinv s
  · unfold nonCompleted
    rw [e]
    refine Nat.le_trans (filter_map_length_le _ _ _ ?_) (hinv s)
    intro x hx hp
    by_cases c : x.id = iid ∧ x.student_id = sid
    · have hnc : x.status ≠ Completed :=
        hg x hx (by rw [h2, c.1]) (by rw [h1, c.2])
      simp only [if_pos c, assignedRow] at hp
      simp only [Bool.and_eq_true, beq_iff_eq, bne_iff_ne, ne_eq] at hp ⊢
      exact ⟨hp.1, hnc⟩
    · simpa only [if_neg c] using hp

/-- Requests that respect the guards keep at most one non-Completed Intervention per
student. -/
theorem guardedReachable_atMostOneOpen (st : Store) (h : GuardedReachable st) :
    AtMostOneOpen st := by
  induction h with
  | empty => intro s; simp [nonCompleted, Store.empty]
  | checkin zone st now f hook req _ hg ih =>
    intro s
    rcases dailyCheckin_interventions zone st now f hook req with
      e | ⟨sid, q, fm, hsid, hq, hfm, hpair, e⟩
    · unfold nonCompleted; rw [e]; exact ih s
    · have hall : ∀ i ∈ st.interventions, i.student_id = sid → i.status = Completed := by
        rcases hg with ⟨q2, fm2, hq2, hfm2, hpass⟩ | hg2
        · rw [hq] at hq2; rw [hfm] at hfm2
          simp only [Option.some.injEq] at hq2 hfm2
          subst hq2; subst hfm2
          exact absurd hpass hpair
        · intro i hi his
          exact hg2 i hi (by rw [hsid, his])
      unfold nonCompleted
      rw [e, List.filter_append, List.length_append]
      by_cases hs : s = sid
      · subst hs
        have hnil : st.interventions.filter
            (fun i => i.student_id == s && i.status != Completed) = [] := by
          rw [List.filter_eq_nil_iff]
          intro i hi
          simp only [Bool.and_eq_true, beq_iff_eq, bne_iff_ne, ne_eq, not_and, not_not]
          intro his
          exact hall i hi his
        rw [hnil]
        simp only [List.length_nil, Nat.zero_add]
        exact List.length_filter_le _ _
      · have hnil : List.filter (fun i => i.student_id == s && i.status != Completed)
            [(⟨freshId st.interventions, sid, Pending, none, false, now, none, none,
              some (autoUnlockAt zone now)⟩ : Intervention)] = [] := by
          rw [List.filter_eq_nil_iff]
          intro i hi
          rw [List.mem_singleton] at hi
          subst hi
          simp only [Bool.and_eq_true, beq_iff_eq, not_and]
          intro h2
          exact absurd h2.symm hs
        rw [hnil]
        exact ih s
  | assignPost st now f req _ hg ih =>
    exact assign_preserves_atMostOneOpen st _ now f req ih hg (List.mem_cons_self _ _)
  | assignGet st now f req _ hg ih =>
    exact assign_preserves_atMostOneOpen st _ now f req ih hg
      (List.mem_cons_of_mem _ (List.mem_cons_self _ _))
  | status st now f sid _ ih =>
    intro s
    unfold nonCompleted
    rw [studentStatus_interventions]
    exact ih s
  | complete st now f req _ ih =>
    intro s
    rcases completeRemedial_interventions st now f req with e | ⟨sid, _, e⟩
    · unfold nonCompleted; rw [e]; exact ih s
    · unfold nonCompleted
      rw [e]
      refine Nat.le_trans (filter_map_length_le _ _ _ ?_) (ih s)
      intro x _ hp
      by_cases c : x.student_id = sid ∧ x.completed_at = none
      · simp [if_pos c, completedRow] at hp
      · simpa only [if_neg c] using hp

/-- C10 as stated fails: two failing check-ins of `s1` in a row reach a store in which `s1`
has two Interventions with status `'Pending'`. -/
theorem C10_atMostOneOpen_counterexample :
    Reachable twoOpen ∧ (nonCompleted twoOpen "s1").length = 2 ∧ ¬ AtMostOneOpen twoOpen := by
  refine ⟨?_, by decide, ?_⟩
  · exact Reachable.checkin utc _ 20 noFaults Webhook.notConfigured failingCheckin
      (Reachable.checkin utc _ 10 noFaults Webhook.notConfigured failingCheckin Reachable.empty)
  · intro h
    exact absurd (h "s1") (by decide)

/-- C10 amended: in every store reachable from the empty store by requests to the routes of
`server.js` in which a failing check-in of a student is made only while that student has no
non-Completed Intervention and an assignment addresses no Completed Intervention, each
student has at most one Intervention whose status is not `'Completed'`. -/
theorem C10_atMostOneOpen_guarded_amended (st : Store) (h : GuardedReachable st) :
    ∀ sid : String,
      (st.interventions.filter
        (fun i => i.student_id == sid && i.status != Completed)).length ≤ 1 :=
  guardedReachable_atMostOneOpen st h

/-- Witness of C10 amended: a failing check-in, the completion, and a second failing
check-in of `s1`. -/
theorem C10_atMostOneOpen_guarded_amended_witness :
    GuardedReachable (dailyCheckin utc completedStore 40 noFaults Webhook.ok failingCheckin).store
    ∧ ((dailyCheckin utc completedStore 40 noFaults Webhook.ok
          failingCheckin).store.interventions.filter
        (fun i => i.student_id == "s1" && i.status != Completed)).length ≤ 1 :=
  have hreach : GuardedReachable
      (dailyCheckin utc completedStore 40 noFaults Webhook.ok failingCheckin).store :=
    GuardedReachable.checkin utc _ 40 noFaults Webhook.ok failingCheckin
      (GuardedReachable.complete _ 20 noFaults ⟨some "s1"⟩
        (GuardedReachable.checkin utc _ 10 noFaults Webhook.notConfigured failingCheckin
          GuardedReachable.empty (Or.inr (by decide))))
      (Or.inr (by decide))
  ⟨hreach, C10_atMostOneOpen_guarded_amended _ hreach "s1"⟩

/-! ## Completed Interventions -/

theorem reachable_completedHasTime (st : Store) (h : Reachable st) : CompletedHasTime st := by
  have hPC : (Pending : String) ≠ Completed := by decide
  have hAC : (Assigned : String) ≠ Completed := by decide
  have assignCase : ∀ (st : Store) (res : Result) (now : Int) (f : Faults) (req : AssignReq),
      CompletedHasTime st →
      res ∈ [assignInterventionPost st now f req, assignInterventionGet st now f req] →
      CompletedHasTime res.store := by
    intro st res now f req ih hres
    rcases assign_interventions st now f req res hres with e | ⟨sid, task, iid, _, _, e⟩
    · intro i hi; rw [e] at hi; exact ih i hi
    · intro i hi hp
      rw [e] at hi
      obtain ⟨j, hj, hji⟩ := List.mem_map.mp hi
      by_cases c : j.id = iid ∧ j.student_id = sid
      · rw [if_pos c] at hji
        subst hji
        exact absurd hp hAC
      · rw [if_neg c] at hji
        subst hji
        exact ih j hj hp
  induction h with
  | empty => intro i hi; exact absurd hi (List.not_mem_nil _)
  | checkin zone st now f hook req _ ih =>
    rcases dailyCheckin_interventions zone st now f hook req with e | ⟨sid, q, fm, _, _, _, _, e⟩
    · intro i hi; rw [e] at hi; exact ih i hi
    · intro i hi hp
      rw [e] at hi
      rcases List.mem_append.mp hi with h1 | h1
      · exact ih i h1 hp
      · rw [List.mem_singleton] at h1
        subst h1
        exact absurd hp hPC
  | assignPost st now f req _ ih =>
    exact assignCase st _ now f req ih (List.mem_cons_self _ _)
  | assignGet st now f req _ ih =>
    exact assignCase st _ now f req ih (List.mem_cons_of_mem _ (List.mem_cons_self _ _))
  | status st now f sid _ ih =>
    intro i hi
    rw [studentStatus_interventions] at hi
    exact ih i hi
  | complete st now f req _ ih =>
    rcases completeRemedial_interventions st now f req with e | ⟨sid, _, e⟩
    · intro i hi; rw [e] at hi; exact ih i hi
    · intro i hi hp
      rw [e] at hi
      obtain ⟨j, hj, hji⟩ := List.mem_map.mp hi
      by_cases c : j.student_id = sid ∧ j.completed_at = none
      · rw [if_pos c] at hji
        subst hji
        simp [completedRow]
      · rw [if_neg c] at hji
        subst hji
        exact ih j hj hp

theorem getElem?_append_singleton_of_some {α : Type} (l : List α) (x a : α) (k : Nat)
    (h : l[k]? = some a) : (l ++ [x])[k]? = some a := by
  have hk : k < l.length := by
    by_contra hn
    rw [List.getElem?_eq_none (Nat.le_of_not_lt hn)] at h
    exact absurd h (by simp)
  rw [List.getElem?_append_left hk, h]

/-- C11 as stated fails: an assignment that addresses a `'Completed'` Intervention rewrites
it to `'Assigned'` with the new task, in a store reached through the routes. -/
theorem C11_completed_immutable_counterexample :
    Reachable completedStore
    ∧ completedStore.interventions[0]?
        = some ⟨1, "s1", Completed, none, false, 10, none, some 20, some 43200010⟩
    ∧ (assignInterventionPost completedStore 30 noFaults
        ⟨some "s1", some "Review chapter 3", some 1⟩).store.interventions[0]?
        = some ⟨1, "s1", Assigned, some "Review chapter 3", true, 10, some 30, some 20,
            some 43200010⟩ := by
  refine ⟨?_, by decide, by decide⟩
  exact Reachable.complete _ 20 noFaults ⟨some "s1"⟩
    (Reachable.checkin utc _ 10 noFaults Webhook.notConfigured failingCheckin Reachable.empty)

/-- C11 amended: an Intervention `i` with status `'Completed'` is identical, field for field
and in the same place, after a check-in, after a status read, after a completion (in every
reachable store, and in any store when its `completed_at` is set) and after an assignment
that does not address `i` by its id and student; whatever the arguments, the clock and the
store calls that fail. -/
theorem C11_completed_immutable_amended (zone : TimeZone) (st : Store) (k : Nat) (i : Intervention)
    (hi : st.interventions[k]? = some i) (hc : i.status = Completed) :
    (∀ now f hook req, (dailyCheckin zone st now f hook req).store.interventions[k]? = some i)
    ∧ (∀ now f sid, (studentStatus st now f sid).store.interventions[k]? = some i)
    ∧ (∀ now f req, (Reachable st ∨ i.completed_at ≠ none) →
        (completeRemedial st now f req).store.interventions[k]? = some i)
    ∧ (∀ now f req, ¬ (some i.id = req.intervention_id ∧ some i.student_id = req.student_id) →
        ∀ res ∈ [assignInterventionPost st now f req, assignInterventionGet st now f req],
          res.store.interventions[k]? = some i) := by
  have hmem : i ∈ st.interventions := List.getElem?_mem hi
  refine ⟨?_, ?_, ?_, ?_⟩
  · intro now f hook req
    rcases dailyCheckin_interventions zone st now f hook req with e | ⟨sid, q, fm, _, _, _, _, e⟩
    · rw [e]; exact hi
    · rw [e]; exact getElem?_append_singleton_of_some _ _ _ _ hi
  · intro now f sid
    rw [studentStatus_interventions]; exact hi
  · intro now f req hor
    have hct : i.completed_at ≠ none := by
      rcases hor with hr | hn
      · exact reachable_completedHasTime st hr i hmem hc
      · exact hn
    rcases completeRemedial_interventions st now f req with e | ⟨sid, _, e⟩
    · rw [e]; exact hi
    · rw [e, List.getElem?_map, hi]
      have c : ¬ (i.student_id = sid ∧ i.completed_at = none) := fun h => hct h.2
      simp only [Option.map_some', if_neg c]
  · intro now f req hna res hres
    rcases assign_interventions st now f req res hres with e | ⟨sid, task, iid, h1, h2, e⟩
    · rw [e]; exact hi
    · rw [e, List.getElem?_map, hi]
      have c : ¬ (i.id = iid ∧ i.student_id = sid) := by
        intro h
        apply hna
        rw [h1, h2, h.1, h.2]
        exact ⟨rfl, rfl⟩
      simp only [Option.map_some', if_neg c]

/-- Witness of C11 amended on `completedStore`: a later completion at time 50 leaves the
`'Completed'` Intervention of `s1` as it was. -/
theorem C11_completed_immutable_amended_witness :
    (completedStore.interventions[0]?
        = some ⟨1, "s1", Completed, none, false, 10, none, some 20, some 43200010⟩
      ∧ (Completed : String) = Completed)
    ∧ (completeRemedial completedStore 50 noFaults ⟨some "s1"⟩).store.interventions[0]?
        = some ⟨1, "s1", Completed, none, false, 10, none, some 20, some 43200010⟩ :=
  ⟨⟨by decide, rfl⟩,
   (C11_completed_immutable_amended utc completedStore 0
      ⟨1, "s1", Completed, none, false, 10, none, some 20, some 43200010⟩
      (by decide) rfl).2.2.1 50 noFaults ⟨some "s1"⟩ (Or.inr (by decide))⟩

/-! ## Repeating a completion or a status read -/

theorem complete_response (st : Store) (now : Int) (sid : String) (hs : sid ≠ "") :
    (completeRemedial st now noFaults ⟨some sid⟩).response.code = 200
    ∧ (completeRemedial st now noFaults ⟨some sid⟩).response.success = some true
    ∧ (completeRemedial st now noFaults ⟨some sid⟩).response.status = some Normal
    ∧ (completeRemedial st now noFaults ⟨some sid⟩).response.error = none := by
  obtain ⟨n1, n2, n3, n4, n5, n6, n7⟩ := noFaults_fields
  simp [completeRemedial, truthy, hs, n5, n6, updateInterventionComplete, updateStudentStatus,
    Response.blank]

/-- C12: for every store, student `s` and clock readings `now1`, `now2`, two completions of
`s` in a row both answer success with status `'Normal'`, and the store after the second is
the store after the first. -/
theorem C12_complete_twice (st : Store) (now1 now2 : Int) (sid : String) (hs : sid ≠ "") :
    ((completeRemedial st now1 noFaults ⟨some sid⟩).response.code = 200
      ∧ (completeRemedial st now1 noFaults ⟨some sid⟩).response.success = some true
      ∧ (completeRemedial st now1 noFaults ⟨some sid⟩).response.status = some Normal)
    ∧ ((completeRemedial (completeRemedial st now1 noFaults ⟨some sid⟩).store now2 noFaults
          ⟨some sid⟩).response.code = 200
      ∧ (completeRemedial (completeRemedial st now1 noFaults ⟨some sid⟩).store now2 noFaults
          ⟨some sid⟩).response.success = some true
      ∧ (completeRemedial (completeRemedial st now1 noFaults ⟨some sid⟩).store now2 noFaults
          ⟨some sid⟩).response.status = some Normal)
    ∧ (completeRemedial (completeRemedial st now1 noFaults ⟨some sid⟩).store now2 noFaults
          ⟨some sid⟩).store
        = (completeRemedial st now1 noFaults ⟨some sid⟩).store := by
  obtain ⟨a1, a2, a3, _⟩ := complete_response st now1 sid hs
  obtain ⟨b1, b2, b3, _⟩ :=
    complete_response (completeRemedial st now1 noFaults ⟨some sid⟩).store now2 sid hs
  refine ⟨⟨a1, a2, a3⟩, ⟨b1, b2, b3⟩, ?_⟩
  obtain ⟨h2, _, _, _⟩ :=
    complete_ok (completeRemedial st now1 noFaults ⟨some sid⟩).store now2 sid hs
  obtain ⟨h1, _, _, _⟩ := complete_ok st now1 sid hs
  rw [h2, h1]
  simp only [List.map_map, Store.mk.injEq, and_true]
  constructor
  · apply List.map_congr_left
    intro x _
    by_cases c : x.student_id = sid <;> simp [c]
  · apply List.map_congr_left
    intro x _
    by_cases c : x.student_id = sid ∧ x.completed_at = none
    · simp [c, completedRow]
    · simp only [Function.comp_apply, if_neg c]

/-- Witness of C12 on `twoOpen`, completions at times 100 and 200. -/
theorem C12_complete_twice_witness :
    "s1" ≠ ""
    ∧ (completeRemedial (completeRemedial twoOpen 100 noFaults ⟨some "s1"⟩).store 200 noFaults
          ⟨some "s1"⟩).store
        = (completeRemedial twoOpen 100 noFaults ⟨some "s1"⟩).store :=
  ⟨by decide, (C12_complete_twice twoOpen 100 200 "s1" (by decide)).2.2⟩

theorem autoUnlockDue_mono (o : Option Intervention) (t1 t2 : Int) (h12 : t1 ≤ t2)
    (h : autoUnlockDue o t1 = true) : autoUnlockDue o t2 = true := by
  cases o with
  | none => simp [autoUnlockDue] at h
  | some i =>
    cases ha : i.auto_unlock_at with
    | none => simp [autoUnlockDue, ha] at h
    | some t =>
      simp only [autoUnlockDue, ha, decide_eq_true_eq] at h ⊢
      exact Int.lt_of_lt_of_le h h12

/-- A status read that auto-unlocked, followed by a later status read. -/
theorem studentStatus_after_unlock (st : Store) (t1 t2 : Int) (sid : String) (r : Student)
    (hr : st.students.filter (fun x => x.student_id == sid) = [r]) (h12 : t1 ≤ t2)
    (hdue : autoUnlockDue (latestCreated (openInterventions st sid)) t1 = true) :
    (studentStatus (studentStatus st t1 noFaults sid).store t2 noFaults sid).response
        = (studentStatus st t1 noFaults sid).response
    ∧ (studentStatus (studentStatus st t1 noFaults sid).store t2 noFaults sid).store
        = (studentStatus st t1 noFaults sid).store
    ∧ (studentStatus st t1 noFaults sid).response.status = some Normal := by
  obtain ⟨hresp1, hstore1⟩ := studentStatus_ok st t1 sid r hr
  simp only [hdue, if_true] at hresp1 hstore1
  have hr2 : (studentStatus st t1 noFaults sid).store.students.filter
      (fun x => x.student_id == sid) = [{ r with status := Normal }] := by
    rw [hstore1]
    simp only [filter_update_same, hr, List.map_cons, List.map_nil]
  have hopen : openInterventions (studentStatus st t1 noFaults sid).store sid
      = openInterventions st sid := by
    rw [hstore1]; rfl
  have hdue2 : autoUnlockDue (latestCreated (openInterventions st sid)) t2 = true :=
    autoUnlockDue_mono _ t1 t2 h12 hdue
  obtain ⟨hresp2, hstore2⟩ := studentStatus_ok _ t2 sid _ hr2
  rw [hopen] at hresp2 hstore2
  simp only [hdue2, if_true] at hresp2 hstore2
  refine ⟨?_, ?_, ?_⟩
  · rw [hresp2, hresp1]
  · rw [hstore2, hstore1]
    simp only [List.map_map, Store.mk.injEq, and_true]
    apply List.map_congr_left
    intro x _
    by_cases c : x.student_id = sid <;> simp [c]
  · rw [hresp1]

/-- C13: on a store holding a Student record for `s`, with `t1 ≤ t2`: when the status read
at `t1` answered `'Normal'` because the selected Intervention was past its `auto_unlock_at`,
the status read at `t2` answers `'Normal'` with the same `intervention_id` and task and
leaves the store the first read left; and for every store two status reads at the same
time give the same response. -/
theorem C13_studentStatus_twice (st : Store) (t1 t2 : Int) (sid : String) (r : Student)
    (hr : st.students.filter (fun x => x.student_id == sid) = [r]) (h12 : t1 ≤ t2) :
    ((∃ i t, latestCreated (openInterventions st sid) = some i
          ∧ i.auto_unlock_at = some t ∧ t < t1) →
        (studentStatus st t1 noFaults sid).response.status = some Normal
        ∧ (studentStatus (studentStatus st t1 noFaults sid).store t2 noFaults sid).response.status
            = some Normal
        ∧ (studentStatus (studentStatus st t1 noFaults sid).store t2 noFaults
            sid).response.intervention_id
            = (studentStatus st t1 noFaults sid).response.intervention_id
        ∧ (studentStatus (studentStatus st t1 noFaults sid).store t2 noFaults sid).response.task
            = (studentStatus st t1 noFaults sid).response.task
        ∧ (studentStatus (studentStatus st t1 noFaults sid).store t2 noFaults sid).store
            = (studentStatus st t1 noFaults sid).store)
    ∧ (∀ (st0 : Store) (t : Int) (s0 : String),
        (studentStatus (studentStatus st0 t noFaults s0).store t noFaults s0).response
          = (studentStatus st0 t noFaults s0).response) := by
  constructor
  · rintro ⟨i, t, hi, ht, hlt⟩
    have hdue : autoUnlockDue (latestCreated (openInterventions st sid)) t1 = true := by
      rw [hi]
      simp [autoUnlockDue, ht, hlt]
    obtain ⟨e1, e2, e3⟩ := studentStatus_after_unlock st t1 t2 sid r hr h12 hdue
    refine ⟨e3, ?_, ?_, ?_, e2⟩
    · rw [e1]; exact e3
    · rw [e1]
    · rw [e1]
  · intro st0 t s0
    obtain ⟨n1, n2, n3, n4, n5, n6, n7⟩ := noFaults_fields
    match hf : st0.students.filter (fun x => x.student_id == s0) with
    | [] =>
      have e : (studentStatus st0 t noFaults s0).store = st0 := by
        simp [studentStatus, selectStudent, n1, hf]
      rw [e]
    | [r0] =>
      by_cases hdue : autoUnlockDue (latestCreated (openInterventions st0 s0)) t = true
      · exact (studentStatus_after_unlock st0 t t s0 r0 hf (Int.le_refl t) hdue).1
      · have e : (studentStatus st0 t noFaults s0).store = st0 := by
          rw [(studentStatus_ok st0 t s0 r0 hf).2]
          simp [hdue]
        rw [e]
    | a :: b :: l =>
      have e : (studentStatus st0 t noFaults s0).store = st0 := by
        simp [studentStatus, selectStudent, n1, hf]
      rw [e]

/-- Witness of C13 on `oneOpen`: status reads one and two milliseconds after the deadline. -/
theorem C13_studentStatus_twice_witness :
    (oneOpen.students.filter (fun x => x.student_id == "s1") = [⟨"s1", NeedsIntervention⟩]
      ∧ (43200011 : Int) ≤ 43200012)
    ∧ (studentStatus (studentStatus oneOpen 43200011 noFaults "s1").store 43200012 noFaults
        "s1").response.status = some Normal :=
  ⟨⟨by decide, by decide⟩,
   ((C13_studentStatus_twice oneOpen 43200011 43200012 "s1" ⟨"s1", NeedsIntervention⟩
      (by decide) (by decide)).1
      ⟨⟨1, "s1", Pending, none, false, 10, none, none, some 43200010⟩, 43200010,
        by decide, rfl, by decide⟩).2.1⟩

/-! ## The end-to-end scenario -/

/-- The end-to-end scenario from the empty store, with the status read of step 3 made no
later than the deadline stored by the first check-in: the check-in `("s1", 4, 30, false)` leaves `s1` with status
`'Needs Intervention'` and one `'Pending'` Intervention whose id it answers; after the
assignment of that id with task `"Review chapter 3"` the status read answers `'Remedial'`
and exactly that task; the completion makes the status `'Normal'`; the check-in
`("s1", 9, 70, false)` makes it `'On Track'`, which the last status read answers. -/
theorem scenario_end_to_end (zone : TimeZone) (clock : Nat → Int) (hook : Webhook)
    (h : clock 3 ≤ autoUnlockAt zone (clock 1)) :
    (storedStatus (scenarioCheckin zone clock hook).store "s1" = [NeedsIntervention]
      ∧ (scenarioCheckin zone clock hook).store.interventions
          = [⟨1, "s1", Pending, none, false, clock 1, none, none, some (autoUnlockAt zone (clock 1))⟩]
      ∧ (scenarioCheckin zone clock hook).response.intervention_id = some 1)
    ∧ ((scenarioAssign zone clock hook).response.success = some true
      ∧ (scenarioStatus zone clock hook).response.status = some Remedial
      ∧ (scenarioStatus zone clock hook).response.task = some "Review chapter 3")
    ∧ ((scenarioComplete zone clock hook).response.status = some Normal
      ∧ storedStatus (scenarioComplete zone clock hook).store "s1" = [Normal])
    ∧ ((scenarioSecondCheckin zone clock hook).response.status = some OnTrack
      ∧ storedStatus (scenarioSecondCheckin zone clock hook).store "s1" = [OnTrack])
    ∧ (scenarioLastStatus zone clock hook).response.status = some OnTrack := by
  have hdue : decide (clock 3 > autoUnlockAt zone (clock 1)) = false := by
    simp only [decide_eq_false_iff_not]
    exact Int.not_lt.mpr h
  have h3 : scenarioStatus zone clock hook
      = ⟨{ Response.blank 200 with
            status := some (if decide (clock 3 > autoUnlockAt zone (clock 1)) = true
              then Normal else Remedial),
            task := some "Review chapter 3",
            intervention_id := some 1,
            student_id := some "s1" },
         if decide (clock 3 > autoUnlockAt zone (clock 1)) = true then
           ⟨[⟨"s1", Normal⟩],
            [⟨1, "s1", Assigned, some "Review chapter 3", true, clock 1, some (clock 2), none,
              some (autoUnlockAt zone (clock 1))⟩],
            [⟨"s1", 4, 30⟩]⟩
         else
           ⟨[⟨"s1", Remedial⟩],
            [⟨1, "s1", Assigned, some "Review chapter 3", true, clock 1, some (clock 2), none,
              some (autoUnlockAt zone (clock 1))⟩],
            [⟨"s1", 4, 30⟩]⟩,
         []⟩ := rfl
  rw [hdue] at h3
  simp only [Bool.false_eq_true, if_false] at h3
  have h4 : scenarioComplete zone clock hook
      = completeRemedial
          ⟨[⟨"s1", Remedial⟩],
           [⟨1, "s1", Assigned, some "Review chapter 3", true, clock 1, some (clock 2), none,
             some (autoUnlockAt zone (clock 1))⟩],
           [⟨"s1", 4, 30⟩]⟩ (clock 4) noFaults ⟨some "s1"⟩ := by
    unfold scenarioComplete
    rw [h3]
  have h5 : scenarioSecondCheckin zone clock hook
      = dailyCheckin zone (completeRemedial
          ⟨[⟨"s1", Remedial⟩],
           [⟨1, "s1", Assigned, some "Review chapter 3", true, clock 1, some (clock 2), none,
             some (autoUnlockAt zone (clock 1))⟩],
           [⟨"s1", 4, 30⟩]⟩ (clock 4) noFaults ⟨some "s1"⟩).store (clock 5) noFaults hook
          ⟨some "s1", some 9, some 70, false⟩ := by
    unfold scenarioSecondCheckin
    rw [h4]
  have h6 : scenarioLastStatus zone clock hook
      = studentStatus (dailyCheckin zone (completeRemedial
          ⟨[⟨"s1", Remedial⟩],
           [⟨1, "s1", Assigned, some "Review chapter 3", true, clock 1, some (clock 2), none,
             some (autoUnlockAt zone (clock 1))⟩],
           [⟨"s1", 4, 30⟩]⟩ (clock 4) noFaults ⟨some "s1"⟩).store (clock 5) noFaults hook
          ⟨some "s1", some 9, some 70, false⟩).store (clock 6) noFaults "s1" := by
    unfold scenarioLastStatus
    rw [h5]
  refine ⟨⟨rfl, rfl, rfl⟩, ⟨rfl, ?_, ?_⟩, ⟨?_, ?_⟩, ⟨?_, ?_⟩, ?_⟩
  · rw [h3]
  · rw [h3]
  · rw [h4]; rfl
  · rw [h4]; rfl
  · rw [h5]; rfl
  · rw [h5]; rfl
  · rw [h6]; rfl

/-- C14 fails on the code: in the zone America/New_York, with the first check-in at
2026-03-08T06:30:00Z and the six requests spread over less than twelve hours, the status
read made eleven hours and a quarter after the check-in (after the assignment) answers
`'Normal'`, not `'Remedial'`: the deadline stored by the check-in is eleven hours after it,
because `setHours` adds twelve hours to the local wall clock across the start of daylight
saving time. The task read back is the one assigned. -/
theorem C14_end_to_end_dst_failure :
    (dstClock 1 ≤ dstClock 2 ∧ dstClock 2 ≤ dstClock 3 ∧ dstClock 3 ≤ dstClock 4
      ∧ dstClock 4 ≤ dstClock 5 ∧ dstClock 5 ≤ dstClock 6
      ∧ dstClock 6 < dstClock 1 + 12 * 3600 * 1000)
    ∧ storedStatus (scenarioCheckin newYork dstClock Webhook.notConfigured).store "s1"
        = [NeedsIntervention]
    ∧ (scenarioCheckin newYork dstClock Webhook.notConfigured).store.interventions
        = [⟨1, "s1", Pending, none, false, 1772951400000, none, none, some 1772991000000⟩]
    ∧ (scenarioAssign newYork dstClock Webhook.notConfigured).response.success = some true
    ∧ (scenarioStatus newYork dstClock Webhook.notConfigured).response.status = some Normal
    ∧ (scenarioStatus newYork dstClock Webhook.notConfigured).response.status ≠ some Remedial
    ∧ (scenarioStatus newYork dstClock Webhook.notConfigured).response.task
        = some "Review chapter 3" := by
  decide

/-! ## What a failing check-in answers and sends -/

/-- The payload the failing branch of the check-in route builds. -/
theorem dailyCheckin_failing_out (zone : TimeZone) (st : Store) (now : Int) (hook : Webhook) (sid : String)
    (q fm : Int) (pen : Bool) (hs : sid ≠ "") (hu : UniqueStudent st sid)
    (hq : ¬ (q > 7 ∧ fm > 60)) :
    (dailyCheckin zone st now noFaults hook ⟨some sid, some q, some fm, pen⟩).response
        = { Response.blank 200 with
            status := some "Pending Mentor Review",
            message := some (if pen = true then
              "Focus session interrupted! Your progress has been flagged for review."
              else "Your progress is under review. A mentor will contact you soon."),
            student_id := some sid,
            quiz_score := some q,
            focus_minutes := some fm,
            intervention_id := some (freshId st.interventions),
            penalty_imposed := some pen }
    ∧ (dailyCheckin zone st now noFaults hook ⟨some sid, some q, some fm, pen⟩).notified
        = (match hook with
           | Webhook.notConfigured => []
           | _ => [⟨sid, q, fm, freshId st.interventions, true, now, pen,
                    if pen = true then some "Tab switching detected during focus session"
                    else none,
                    if pen = true then "Auto-submitted due to penalty" else "Manual submission",
                    if pen = true then "Focus violation"
                    else if q ≤ 7 then "Low quiz score" else "Insufficient focus time"⟩]) := by
  obtain ⟨st1, h1, h2, h3⟩ := ensureStudent_ok st sid hu
  obtain ⟨n1, n2, n3, n4, n5, n6, n7⟩ := noFaults_fields
  constructor
  · simp [dailyCheckin, truthy, hs, h1, insertDailyLog, n3, n4, n5, hq, updateStudentStatus,
      insertIntervention, Response.blank, h2]
  · cases hook <;>
      simp [dailyCheckin, truthy, hs, h1, insertDailyLog, n3, n4, n5, hq, updateStudentStatus,
        insertIntervention, h2]

theorem storedStatus_singleton (st : Store) (sid x : String) (h : storedStatus st sid = [x]) :
    ∃ r, st.students.filter (fun y => y.student_id == sid) = [r] ∧ r.status = x := by
  unfold storedStatus at h
  match hf : st.students.filter (fun y => y.student_id == sid) with
  | [] => rw [hf] at h; simp at h
  | [r] => rw [hf] at h; simp at h; exact ⟨r, hf, h⟩
  | a :: b :: l => rw [hf] at h; simp at h

/-- C15 as stated fails: the failing check-in answers status `'Pending Mentor Review'`,
while it stores `'Needs Intervention'`, which is also what the next status read answers. -/
theorem C15_failing_status_counterexample :
    (dailyCheckin utc Store.empty 10 noFaults Webhook.notConfigured failingCheckin).response.status
        = some "Pending Mentor Review"
    ∧ (dailyCheckin utc Store.empty 10 noFaults Webhook.notConfigured failingCheckin).response.status
        ≠ some NeedsIntervention
    ∧ storedStatus (dailyCheckin utc Store.empty 10 noFaults Webhook.notConfigured
        failingCheckin).store "s1" = [NeedsIntervention]
    ∧ (studentStatus (dailyCheckin utc Store.empty 10 noFaults Webhook.notConfigured
        failingCheckin).store 11 noFaults "s1").response.status = some NeedsIntervention := by
  decide

/-- C15 amended: for every failing check-in, every store call succeeding, the status field
answered is the literal `'Pending Mentor Review'`; the status the call stores for the
student is `'Needs Intervention'`, and a following status read answers
`'Needs Intervention'` when it is made no later than the `auto_unlock_at` the check-in
stored on the new Intervention and no other Intervention of the student with
`completed_at` null is past its `auto_unlock_at`. -/
theorem C15_failing_status_amended (zone : TimeZone) (st : Store) (now now2 : Int) (hook : Webhook)
    (sid : String) (q fm : Int) (pen : Bool) (hs : sid ≠ "") (hu : UniqueStudent st sid)
    (hq : ¬ (q > 7 ∧ fm > 60)) (hnow : now2 ≤ autoUnlockAt zone now)
    (hold : ∀ j ∈ st.interventions, j.student_id = sid → j.completed_at = none →
      ∀ t, j.auto_unlock_at = some t → now2 ≤ t) :
    (dailyCheckin zone st now noFaults hook ⟨some sid, some q, some fm, pen⟩).response.status
        = some "Pending Mentor Review"
    ∧ storedStatus (dailyCheckin zone st now noFaults hook ⟨some sid, some q, some fm, pen⟩).store sid
        = [NeedsIntervention]
    ∧ (studentStatus (dailyCheckin zone st now noFaults hook ⟨some sid, some q, some fm, pen⟩).store
        now2 noFaults sid).response.status = some NeedsIntervention := by
  obtain ⟨hresp, _⟩ := dailyCheckin_failing_out zone st now hook sid q fm pen hs hu hq
  obtain ⟨iv, hiv, hivEq, _, _, hstat⟩ := dailyCheckin_failing zone st now hook sid q fm pen hs hu hq
  refine ⟨by rw [hresp], hstat, ?_⟩
  obtain ⟨r0, hr0, hr0s⟩ := storedStatus_singleton _ _ _ hstat
  obtain ⟨hresp2, _⟩ := studentStatus_ok _ now2 sid r0 hr0
  have hdue : autoUnlockDue (latestCreated (openInterventions
      (dailyCheckin zone st now noFaults hook ⟨some sid, some q, some fm, pen⟩).store sid)) now2
      = false := by
    cases hl : latestCreated (openInterventions
      (dailyCheckin zone st now noFaults hook ⟨some sid, some q, some fm, pen⟩).store sid) with
    | none => rfl
    | some k =>
      obtain ⟨hk, _⟩ := latestCreated_spec _ _ hl
      obtain ⟨hk1, hk2, hk3⟩ := (mem_openInterventions _ _ _).mp hk
      rw [hiv] at hk1
      cases ha : k.auto_unlock_at with
      | none => simp [autoUnlockDue, ha]
      | some t =>
        have hle : now2 ≤ t := by
          rcases List.mem_append.mp hk1 with m | m
          · exact hold k m hk2 hk3 t ha
          · rw [List.mem_singleton] at m
            rw [m, hivEq] at ha
            simp only [Option.some.injEq] at ha
            rw [← ha]; exact hnow
        simp [autoUnlockDue, ha, Int.not_lt.mpr hle]
  rw [hresp2, hdue, hr0s]
  rfl

/-- Witness of C15 amended on the empty store: check-in at time 10, status read at 11. -/
theorem C15_failing_status_amended_witness :
    ("s1" ≠ "" ∧ UniqueStudent Store.empty "s1" ∧ ¬ ((4 : Int) > 7 ∧ (30 : Int) > 60)
      ∧ (11 : Int) ≤ autoUnlockAt utc 10)
    ∧ (studentStatus (dailyCheckin utc Store.empty 10 noFaults Webhook.ok
        ⟨some "s1", some 4, some 30, false⟩).store 11 noFaults "s1").response.status
        = some NeedsIntervention :=
  ⟨⟨by decide, by decide, by decide, by decide⟩,
   (C15_failing_status_amended utc Store.empty 10 11 Webhook.ok "s1" 4 30 false
      (by decide) (by decide) (by decide) (by decide)
      (by intro j hj; exact absurd hj (List.not_mem_nil _))).2.2⟩

/-! ## The first-check-in bootstrap -/

theorem not_mem_of_filter_nil (st : Store) (sid : String)
    (hno : st.students.filter (fun x => x.student_id == sid) = []) :
    ∀ x ∈ st.students, ¬ x.student_id = sid := by
  intro x hx he
  have : x ∈ st.students.filter (fun y => y.student_id == sid) :=
    List.mem_filter.mpr ⟨hx, by simp [he]⟩
  rw [hno] at this
  exact absurd this (List.not_mem_nil _)

theorem ensureStudent_absent (st : Store) (sid : String)
    (hno : st.students.filter (fun x => x.student_id == sid) = []) :
    ensureStudent st noFaults sid
      = some ⟨st.students ++ [⟨sid, Normal⟩], st.interventions, st.daily_logs⟩ := by
  obtain ⟨n1, n2, n3, n4, n5, n6, n7⟩ := noFaults_fields
  have hany : st.students.any (fun r => r.student_id == sid) = false := by
    rw [List.any_eq_false]
    intro x hx hx2
    exact not_mem_of_filter_nil st sid hno x hx (by simpa using hx2)
  simp [ensureStudent, selectStudent, n1, n2, hno, insertStudent, hany]

theorem ensureStudent_present (st : Store) (sid : String) (r0 : Student)
    (hr : st.students.filter (fun x => x.student_id == sid) = [r0]) :
    ensureStudent st noFaults sid = some st := by
  obtain ⟨n1, n2, n3, n4, n5, n6, n7⟩ := noFaults_fields
  simp [ensureStudent, selectStudent, n1, hr]

/-- C16: every store call succeeding, a well-formed check-in of `s` on a store with no
Student record for `s` creates exactly one record, for `s`, with status `'Normal'`, before
the verdict is applied (afterwards table `students` is the old table followed by the one
row of `s` carrying the verdict's status); on a store that has a record for `s` no record
is created. -/
theorem C16_dailyCheckin_bootstrap (zone : TimeZone) (st : Store) (now : Int) (hook : Webhook) (sid : String)
    (q fm : Int) (pen : Bool) (hs : sid ≠ "") :
    (st.students.filter (fun x => x.student_id == sid) = [] →
      ensureStudent st noFaults sid
          = some ⟨st.students ++ [⟨sid, Normal⟩], st.interventions, st.daily_logs⟩
      ∧ (dailyCheckin zone st now noFaults hook ⟨some sid, some q, some fm, pen⟩).store.students
          = st.students ++ [⟨sid, if q > 7 ∧ fm > 60 then OnTrack else NeedsIntervention⟩])
    ∧ (∀ r0, st.students.filter (fun x => x.student_id == sid) = [r0] →
      ensureStudent st noFaults sid = some st
      ∧ (dailyCheckin zone st now noFaults hook
          ⟨some sid, some q, some fm, pen⟩).store.students.map (fun x => x.student_id)
          = st.students.map (fun x => x.student_id)) := by
  obtain ⟨n1, n2, n3, n4, n5, n6, n7⟩ := noFaults_fields
  constructor
  · intro hno
    have he := ensureStudent_absent st sid hno
    refine ⟨he, ?_⟩
    have hid : ∀ status : String, st.students.map
        (fun r => if r.student_id = sid then ({ r with status := status } : Student) else r)
        = st.students :=
      fun status => map_ite_of_forall_not st.students (fun r => r.student_id = sid) _
        (not_mem_of_filter_nil st sid hno)
    by_cases hq : q > 7 ∧ fm > 60
    · simp [dailyCheckin, truthy, hs, he, insertDailyLog, n3, n5, hq, updateStudentStatus, hid]
    · simp [dailyCheckin, truthy, hs, he, insertDailyLog, n3, n4, n5, hq, updateStudentStatus,
        insertIntervention, hid]
  · intro r0 hr
    have he := ensureStudent_present st sid r0 hr
    refine ⟨he, ?_⟩
    have hmap : ∀ status : String, ∀ a ∈ st.students,
        (if a.student_id = sid then ({ a with status := status } : Student) else a).student_id
          = a.student_id := by
      intro status a _
      by_cases c : a.student_id = sid <;> simp [c]
    by_cases hq : q > 7 ∧ fm > 60
    · simp [dailyCheckin, truthy, hs, he, insertDailyLog, n3, n5, hq, updateStudentStatus]
      exact hmap OnTrack
    · simp [dailyCheckin, truthy, hs, he, insertDailyLog, n3, n4, n5, hq, updateStudentStatus,
        insertIntervention]
      exact hmap NeedsIntervention

/-- Witness of C16 on the empty store, student `s1`. -/
theorem C16_dailyCheckin_bootstrap_witness :
    ("s1" ≠ "" ∧ Store.empty.students.filter (fun x => x.student_id == "s1") = [])
    ∧ (dailyCheckin utc Store.empty 10 noFaults Webhook.ok
        ⟨some "s1", some 4, some 30, false⟩).store.students
        = Store.empty.students
          ++ [⟨"s1", if (4 : Int) > 7 ∧ (30 : Int) > 60 then OnTrack else NeedsIntervention⟩] :=
  ⟨⟨by decide, by decide⟩,
   ((C16_dailyCheckin_bootstrap utc Store.empty 10 Webhook.ok "s1" 4 30 false (by decide)).1
      (by decide)).2⟩

/-! ## The webhook -/

theorem dailyCheckin_hook_irrelevant (zone : TimeZone) (st : Store) (now : Int) (f : Faults) (hook : Webhook)
    (req : CheckinReq) :
    (dailyCheckin zone st now f hook req).response
        = (dailyCheckin zone st now f Webhook.notConfigured req).response
    ∧ (dailyCheckin zone st now f hook req).store
        = (dailyCheckin zone st now f Webhook.notConfigured req).store := by
  unfold dailyCheckin
  split
  · dsimp only
    split
    · exact ⟨rfl, rfl⟩
    · split
      · exact ⟨rfl, rfl⟩
      · split
        · exact ⟨rfl, rfl⟩
        · split
          · exact ⟨rfl, rfl⟩
          · exact ⟨rfl, rfl⟩
  · exact ⟨rfl, rfl⟩

/-- C17: for every store, clock reading, request and set of failing store calls, the
response of the check-in route and the store it leaves are the same for any two outcomes
of the webhook (not configured, OK, non-OK answer, exception); and a failing check-in whose
store calls succeed is answered with code 200 and no error whatever the webhook does. -/
theorem C17_webhook_outcome_irrelevant (zone : TimeZone) (st : Store) (now : Int) (f : Faults)
    (req : CheckinReq) (hook1 hook2 : Webhook) :
    (dailyCheckin zone st now f hook1 req).response = (dailyCheckin zone st now f hook2 req).response
    ∧ (dailyCheckin zone st now f hook1 req).store = (dailyCheckin zone st now f hook2 req).store
    ∧ (∀ (sid : String) (q fm : Int) (pen : Bool), sid ≠ "" → UniqueStudent st sid →
        ¬ (q > 7 ∧ fm > 60) →
        (dailyCheckin zone st now noFaults hook1 ⟨some sid, some q, some fm, pen⟩).response.code = 200
        ∧ (dailyCheckin zone st now noFaults hook1 ⟨some sid, some q, some fm, pen⟩).response.error
            = none) := by
  obtain ⟨a1, a2⟩ := dailyCheckin_hook_irrelevant zone st now f hook1 req
  obtain ⟨b1, b2⟩ := dailyCheckin_hook_irrelevant zone st now f hook2 req
  refine ⟨a1.trans b1.symm, a2.trans b2.symm, ?_⟩
  intro sid q fm pen hs hu hq
  obtain ⟨hresp, _⟩ := dailyCheckin_failing_out zone st now hook1 sid q fm pen hs hu hq
  rw [hresp]
  exact ⟨rfl, rfl⟩

/-- Witness of C17: the failing check-in of `s1` on the empty store with a webhook that
throws. -/
theorem C17_webhook_outcome_irrelevant_witness :
    ("s1" ≠ "" ∧ UniqueStudent Store.empty "s1" ∧ ¬ ((4 : Int) > 7 ∧ (30 : Int) > 60))
    ∧ (dailyCheckin utc Store.empty 10 noFaults Webhook.throws
        ⟨some "s1", some 4, some 30, false⟩).response.code = 200 :=
  ⟨⟨by decide, by decide, by decide⟩,
   ((C17_webhook_outcome_irrelevant utc Store.empty 10 noFaults failingCheckin Webhook.throws
      Webhook.ok).2.2 "s1" 4 30 false (by decide) (by decide) (by decide)).1⟩

/-- C18: for every failing check-in whose store calls succeed, with the webhook configured,
exactly one event is sent; it carries the request's `student_id`, `quiz_score` and
`focus_minutes`, the id of the Intervention just created (the one answered to the caller),
the penalty flag, and the reason `"Focus violation"` on a penalty, else `"Low quiz score"`
when `quiz_score ≤ 7`, else `"Insufficient focus time"`; so the reason
`"Insufficient focus time"` occurs only when `quiz_score > 7` and `focus_minutes ≤ 60`. -/
theorem C18_webhook_payload (zone : TimeZone) (st : Store) (now : Int) (hook : Webhook) (sid : String)
    (q fm : Int) (pen : Bool) (hs : sid ≠ "") (hu : UniqueStudent st sid)
    (hq : ¬ (q > 7 ∧ fm > 60)) (hc : hook ≠ Webhook.notConfigured) :
    ∃ ev : WebhookPayload,
      (dailyCheckin zone st now noFaults hook ⟨some sid, some q, some fm, pen⟩).notified = [ev]
      ∧ ev.student_id = sid ∧ ev.quiz_score = q ∧ ev.focus_minutes = fm
      ∧ (dailyCheckin zone st now noFaults hook
          ⟨some sid, some q, some fm, pen⟩).response.intervention_id = some ev.intervention_id
      ∧ (∃ iv, (dailyCheckin zone st now noFaults hook
            ⟨some sid, some q, some fm, pen⟩).store.interventions = st.interventions ++ [iv]
          ∧ iv.id = ev.intervention_id)
      ∧ ev.penalty_imposed = pen
      ∧ ev.performance_issue
          = (if pen = true then "Focus violation"
             else if q ≤ 7 then "Low quiz score" else "Insufficient focus time")
      ∧ (ev.performance_issue = "Insufficient focus time" → q > 7 ∧ fm ≤ 60) := by
  obtain ⟨hresp, hsent⟩ := dailyCheckin_failing_out zone st now hook sid q fm pen hs hu hq
  obtain ⟨iv, hiv, hivEq, _, _, _⟩ := dailyCheckin_failing zone st now hook sid q fm pen hs hu hq
  refine ⟨⟨sid, q, fm, freshId st.interventions, true, now, pen,
    if pen = true then some "Tab switching detected during focus session" else none,
    if pen = true then "Auto-submitted due to penalty" else "Manual submission",
    if pen = true then "Focus violation"
    else if q ≤ 7 then "Low quiz score" else "Insufficient focus time"⟩,
    ?_, rfl, rfl, rfl, ?_, ⟨iv, hiv, by rw [hivEq]⟩, rfl, rfl, ?_⟩
  · rw [hsent]
    cases hook with
    | notConfigured => exact absurd rfl hc
    | ok => rfl
    | nonOk => rfl
    | throws => rfl
  · rw [hresp]
  · intro hreason
    have h1 : ("Focus violation" : String) ≠ "Insufficient focus time" := by decide
    have h2 : ("Low quiz score" : String) ≠ "Insufficient focus time" := by decide
    dsimp only at hreason
    by_cases hp : pen = true
    · rw [if_pos hp] at hreason
      exact absurd hreason h1
    · rw [if_neg hp] at hreason
      by_cases hq7 : q ≤ 7
      · rw [if_pos hq7] at hreason
        exact absurd hreason h2
      · have hq8 : q > 7 := Int.not_le.mp hq7
        refine ⟨hq8, ?_⟩
        apply Int.not_lt.mp
        intro hfm
        exact hq ⟨hq8, hfm⟩

/-- Witness of C18: the check-in `("s1", 8, 60)` without penalty on the empty store. -/
theorem C18_webhook_payload_witness :
    ("s1" ≠ "" ∧ UniqueStudent Store.empty "s1" ∧ ¬ ((8 : Int) > 7 ∧ (60 : Int) > 60)
      ∧ Webhook.ok ≠ Webhook.notConfigured)
    ∧ ∃ ev : WebhookPayload,
      (dailyCheckin utc Store.empty 10 noFaults Webhook.ok
          ⟨some "s1", some 8, some 60, false⟩).notified = [ev]
      ∧ ev.performance_issue = "Insufficient focus time" :=
  ⟨⟨by decide, by decide, by decide, by decide⟩,
   (C18_webhook_payload utc Store.empty 10 Webhook.ok "s1" 8 60 false
      (by decide) (by decide) (by decide) (by decide)).elim
     (fun ev h => ⟨ev, h.1, h.2.2.2.2.2.2.2.1⟩)⟩

/-! ## A failing audit-log insert -/

theorem ensureStudent_students (st st1 : Store) (f : Faults) (sid : String)
    (h : ensureStudent st f sid = some st1) :
    st1 = st ∨ st1 = ⟨st.students ++ [⟨sid, Normal⟩], st.interventions, st.daily_logs⟩ := by
  unfold ensureStudent at h
  split at h
  · unfold insertStudent at h
    split at h
    · exact absurd h (by simp)
    · split at h
      · exact absurd h (by simp)
      · simp at h; subst h; exact Or.inr rfl
  · simp at h; subst h; exact Or.inl rfl

/-- C19 as stated fails: when only the insert into `daily_logs` fails, the check-in route
answers code 500 without a status, creates no Intervention and leaves the student at the
bootstrap status `'Normal'`, while the same request with the insert succeeding answers
status `'Pending Mentor Review'` and creates the Intervention. -/
theorem C19_log_failure_counterexample :
    (dailyCheckin utc Store.empty 10 logFault Webhook.notConfigured failingCheckin).response.code
        = 500
    ∧ (dailyCheckin utc Store.empty 10 logFault Webhook.notConfigured failingCheckin).response.status
        = none
    ∧ (dailyCheckin utc Store.empty 10 logFault Webhook.notConfigured failingCheckin).store
        = ⟨[⟨"s1", Normal⟩], [], []⟩
    ∧ (dailyCheckin utc Store.empty 10 noFaults Webhook.notConfigured failingCheckin).response.status
        = some "Pending Mentor Review"
    ∧ (dailyCheckin utc Store.empty 10 noFaults Webhook.notConfigured failingCheckin).store
        = ⟨[⟨"s1", NeedsIntervention⟩],
           [⟨1, "s1", Pending, none, false, 10, none, none, some 43200010⟩],
           [⟨"s1", 4, 30⟩]⟩ := by
  decide

/-- C19 amended: for every well-formed check-in and store, if the insert into `daily_logs`
fails (whatever the other store calls do), the check-in route answers code 500 with no
status and does not apply the verdict: no Intervention is created, no status is updated,
no log row is written and the webhook is not called; the store is the one before the call,
or that store with the bootstrap row of the student (status `'Normal'`) added. -/
theorem C19_log_failure_amended (zone : TimeZone) (st : Store) (now : Int) (f : Faults) (hook : Webhook)
    (sid : String) (q fm : Int) (pen : Bool) (hs : sid ≠ "") (hf : f.insertLog = true) :
    (dailyCheckin zone st now f hook ⟨some sid, some q, some fm, pen⟩).response.code = 500
    ∧ (dailyCheckin zone st now f hook ⟨some sid, some q, some fm, pen⟩).response.status = none
    ∧ (dailyCheckin zone st now f hook ⟨some sid, some q, some fm, pen⟩).response.intervention_id
        = none
    ∧ (dailyCheckin zone st now f hook ⟨some sid, some q, some fm, pen⟩).notified = []
    ∧ ((dailyCheckin zone st now f hook ⟨some sid, some q, some fm, pen⟩).store = st
      ∨ (dailyCheckin zone st now f hook ⟨some sid, some q, some fm, pen⟩).store
          = ⟨st.students ++ [⟨sid, Normal⟩], st.interventions, st.daily_logs⟩) := by
  cases he : ensureStudent st f sid with
  | none =>
    simp [dailyCheckin, truthy, hs, he, Response.blank]
  | some st1 =>
    have h1 := ensureStudent_students st st1 f sid he
    simp [dailyCheckin, truthy, hs, he, insertDailyLog, hf, Response.blank]
    exact h1

/-- Witness of C19 amended on the empty store with only the log insert failing. -/
theorem C19_log_failure_amended_witness :
    ("s1" ≠ "" ∧ logFault.insertLog = true)
    ∧ (dailyCheckin utc Store.empty 10 logFault Webhook.ok
        ⟨some "s1", some 4, some 30, false⟩).response.code = 500 :=
  ⟨⟨by decide, rfl⟩,
   (C19_log_failure_amended utc Store.empty 10 logFault Webhook.ok "s1" 4 30 false
      (by decide) rfl).1⟩

/-! ## Validation of a check-in -/

/-- A check-in that passes validation is answered with code 200 or 500. -/
theorem dailyCheckin_valid_code (zone : TimeZone) (st : Store) (now : Int) (f : Faults) (hook : Webhook)
    (sid : String) (q fm : Int) (pen : Bool) (hs : sid ≠ "") :
    (dailyCheckin zone st now f hook ⟨some sid, some q, some fm, pen⟩).response.code = 200
    ∨ (dailyCheckin zone st now f hook ⟨some sid, some q, some fm, pen⟩).response.code = 500 := by
  have ht : truthy (some sid) = some sid := by simp [truthy, hs]
  unfold dailyCheckin
  simp only [ht]
  split
  · exact Or.inr rfl
  · split
    · exact Or.inr rfl
    · split
      · exact Or.inl rfl
      · split
        · exact Or.inr rfl
        · exact Or.inl rfl

/-- A check-in that fails validation: the answer is fixed and nothing else happens. -/
theorem dailyCheckin_invalid (zone : TimeZone) (st : Store) (now : Int) (f : Faults) (hook : Webhook)
    (req : CheckinReq)
    (h : req.student_id = none ∨ req.student_id = some "" ∨ req.quiz_score = none
      ∨ req.focus_minutes = none) :
    dailyCheckin zone st now f hook req
      = ⟨{ Response.blank 400 with
            error := some "Missing required fields",
            required := ["student_id", "quiz_score", "focus_minutes"] }, st, []⟩ := by
  obtain ⟨sidO, qO, fmO, pen⟩ := req
  simp only at h
  rcases h with h | h | h | h
  · subst h; simp [dailyCheckin, truthy]
  · subst h; simp [dailyCheckin, truthy]
  · subst h
    cases hs : truthy sidO <;> simp [dailyCheckin, hs]
  · subst h
    cases hs : truthy sidO <;> cases qO <;> simp [dailyCheckin, hs]

/-- C20: the check-in route of `server.js` answers the validation error (code 400, naming
`student_id`, `quiz_score` and `focus_minutes`) if and only if `student_id` is missing or
empty, or `quiz_score` is absent, or `focus_minutes` is absent; the rejection makes no
store call (the outcome is the same for every store content and every set of failing
calls, and the store is unchanged) and does not call the webhook; a check-in with
`quiz_score = 0` and `focus_minutes = 0` is not rejected. -/
theorem C20_checkin_validation (zone : TimeZone) (st : Store) (now : Int) (f : Faults) (hook : Webhook)
    (req : CheckinReq) :
    ((dailyCheckin zone st now f hook req).response.code = 400
      ↔ (req.student_id = none ∨ req.student_id = some "" ∨ req.quiz_score = none
          ∨ req.focus_minutes = none))
    ∧ ((dailyCheckin zone st now f hook req).response.code = 400 →
        (dailyCheckin zone st now f hook req).response.required
            = ["student_id", "quiz_score", "focus_minutes"]
        ∧ (dailyCheckin zone st now f hook req).store = st
        ∧ (dailyCheckin zone st now f hook req).notified = []
        ∧ ∀ (st2 : Store) (now2 : Int) (f2 : Faults) (hook2 : Webhook),
            (dailyCheckin zone st2 now2 f2 hook2 req).response
              = (dailyCheckin zone st now f hook req).response
            ∧ (dailyCheckin zone st2 now2 f2 hook2 req).store = st2)
    ∧ (∀ (sid : String) (pen : Bool), sid ≠ "" →
        (dailyCheckin zone st now f hook ⟨some sid, some 0, some 0, pen⟩).response.code ≠ 400) := by
  have hiff : (dailyCheckin zone st now f hook req).response.code = 400
      ↔ (req.student_id = none ∨ req.student_id = some "" ∨ req.quiz_score = none
          ∨ req.focus_minutes = none) := by
    constructor
    · intro hcode
      by_contra hn
      simp only [not_or] at hn
      obtain ⟨h1, h2, h3, h4⟩ := hn
      obtain ⟨sidO, qO, fmO, pen⟩ := req
      simp only at h1 h2 h3 h4
      cases sidO with
      | none => exact h1 rfl
      | some sid =>
        cases qO with
        | none => exact h3 rfl
        | some q =>
          cases fmO with
          | none => exact h4 rfl
          | some fm =>
            have hs : sid ≠ "" := fun e => h2 (by rw [e])
            rcases dailyCheckin_valid_code zone st now f hook sid q fm pen hs with c | c
            · rw [c] at hcode; exact absurd hcode (by decide)
            · rw [c] at hcode; exact absurd hcode (by decide)
    · intro h
      rw [dailyCheckin_invalid zone st now f hook req h]
      rfl
  refine ⟨hiff, ?_, ?_⟩
  · intro hcode
    have h := hiff.mp hcode
    rw [dailyCheckin_invalid zone st now f hook req h]
    refine ⟨rfl, rfl, rfl, ?_⟩
    intro st2 now2 f2 hook2
    rw [dailyCheckin_invalid zone st2 now2 f2 hook2 req h]
    exact ⟨rfl, rfl⟩
  · intro sid pen hs hcode
    rcases dailyCheckin_valid_code zone st now f hook sid 0 0 pen hs with c | c
    · rw [c] at hcode; exact absurd hcode (by decide)
    · rw [c] at hcode; exact absurd hcode (by decide)

/-- Witness of C20: the penalty check-in `("s1", 0, 0, true)` is not rejected, a check-in
without `quiz_score` is. -/
theorem C20_checkin_validation_witness :
    "s1" ≠ ""
    ∧ (dailyCheckin utc Store.empty 10 noFaults Webhook.ok
        ⟨some "s1", some 0, some 0, true⟩).response.code ≠ 400
    ∧ (dailyCheckin utc Store.empty 10 noFaults Webhook.ok
        ⟨some "s1", none, some 0, true⟩).response.code = 400 :=
  ⟨by decide,
   (C20_checkin_validation utc Store.empty 10 noFaults Webhook.ok failingCheckin).2.2
      "s1" true (by decide),
   (C20_checkin_validation utc Store.empty 10 noFaults Webhook.ok
      ⟨some "s1", none, some 0, true⟩).1.mpr (Or.inr (Or.inr (Or.inl rfl)))⟩

/-! ## Completion for an unknown student -/

/-- C21 as stated fails: the completion route answers success for a student without a
Student record. -/
theorem C21_complete_unknown_counterexample :
    Store.empty.students.filter (fun x => x.student_id == "ghost") = []
    ∧ (completeRemedial Store.empty 10 noFaults ⟨some "ghost"⟩).response.code = 200
    ∧ (completeRemedial Store.empty 10 noFaults ⟨some "ghost"⟩).response.success = some true
    ∧ (completeRemedial Store.empty 10 noFaults ⟨some "ghost"⟩).response.error = none := by
  decide

/-- C21 amended: on a store with no Student record for `s`, the completion route with a
non-empty `s`, every store call succeeding, answers the success result with status
`'Normal'` and no error (an update that matches no row is not an error), and table
`students` is left as it was. -/
theorem C21_complete_unknown_amended (st : Store) (now : Int) (sid : String) (hs : sid ≠ "")
    (hno : st.students.filter (fun x => x.student_id == sid) = []) :
    (completeRemedial st now noFaults ⟨some sid⟩).response.code = 200
    ∧ (completeRemedial st now noFaults ⟨some sid⟩).response.success = some true
    ∧ (completeRemedial st now noFaults ⟨some sid⟩).response.status = some Normal
    ∧ (completeRemedial st now noFaults ⟨some sid⟩).response.error = none
    ∧ (completeRemedial st now noFaults ⟨some sid⟩).store.students = st.students := by
  obtain ⟨a1, a2, a3, a4⟩ := complete_response st now sid hs
  obtain ⟨h1, _, _, _⟩ := complete_ok st now sid hs
  refine ⟨a1, a2, a3, a4, ?_⟩
  rw [h1]
  exact map_ite_of_forall_not st.students (fun r => r.student_id = sid) _
    (not_mem_of_filter_nil st sid hno)

/-- Witness of C21 amended on `oneOpen`, which has no record for `ghost`. -/
theorem C21_complete_unknown_amended_witness :
    ("ghost" ≠ "" ∧ oneOpen.students.filter (fun x => x.student_id == "ghost") = [])
    ∧ (completeRemedial oneOpen 50 noFaults ⟨some "ghost"⟩).response.success = some true :=
  ⟨⟨by decide, by decide⟩,
   (C21_complete_unknown_amended oneOpen 50 "ghost" (by decide) (by decide)).2.1⟩

/-! ## Re-assignment -/

/-- C24: for every store and non-empty tasks `t1`, `t2`, the assignment of Intervention
`iid` of `s` (an id other than the number `0`, which the POST route rejects) with `t1` (at
any time) followed by its assignment with `t2` at `now` leaves
the store a single assignment with `t2` at `now` leaves; an Intervention `i` of `s` with
that id then carries `t2`, `assigned_at = now` and nothing of `t1`. -/
theorem C24_reassign_last_wins (st : Store) (now1 now : Int) (sid t1 t2 : String) (iid : Nat)
    (hs : sid ≠ "") (h1 : t1 ≠ "") (h2 : t2 ≠ "") (hid0 : iid ≠ 0) :
    (assignInterventionPost
        (assignInterventionPost st now1 noFaults ⟨some sid, some t1, some iid⟩).store
        now noFaults ⟨some sid, some t2, some iid⟩).store
      = (assignInterventionPost st now noFaults ⟨some sid, some t2, some iid⟩).store
    ∧ ∀ (k : Nat) (i : Intervention), st.interventions[k]? = some i → i.id = iid →
        i.student_id = sid →
        (assignInterventionPost
          (assignInterventionPost st now1 noFaults ⟨some sid, some t1, some iid⟩).store
          now noFaults ⟨some sid, some t2, some iid⟩).store.interventions[k]?
          = some (assignedRow i t2 now) := by
  obtain ⟨e1, _, _, _, _⟩ := assign_ok st now1 sid t1 iid hs h1 hid0
  obtain ⟨e2, _, _, _, _⟩ := assign_ok st now sid t2 iid hs h2 hid0
  obtain ⟨e3, _, _, _, _⟩ := assign_ok
    (assignInterventionPost st now1 noFaults ⟨some sid, some t1, some iid⟩).store
    now sid t2 iid hs h2 hid0
  have hstore : (assignInterventionPost
        (assignInterventionPost st now1 noFaults ⟨some sid, some t1, some iid⟩).store
        now noFaults ⟨some sid, some t2, some iid⟩).store
      = (assignInterventionPost st now noFaults ⟨some sid, some t2, some iid⟩).store := by
    rw [e3, e2, e1]
    simp only [List.map_map, Store.mk.injEq, and_true]
    constructor
    · apply List.map_congr_left
      intro x _
      by_cases c : x.student_id = sid <;> simp [c]
    · apply List.map_congr_left
      intro x _
      by_cases c : x.id = iid ∧ x.student_id = sid
      · simp [c, assignedRow]
      · simp only [Function.comp_apply, if_neg c]
  refine ⟨hstore, ?_⟩
  intro k i hi hid hsid
  rw [hstore, e2]
  simp [List.getElem?_map, hi, hid, hsid]

/-- Witness of C24 on `oneOpen`: tasks `"Read"` at time 30 and `"Review chapter 3"` at 40. -/
theorem C24_reassign_last_wins_witness :
    ("s1" ≠ "" ∧ "Read" ≠ "" ∧ "Review chapter 3" ≠ "" ∧ (1 : Nat) ≠ 0)
    ∧ (assignInterventionPost
        (assignInterventionPost oneOpen 30 noFaults ⟨some "s1", some "Read", some 1⟩).store
        40 noFaults ⟨some "s1", some "Review chapter 3", some 1⟩).store
      = (assignInterventionPost oneOpen 40 noFaults
          ⟨some "s1", some "Review chapter 3", some 1⟩).store :=
  ⟨⟨by decide, by decide, by decide, by decide⟩,
   (C24_reassign_last_wins oneOpen 30 40 "s1" "Read" "Review chapter 3" 1
      (by decide) (by decide) (by decide) (by decide)).1⟩

/-! ## The standalone assignment handler against the route -/

/-- C29 fails on the code: on the store with one `'Pending'` Intervention of `s1`, the
standalone handler leaves `assigned_at` null where the route writes `now`; and for a
request naming another student it rewrites the Intervention of `s1` (it filters by id
only), which the route leaves alone. -/
theorem C29_standalone_assign_diverges :
    (AssignIntervention.handler oneOpen noFaults AssignIntervention.Method.POST
        ⟨some "s1", some "Review chapter 3", some 1⟩).2.interventions
      = [⟨1, "s1", Assigned, some "Review chapter 3", true, 10, none, none, some 43200010⟩]
    ∧ (assignInterventionPost oneOpen 30 noFaults
        ⟨some "s1", some "Review chapter 3", some 1⟩).store.interventions
      = [⟨1, "s1", Assigned, some "Review chapter 3", true, 10, some 30, none, some 43200010⟩]
    ∧ (AssignIntervention.handler oneOpen noFaults AssignIntervention.Method.POST
        ⟨some "s1", some "Review chapter 3", some 1⟩).2
      ≠ (assignInterventionPost oneOpen 30 noFaults
        ⟨some "s1", some "Review chapter 3", some 1⟩).store
    ∧ (AssignIntervention.handler oneOpen noFaults AssignIntervention.Method.POST
        ⟨some "s2", some "Review chapter 3", some 1⟩).2.interventions
      = [⟨1, "s1", Assigned, some "Review chapter 3", true, 10, none, none, some 43200010⟩]
    ∧ (assignInterventionPost oneOpen 30 noFaults
        ⟨some "s2", some "Review chapter 3", some 1⟩).store.interventions
      = oneOpen.interventions := by
  decide

/-! ## The client -/

theorem parseInt_examples :
    parseInt "8" = some 8 ∧ parseInt "10" = some 10 ∧ parseInt "" = none
      ∧ parseInt "ab" = none ∧ parseInt " 9" = some 9 ∧ parseInt "7a" = some 7
      ∧ parseInt "-3" = some (-3) ∧ parseInt "0x" = none ∧ parseInt "3." = some 3 := by
  decide

set_option maxRecDepth 100000 in
theorem parseInt_two_digits : ∀ n : Nat, n < 100 → parseInt (toString n) = some (n : Int) := by
  decide

/-- C25: for every text of the quiz score field and every minute count of the focus timer,
the penalty submission (`handleTabSwitchPenalty`, that is `handleDailyCheckin(true)`) posts
`quiz_score = 0`, `focus_minutes = 0`, `penalty = true`; the voluntary submission posts
`penalty = false`, the timer's minute count, and the integer `parseInt` reads from the text,
0 when the text does not parse; a score from 0 to 99 written in decimal is posted as
itself. -/
theorem C25_client_submission (quizScore : String) (focusTime : Nat) :
    handleTabSwitchPenalty quizScore focusTime = ⟨some STUDENT_ID, some 0, some 0, true⟩
    ∧ handleDailyCheckin quizScore focusTime true = ⟨some STUDENT_ID, some 0, some 0, true⟩
    ∧ submitAssessment quizScore focusTime
        = ⟨some STUDENT_ID, some ((parseInt quizScore).getD 0), some (focusTime : Int), false⟩
    ∧ (parseInt quizScore = none → (submitAssessment quizScore focusTime).quiz_score = some 0)
    ∧ (∀ n : Nat, n < 100 →
        submitAssessment (toString n) focusTime
          = ⟨some STUDENT_ID, some (n : Int), some (focusTime : Int), false⟩)
    ∧ (submitAssessment "" focusTime).quiz_score = some 0
    ∧ (submitAssessment "ab" focusTime).quiz_score = some 0 := by
  have hsub : submitAssessment quizScore focusTime
      = ⟨some STUDENT_ID, some ((parseInt quizScore).getD 0), some (focusTime : Int), false⟩ := by
    unfold submitAssessment handleDailyCheckin
    cases hp : parseInt quizScore with
    | none => simp
    | some v => by_cases hv : v = 0 <;> simp [hv]
  have hgen : ∀ (text : String) (v : Int), parseInt text = some v →
      submitAssessment text focusTime
        = ⟨some STUDENT_ID, some v, some (focusTime : Int), false⟩ := by
    intro text v hp
    unfold submitAssessment handleDailyCheckin
    by_cases hv : v = 0 <;> simp [hp, hv]
  refine ⟨rfl, rfl, hsub, ?_, ?_, rfl, rfl⟩
  · intro hn
    rw [hsub, hn]
    rfl
  · intro n hn
    exact hgen _ _ (parseInt_two_digits n hn)

/-! ## The penalty flag -/

/-- The penalty flag does not reach the store, and reaches the response only through
`message` and `penalty_imposed`. -/
theorem dailyCheckin_penalty_irrelevant (zone : TimeZone) (st : Store) (now : Int) (f : Faults) (hook : Webhook)
    (sidO : Option String) (qO fmO : Option Int) (p1 p2 : Bool) :
    (dailyCheckin zone st now f hook ⟨sidO, qO, fmO, p1⟩).store
        = (dailyCheckin zone st now f hook ⟨sidO, qO, fmO, p2⟩).store
    ∧ { (dailyCheckin zone st now f hook ⟨sidO, qO, fmO, p1⟩).response with
          message := none, penalty_imposed := none }
        = { (dailyCheckin zone st now f hook ⟨sidO, qO, fmO, p2⟩).response with
          message := none, penalty_imposed := none }
    ∧ (dailyCheckin zone st now f hook ⟨sidO, qO, fmO, p1⟩).notified.map
          (fun e => (e.student_id, e.quiz_score, e.focus_minutes, e.intervention_id,
            e.requires_intervention, e.timestamp))
        = (dailyCheckin zone st now f hook ⟨sidO, qO, fmO, p2⟩).notified.map
          (fun e => (e.student_id, e.quiz_score, e.focus_minutes, e.intervention_id,
            e.requires_intervention, e.timestamp)) := by
  unfold dailyCheckin
  dsimp only
  split
  · split
    · exact ⟨rfl, rfl, rfl⟩
    · split
      · exact ⟨rfl, rfl, rfl⟩
      · split
        · exact ⟨rfl, rfl, rfl⟩
        · split
          · exact ⟨rfl, rfl, rfl⟩
          · refine ⟨rfl, rfl, ?_⟩
            cases hook <;> rfl
  · exact ⟨rfl, rfl, rfl⟩

/-- Witness of C25 on the text `"8"` and 61 minutes. -/
theorem C25_client_submission_witness :
    submitAssessment "8" 61 = ⟨some STUDENT_ID, some 8, some 61, false⟩
    ∧ handleTabSwitchPenalty "8" 61 = ⟨some STUDENT_ID, some 0, some 0, true⟩ :=
  ⟨(C25_client_submission "8" 61).2.2.2.2.1 8 (by decide), (C25_client_submission "8" 61).1⟩

/-- C23 as stated fails: besides the message text, the response of a failing check-in
echoes the penalty flag in `penalty_imposed`, so the two responses differ in a second
field. -/
theorem C23_penalty_counterexample :
    (dailyCheckin utc Store.empty 10 noFaults Webhook.ok
        ⟨some "s1", some 0, some 0, true⟩).response.penalty_imposed = some true
    ∧ (dailyCheckin utc Store.empty 10 noFaults Webhook.ok
        ⟨some "s1", some 0, some 0, false⟩).response.penalty_imposed = some false
    ∧ { (dailyCheckin utc Store.empty 10 noFaults Webhook.ok
          ⟨some "s1", some 0, some 0, true⟩).response with message := none }
      ≠ { (dailyCheckin utc Store.empty 10 noFaults Webhook.ok
          ⟨some "s1", some 0, some 0, false⟩).response with message := none } := by
  decide

/-- C23 amended: for every store, clock reading, `student_id`, `quiz_score` and
`focus_minutes` (a failing pair in particular), the check-in with `penalty = true` and the
one with `penalty = false` leave identical stores, whatever store calls fail; the responses
agree in every field but `message` and `penalty_imposed`, and the events sent to the
webhook agree in every field but the penalty metadata and the reason. -/
theorem C23_penalty_same_store_amended (zone : TimeZone) (st : Store) (now : Int) (f : Faults) (hook : Webhook)
    (sid : String) (q fm : Int) :
    (dailyCheckin zone st now f hook ⟨some sid, some q, some fm, true⟩).store
        = (dailyCheckin zone st now f hook ⟨some sid, some q, some fm, false⟩).store
    ∧ { (dailyCheckin zone st now f hook ⟨some sid, some q, some fm, true⟩).response with
          message := none, penalty_imposed := none }
        = { (dailyCheckin zone st now f hook ⟨some sid, some q, some fm, false⟩).response with
          message := none, penalty_imposed := none }
    ∧ (dailyCheckin zone st now f hook ⟨some sid, some q, some fm, true⟩).notified.map
          (fun e => (e.student_id, e.quiz_score, e.focus_minutes, e.intervention_id,
            e.requires_intervention, e.timestamp))
        = (dailyCheckin zone st now f hook ⟨some sid, some q, some fm, false⟩).notified.map
          (fun e => (e.student_id, e.quiz_score, e.focus_minutes, e.intervention_id,
            e.requires_intervention, e.timestamp)) :=
  dailyCheckin_penalty_irrelevant zone st now f hook (some sid) (some q) (some fm) true false

/-! ## What each route does to both tables, whatever fails -/

theorem updateStudentStatus_getD_students (st : Store) (b : Bool) (sid status : String) :
    ((updateStudentStatus st b sid status).getD st).students = st.students
    ∨ ((updateStudentStatus st b sid status).getD st).students
        = st.students.map (fun r => if r.student_id = sid then { r with status := status } else r) := by
  unfold updateStudentStatus
  split
  · exact Or.inl rfl
  · exact Or.inr rfl

theorem updateStudentStatus_students (st st1 : Store) (b : Bool) (sid status : String)
    (h : updateStudentStatus st b sid status = some st1) :
    st1.students
      = st.students.map (fun r => if r.student_id = sid then { r with status := status } else r) := by
  unfold updateStudentStatus at h
  split at h
  · exact absurd h (by simp)
  · simp at h; subst h; rfl

theorem insertDailyLog_students (st st1 : Store) (b : Bool) (row : DailyLog)
    (h : insertDailyLog st b row = some st1) : st1.students = st.students := by
  unfold insertDailyLog at h
  split at h
  · exact absurd h (by simp)
  · simp at h; subst h; rfl

theorem insertIntervention_spec (st st1 : Store) (b : Bool) (now : Int) (sid : String)
    (t : Int) (status : String) (iv : Intervention)
    (h : insertIntervention st b now sid t status = some (iv, st1)) :
    st1.students = st.students
    ∧ st1.interventions = st.interventions
        ++ [⟨freshId st.interventions, sid, status, none, false, now, none, none, some t⟩] := by
  unfold insertIntervention at h
  split at h
  · exact absurd h (by simp)
  · simp at h
    obtain ⟨_, h2⟩ := h
    subst h2
    exact ⟨rfl, rfl⟩

/-- The check-in route on both tables: nothing changes, or table `students` is the old
table, possibly with the bootstrap row of the request's student, possibly with the status
of that student rewritten, and table `interventions` gets the new row only together with
(or without) the status `'Needs Intervention'`. -/
theorem dailyCheckin_shape (zone : TimeZone) (st : Store) (now : Int) (f : Faults) (hook : Webhook)
    (req : CheckinReq) :
    (dailyCheckin zone st now f hook req).store = st
    ∨ ∃ sid, req.student_id = some sid
        ∧ ∃ base, (base = st.students ∨ base = st.students ++ [⟨sid, Normal⟩])
          ∧ (((dailyCheckin zone st now f hook req).store.students = base
                ∧ (dailyCheckin zone st now f hook req).store.interventions = st.interventions)
            ∨ ((dailyCheckin zone st now f hook req).store.students
                  = base.map (fun r => if r.student_id = sid then { r with status := OnTrack }
                      else r)
                ∧ (dailyCheckin zone st now f hook req).store.interventions = st.interventions)
            ∨ (((dailyCheckin zone st now f hook req).store.students = base
                  ∨ (dailyCheckin zone st now f hook req).store.students
                    = base.map (fun r => if r.student_id = sid
                        then { r with status := NeedsIntervention } else r))
                ∧ (dailyCheckin zone st now f hook req).store.interventions
                    = st.interventions ++ [⟨freshId st.interventions, sid, Pending, none,
                        false, now, none, none, some (autoUnlockAt zone now)⟩])) := by
  unfold dailyCheckin
  split
  · rename_i sid q fm hsid hq hfm
    have hsid2 := (truthy_some _ _ hsid).1
    dsimp only
    split
    · exact Or.inl rfl
    · rename_i st1 h1
      have e1 := ensureStudent_interventions _ _ _ _ h1
      have hbase : st1.students = st.students ∨ st1.students = st.students ++ [⟨sid, Normal⟩] := by
        rcases ensureStudent_students _ _ _ _ h1 with e | e
        · exact Or.inl (by rw [e])
        · exact Or.inr (by rw [e])
      right
      refine ⟨sid, hsid2, st1.students, hbase, ?_⟩
      split
      · exact Or.inl ⟨rfl, e1⟩
      · rename_i st2 h2
        have e2 := insertDailyLog_interventions _ _ _ _ h2
        have s2 := insertDailyLog_students _ _ _ _ h2
        split
        · have hi : ((updateStudentStatus st2 f.updateStudent sid OnTrack).getD st2).interventions
              = st.interventions := by
            rw [updateStudentStatus_getD_interventions, e2, e1]
          rcases updateStudentStatus_getD_students st2 f.updateStudent sid OnTrack with e | e
          · exact Or.inl ⟨e.trans s2, hi⟩
          · exact Or.inr (Or.inl ⟨by rw [← s2]; exact e, hi⟩)
        · split
          · exact Or.inl ⟨s2, e2.trans e1⟩
          · rename_i iv st3 h3
            obtain ⟨s3, i3⟩ := insertIntervention_spec _ _ _ _ _ _ _ _ h3
            have hi : ((updateStudentStatus st3 f.updateStudent sid
                NeedsIntervention).getD st3).interventions
                = st.interventions ++ [⟨freshId st.interventions, sid, Pending, none,
                    false, now, none, none, some (autoUnlockAt zone now)⟩] := by
              rw [updateStudentStatus_getD_interventions, i3, e2, e1]
            refine Or.inr (Or.inr ⟨?_, hi⟩)
            rcases updateStudentStatus_getD_students st3 f.updateStudent sid
              NeedsIntervention with e | e
            · exact Or.inl (e.trans (s3.trans s2))
            · exact Or.inr (by rw [← s2, ← s3]; exact e)
  · exact Or.inl rfl

/-- Both assignment routes on table `students`: unchanged, or the rows of the request's
student get status `'Remedial'`. -/
theorem assign_students (st : Store) (now : Int) (f : Faults) (req : AssignReq) :
    ∀ res ∈ [assignInterventionPost st now f req, assignInterventionGet st now f req],
      res.store.students = st.students
      ∨ ∃ sid, req.student_id = some sid
          ∧ res.store.students = st.students.map
              (fun r => if r.student_id = sid then { r with status := Remedial } else r) := by
  have aux : ∀ (st1 : Store) (b : Bool) (iid : Nat) (sid task : String),
      updateInterventionAssign st b iid sid task now = some st1 →
      st1.students = st.students := by
    intro st1 b iid sid task h
    unfold updateInterventionAssign at h
    split at h
    · exact absurd h (by simp)
    · simp at h; subst h; rfl
  intro res hres
  simp only [List.mem_cons, List.mem_singleton, List.not_mem_nil, or_false] at hres
  rcases hres with h | h
  · subst h
    unfold assignInterventionPost
    split
    · rename_i sid task iid hsid htask hiid
      dsimp only
      split
      · exact Or.inl rfl
      · rename_i st1 h1
        split
        · exact Or.inl (aux _ _ _ _ _ h1)
        · rename_i st2 h2
          refine Or.inr ⟨sid, (truthy_some _ _ hsid).1, ?_⟩
          rw [updateStudentStatus_students _ _ _ _ _ h2, aux _ _ _ _ _ h1]
    · exact Or.inl rfl
  · subst h
    unfold assignInterventionGet
    split
    · rename_i sid task iid hsid htask hiid
      dsimp only
      split
      · exact Or.inl rfl
      · rename_i st1 h1
        split
        · exact Or.inl (aux _ _ _ _ _ h1)
        · rename_i st2 h2
          refine Or.inr ⟨sid, (truthy_some _ _ hsid).1, ?_⟩
          rw [updateStudentStatus_students _ _ _ _ _ h2, aux _ _ _ _ _ h1]
    · exact Or.inl rfl

/-- The status route on table `students`: unchanged, or the rows of the student get status
`'Normal'`. -/
theorem studentStatus_students (st : Store) (now : Int) (f : Faults) (sid : String) :
    (studentStatus st now f sid).store.students = st.students
    ∨ (studentStatus st now f sid).store.students = st.students.map
        (fun r => if r.student_id = sid then { r with status := Normal } else r) := by
  unfold studentStatus
  split
  · dsimp only
    split
    · exact updateStudentStatus_getD_students _ _ _ _
    · exact Or.inl rfl
  · exact Or.inl rfl

/-- The completion route on both tables: nothing changes, or the rows of the student get
status `'Normal'` and table `interventions` is unchanged or has every row of the student
with `completed_at` null completed. -/
theorem completeRemedial_shape (st : Store) (now : Int) (f : Faults) (req : CompleteReq) :
    ((completeRemedial st now f req).store.students = st.students
      ∧ (completeRemedial st now f req).store.interventions = st.interventions)
    ∨ ∃ sid, req.student_id = some sid
        ∧ (completeRemedial st now f req).store.students = st.students.map
            (fun r => if r.student_id = sid then { r with status := Normal } else r)
        ∧ ((completeRemedial st now f req).store.interventions = st.interventions
          ∨ (completeRemedial st now f req).store.interventions = st.interventions.map
              (fun i => if i.student_id = sid ∧ i.completed_at = none
                then completedRow i now else i)) := by
  unfold completeRemedial
  split
  · exact Or.inl ⟨rfl, rfl⟩
  · rename_i sid hsid
    dsimp only
    split
    · exact Or.inl ⟨rfl, rfl⟩
    · rename_i st1 h1
      have e1 := updateStudentStatus_interventions _ _ _ _ _ h1
      have s1 := updateStudentStatus_students _ _ _ _ _ h1
      right
      refine ⟨sid, (truthy_some _ _ hsid).1, ?_⟩
      split
      · exact ⟨s1, Or.inl e1⟩
      · rename_i st2 h2
        unfold updateInterventionComplete at h2
        split at h2
        · exact absurd h2 (by simp)
        · simp at h2; subst h2
          refine ⟨s1, Or.inr ?_⟩
          show List.map _ st1.interventions = _
          rw [e1]
          rfl

/-! ## Other students are not touched -/

theorem filter_map_ite_frame {α : Type} (l : List α) (c : α → Prop) [DecidablePred c]
    (g : α → α) (p : α → Bool) (h : ∀ x ∈ l, c x → p x = false ∧ p (g x) = false) :
    (l.map (fun x => if c x then g x else x)).filter p = l.filter p := by
  induction l with
  | nil => rfl
  | cons a l ih =>
    have hl : ∀ x ∈ l, c x → p x = false ∧ p (g x) = false :=
      fun x hx => h x (List.mem_cons_of_mem a hx)
    by_cases ca : c a
    · obtain ⟨h1, h2⟩ := h a (List.mem_cons_self a l) ca
      simp only [List.map_cons, if_pos ca, List.filter_cons, h1, h2, Bool.false_eq_true,
        if_false]
      exact ih hl
    · simp only [List.map_cons, if_neg ca, List.filter_cons]
      rw [ih hl]

theorem filter_append_other_student (l : List Student) (sid s2 status : String)
    (hne : sid ≠ s2) :
    (l ++ [(⟨sid, status⟩ : Student)]).filter (fun r => r.student_id == s2)
      = l.filter (fun r => r.student_id == s2) := by
  simp [List.filter_append, List.filter_cons, hne]

theorem filter_append_other_intervention (l : List Intervention) (iv : Intervention)
    (s2 : String) (hne : iv.student_id ≠ s2) :
    (l ++ [iv]).filter (fun i => i.student_id == s2)
      = l.filter (fun i => i.student_id == s2) := by
  simp [List.filter_append, List.filter_cons, hne]

theorem recordsOf_eq (st st2 : Store) (s2 : String)
    (h1 : st2.students.filter (fun r => r.student_id == s2)
      = st.students.filter (fun r => r.student_id == s2))
    (h2 : st2.interventions.filter (fun i => i.student_id == s2)
      = st.interventions.filter (fun i => i.student_id == s2)) :
    recordsOf st2 s2 = recordsOf st s2 := by
  unfold recordsOf
  rw [h1, h2]

/-- C26: for every store, clock reading and set of failing store calls, a request to a
route of `server.js` for student `s` leaves the records of every other student `s2` (the
rows of `s2` in table `students`, the Interventions whose `student_id` is `s2`) unchanged,
whatever `intervention_id` is supplied. -/
theorem C26_other_students_unchanged (zone : TimeZone) (st : Store) (now : Int) (f : Faults) (s2 : String) :
    (∀ (hook : Webhook) (req : CheckinReq), req.student_id ≠ some s2 →
      recordsOf (dailyCheckin zone st now f hook req).store s2 = recordsOf st s2)
    ∧ (∀ (req : AssignReq), req.student_id ≠ some s2 →
      ∀ res ∈ [assignInterventionPost st now f req, assignInterventionGet st now f req],
        recordsOf res.store s2 = recordsOf st s2)
    ∧ (∀ (sid : String), sid ≠ s2 →
      recordsOf (studentStatus st now f sid).store s2 = recordsOf st s2)
    ∧ (∀ (req : CompleteReq), req.student_id ≠ some s2 →
      recordsOf (completeRemedial st now f req).store s2 = recordsOf st s2) := by
  refine ⟨?_, ?_, ?_, ?_⟩
  · intro hook req hreq
    rcases dailyCheckin_shape zone st now f hook req with e | ⟨sid, hsid, base, hbase, hcases⟩
    · rw [e]
    · have hne : sid ≠ s2 := fun h => hreq (by rw [hsid, h])
      have hb : base.filter (fun r => r.student_id == s2)
          = st.students.filter (fun r => r.student_id == s2) := by
        rcases hbase with e | e
        · rw [e]
        · rw [e]; exact filter_append_other_student _ _ _ _ hne
      have hnew : (st.interventions ++ [(⟨freshId st.interventions, sid, Pending, none,
          false, now, none, none, some (autoUnlockAt zone now)⟩ : Intervention)]).filter
            (fun i => i.student_id == s2)
          = st.interventions.filter (fun i => i.student_id == s2) :=
        filter_append_other_intervention _ _ _ hne
      rcases hcases with ⟨a, b⟩ | ⟨a, b⟩ | ⟨a, b⟩
      · exact recordsOf_eq _ _ _ (by rw [a]; exact hb) (by rw [b])
      · refine recordsOf_eq _ _ _ ?_ (by rw [b])
        rw [a, filter_update_other base sid s2 OnTrack (Ne.symm hne)]
        exact hb
      · refine recordsOf_eq _ _ _ ?_ (by rw [b]; exact hnew)
        rcases a with a | a
        · rw [a]; exact hb
        · rw [a, filter_update_other base sid s2 NeedsIntervention (Ne.symm hne)]
          exact hb
  · intro req hreq res hres
    have hstud : res.store.students.filter (fun r => r.student_id == s2)
        = st.students.filter (fun r => r.student_id == s2) := by
      rcases assign_students st now f req res hres with e | ⟨sid, hsid, e⟩
      · rw [e]
      · have hne : sid ≠ s2 := fun h => hreq (by rw [hsid, h])
        rw [e]
        exact filter_update_other st.students sid s2 Remedial (Ne.symm hne)
    have hint : res.store.interventions.filter (fun i => i.student_id == s2)
        = st.interventions.filter (fun i => i.student_id == s2) := by
      rcases assign_interventions st now f req res hres with e | ⟨sid, task, iid, hsid, _, e⟩
      · rw [e]
      · have hne : sid ≠ s2 := fun h => hreq (by rw [hsid, h])
        rw [e]
        apply filter_map_ite_frame
        intro x _ hc
        have hx : x.student_id ≠ s2 := fun h => hne (hc.2.symm.trans h)
        simp [assignedRow, hx]
    exact recordsOf_eq _ _ _ hstud hint
  · intro sid hne
    refine recordsOf_eq _ _ _ ?_ (by rw [studentStatus_interventions])
    rcases studentStatus_students st now f sid with e | e
    · rw [e]
    · rw [e]
      exact filter_update_other st.students sid s2 Normal (Ne.symm hne)
  · intro req hreq
    rcases completeRemedial_shape st now f req with ⟨a, b⟩ | ⟨sid, hsid, a, b⟩
    · exact recordsOf_eq _ _ _ (by rw [a]) (by rw [b])
    · have hne : sid ≠ s2 := fun h => hreq (by rw [hsid, h])
      refine recordsOf_eq _ _ _ ?_ ?_
      · rw [a]
        exact filter_update_other st.students sid s2 Normal (Ne.symm hne)
      · rcases b with b | b
        · rw [b]
        · rw [b]
          apply filter_map_ite_frame
          intro x _ hc
          have hx : x.student_id ≠ s2 := fun h => hne (hc.1.symm.trans h)
          simp [completedRow, hx]

/-- Witness of C26 on `oneOpen`: an assignment for student `s2` that supplies the id of the
Intervention of `s1` leaves the records of `s1` as they were. -/
theorem C26_other_students_unchanged_witness :
    (some "s2" : Option String) ≠ some "s1"
    ∧ recordsOf (assignInterventionPost oneOpen 30 noFaults
        ⟨some "s2", some "Review chapter 3", some 1⟩).store "s1" = recordsOf oneOpen "s1" :=
  ⟨by decide,
   (C26_other_students_unchanged utc oneOpen 30 noFaults "s1").2.1
      ⟨some "s2", some "Review chapter 3", some 1⟩ (by decide) _ (List.mem_cons_self _ _)⟩

/-! ## Status `'Completed'` against `completed_at` -/

theorem reachableNoReopen_reachable (st : Store) (h : ReachableNoReopen st) : Reachable st := by
  induction h with
  | empty => exact Reachable.empty
  | checkin zone st now f hook req _ ih => exact Reachable.checkin zone st now f hook req ih
  | assignPost st now f req _ _ ih => exact Reachable.assignPost st now f req ih
  | assignGet st now f req _ _ ih => exact Reachable.assignGet st now f req ih
  | status st now f sid _ ih => exact Reachable.status st now f sid ih
  | complete st now f req _ ih => exact Reachable.complete st now f req ih

theorem reachableNoReopen_timeHasCompleted (st : Store) (h : ReachableNoReopen st) :
    ∀ i ∈ st.interventions, i.completed_at ≠ none → i.status = Completed := by
  have assignCase : ∀ (st : Store) (res : Result) (now : Int) (f : Faults) (req : AssignReq),
      (∀ i ∈ st.interventions, i.completed_at ≠ none → i.status = Completed) →
      AssignGuard st req →
      res ∈ [assignInterventionPost st now f req, assignInterventionGet st now f req] →
      ∀ i ∈ res.store.interventions, i.completed_at ≠ none → i.status = Completed := by
    intro st res now f req ih hg hres
    rcases assign_interventions st now f req res hres with e | ⟨sid, task, iid, h1, h2, e⟩
    · intro i hi; rw [e] at hi; exact ih i hi
    · intro i hi hc
      rw [e] at hi
      obtain ⟨j, hj, hji⟩ := List.mem_map.mp hi
      by_cases c : j.id = iid ∧ j.student_id = sid
      · rw [if_pos c] at hji
        subst hji
        have hnc : j.status ≠ Completed := hg j hj (by rw [h2, c.1]) (by rw [h1, c.2])
        have hcj : j.completed_at ≠ none := hc
        exact absurd (ih j hj hcj) hnc
      · rw [if_neg c] at hji
        subst hji
        exact ih j hj hc
  induction h with
  | empty => intro i hi; exact absurd hi (List.not_mem_nil _)
  | checkin zone st now f hook req _ ih =>
    rcases dailyCheckin_interventions zone st now f hook req with e | ⟨sid, q, fm, _, _, _, _, e⟩
    · intro i hi; rw [e] at hi; exact ih i hi
    · intro i hi hc
      rw [e] at hi
      rcases List.mem_append.mp hi with h1 | h1
      · exact ih i h1 hc
      · rw [List.mem_singleton] at h1
        subst h1
        exact absurd rfl hc
  | assignPost st now f req _ hg ih =>
    exact assignCase st _ now f req ih hg (List.mem_cons_self _ _)
  | assignGet st now f req _ hg ih =>
    exact assignCase st _ now f req ih hg (List.mem_cons_of_mem _ (List.mem_cons_self _ _))
  | status st now f sid _ ih =>
    intro i hi
    rw [studentStatus_interventions] at hi
    exact ih i hi
  | complete st now f req _ ih =>
    rcases completeRemedial_interventions st now f req with e | ⟨sid, _, e⟩
    · intro i hi; rw [e] at hi; exact ih i hi
    · intro i hi hc
      rw [e] at hi
      obtain ⟨j, hj, hji⟩ := List.mem_map.mp hi
      by_cases c : j.student_id = sid ∧ j.completed_at = none
      · rw [if_pos c] at hji
        subst hji
        rfl
      · rw [if_neg c] at hji
        subst hji
        exact ih j hj hc

/-- C27 as stated fails: after a completion and a new assignment of the same Intervention,
a reachable store holds an Intervention with `completed_at` set and status `'Assigned'`. -/
theorem C27_completed_iff_time_counterexample :
    Reachable reopenedStore
    ∧ reopenedStore.interventions
        = [⟨1, "s1", Assigned, some "Review chapter 3", true, 10, some 30, some 20,
            some 43200010⟩]
    ∧ ¬ (∀ i ∈ reopenedStore.interventions, (i.status = Completed ↔ i.completed_at ≠ none)) := by
  refine ⟨?_, by decide, by decide⟩
  exact Reachable.assignPost _ 30 noFaults ⟨some "s1", some "Review chapter 3", some 1⟩
    (Reachable.complete _ 20 noFaults ⟨some "s1"⟩
      (Reachable.checkin utc _ 10 noFaults Webhook.notConfigured failingCheckin Reachable.empty))

/-- C27 amended: in every reachable store an Intervention with status `'Completed'` has its
`completed_at` set, so the Intervention the status route selects (`completed_at` null)
never has status `'Completed'`; and in every store reached without an assignment that
addresses a `'Completed'` Intervention, an Intervention has status `'Completed'` if and
only if its `completed_at` is set. -/
theorem C27_completed_iff_time_amended (st : Store) :
    (Reachable st →
      (∀ i ∈ st.interventions, i.status = Completed → i.completed_at ≠ none)
      ∧ (∀ (sid : String) (i : Intervention),
          selectOpenIntervention st false sid = some i → i.status ≠ Completed))
    ∧ (ReachableNoReopen st →
      ∀ i ∈ st.interventions, (i.status = Completed ↔ i.completed_at ≠ none)) := by
  constructor
  · intro hr
    have hinv := reachable_completedHasTime st hr
    refine ⟨hinv, ?_⟩
    intro sid i hsel hc
    simp only [selectOpenIntervention, Bool.false_eq_true, if_false] at hsel
    obtain ⟨hmem, _⟩ := latestCreated_spec _ _ hsel
    obtain ⟨h1, _, h3⟩ := (mem_openInterventions st sid i).mp hmem
    exact hinv i h1 hc h3
  · intro hr i hi
    exact ⟨reachable_completedHasTime st (reachableNoReopen_reachable st hr) i hi,
      reachableNoReopen_timeHasCompleted st hr i hi⟩

/-- Witness of C27 amended on `completedStore` (a failing check-in, then the completion). -/
theorem C27_completed_iff_time_amended_witness :
    ReachableNoReopen completedStore
    ∧ ∀ i ∈ completedStore.interventions, (i.status = Completed ↔ i.completed_at ≠ none) :=
  have hreach : ReachableNoReopen completedStore :=
    ReachableNoReopen.complete _ 20 noFaults ⟨some "s1"⟩
      (ReachableNoReopen.checkin utc _ 10 noFaults Webhook.notConfigured failingCheckin
        ReachableNoReopen.empty)
  ⟨hreach, (C27_completed_iff_time_amended completedStore).2 hreach⟩

/-! ## A student in `'Needs Intervention'` has an open Intervention -/

theorem mem_map_update_status (l : List Student) (sid status : String) (x : Student)
    (hx : x ∈ l.map (fun r => if r.student_id = sid then { r with status := status } else r)) :
    (x.student_id = sid ∧ x.status = status) ∨ (x ∈ l ∧ x.student_id ≠ sid) := by
  obtain ⟨y, hy, hyx⟩ := List.mem_map.mp hx
  by_cases c : y.student_id = sid
  · rw [if_pos c] at hyx
    subst hyx
    exact Or.inl ⟨c, rfl⟩
  · rw [if_neg c] at hyx
    subst hyx
    exact Or.inr ⟨hy, c⟩

theorem reachable_needsInterventionHasOpen (st : Store) (h : Reachable st) :
    NeedsInterventionHasOpen st := by
  have hNN : (Normal : String) ≠ NeedsIntervention := by decide
  have hON : (OnTrack : String) ≠ NeedsIntervention := by decide
  have hRN : (Remedial : String) ≠ NeedsIntervention := by decide
  have assignCase : ∀ (st : Store) (res : Result) (now : Int) (f : Faults) (req : AssignReq),
      NeedsInterventionHasOpen st →
      res ∈ [assignInterventionPost st now f req, assignInterventionGet st now f req] →
      NeedsInterventionHasOpen res.store := by
    intro st res now f req ih hres x hx hs
    have hold : x ∈ st.students := by
      rcases assign_students st now f req res hres with e | ⟨sid, _, e⟩
      · rw [e] at hx; exact hx
      · rw [e] at hx
        rcases mem_map_update_status _ _ _ _ hx with ⟨_, h2⟩ | ⟨h1, _⟩
        · rw [hs] at h2; exact absurd h2.symm hRN
        · exact h1
    obtain ⟨i, hi, his, hic⟩ := ih x hold hs
    rcases assign_interventions st now f req res hres with e | ⟨sid, task, iid, _, _, e⟩
    · exact ⟨i, by rw [e]; exact hi, his, hic⟩
    · by_cases c : i.id = iid ∧ i.student_id = sid
      · refine ⟨assignedRow i task now, ?_, his, hic⟩
        rw [e]
        exact List.mem_map.mpr ⟨i, hi, by rw [if_pos c]⟩
      · refine ⟨i, ?_, his, hic⟩
        rw [e]
        exact List.mem_map.mpr ⟨i, hi, by rw [if_neg c]⟩
  induction h with
  | empty => intro x hx; exact absurd hx (List.not_mem_nil _)
  | checkin zone st now f hook req _ ih =>
    intro x hx hs
    rcases dailyCheckin_shape zone st now f hook req with e | ⟨sid, _, base, hbase, hcases⟩
    · rw [e] at hx ⊢; exact ih x hx hs
    · have hb : ∀ y ∈ base, y.status = NeedsIntervention → y ∈ st.students := by
        intro y hy hys
        rcases hbase with e | e
        · rw [e] at hy; exact hy
        · rw [e] at hy
          rcases List.mem_append.mp hy with m | m
          · exact m
          · rw [List.mem_singleton] at m
            subst m
            exact absurd hys hNN
      rcases hcases with ⟨a, b⟩ | ⟨a, b⟩ | ⟨a, b⟩
      · rw [a] at hx
        obtain ⟨i, hi, his, hic⟩ := ih x (hb x hx hs) hs
        exact ⟨i, by rw [b]; exact hi, his, hic⟩
      · rw [a] at hx
        rcases mem_map_update_status _ _ _ _ hx with ⟨_, h2⟩ | ⟨h1, _⟩
        · rw [hs] at h2; exact absurd h2.symm hON
        · obtain ⟨i, hi, his, hic⟩ := ih x (hb x h1 hs) hs
          exact ⟨i, by rw [b]; exact hi, his, hic⟩
      · have fromOld : x ∈ base →
            ∃ i ∈ (dailyCheckin zone st now f hook req).store.interventions,
              i.student_id = x.student_id ∧ i.completed_at = none := by
          intro hxb
          obtain ⟨i, hi, his, hic⟩ := ih x (hb x hxb hs) hs
          exact ⟨i, by rw [b]; exact List.mem_append_left _ hi, his, hic⟩
        rcases a with a | a
        · rw [a] at hx; exact fromOld hx
        · rw [a] at hx
          rcases mem_map_update_status _ _ _ _ hx with ⟨h1, _⟩ | ⟨h1, _⟩
          · refine ⟨⟨freshId st.interventions, sid, Pending, none, false, now, none, none,
              some (autoUnlockAt zone now)⟩, ?_, h1.symm, rfl⟩
            rw [b]
            exact List.mem_append_right _ (List.mem_singleton.mpr rfl)
          · exact fromOld h1
  | assignPost st now f req _ ih =>
    exact assignCase st _ now f req ih (List.mem_cons_self _ _)
  | assignGet st now f req _ ih =>
    exact assignCase st _ now f req ih (List.mem_cons_of_mem _ (List.mem_cons_self _ _))
  | status st now f sid _ ih =>
    intro x hx hs
    have hold : x ∈ st.students := by
      rcases studentStatus_students st now f sid with e | e
      · rw [e] at hx; exact hx
      · rw [e] at hx
        rcases mem_map_update_status _ _ _ _ hx with ⟨_, h2⟩ | ⟨h1, _⟩
        · rw [hs] at h2; exact absurd h2.symm hNN
        · exact h1
    obtain ⟨i, hi, his, hic⟩ := ih x hold hs
    exact ⟨i, by rw [studentStatus_interventions]; exact hi, his, hic⟩
  | complete st now f req _ ih =>
    intro x hx hs
    rcases completeRemedial_shape st now f req with ⟨a, b⟩ | ⟨sid, _, a, b⟩
    · rw [a] at hx
      obtain ⟨i, hi, his, hic⟩ := ih x hx hs
      exact ⟨i, by rw [b]; exact hi, his, hic⟩
    · rw [a] at hx
      rcases mem_map_update_status _ _ _ _ hx with ⟨_, h2⟩ | ⟨h1, hne⟩
      · rw [hs] at h2; exact absurd h2.symm hNN
      · obtain ⟨i, hi, his, hic⟩ := ih x h1 hs
        rcases b with b | b
        · exact ⟨i, by rw [b]; exact hi, his, hic⟩
        · refine ⟨i, ?_, his, hic⟩
          rw [b]
          have c : ¬ (i.student_id = sid ∧ i.completed_at = none) :=
            fun hc => hne (his.symm.trans hc.1)
          exact List.mem_map.mpr ⟨i, hi, by rw [if_neg c]⟩

/-- C28: in every store reachable from the empty store by requests to the routes of
`server.js`, with any store calls failing, a student whose stored status is
`'Needs Intervention'` has at least one Intervention of their own with `completed_at`
null. -/
theorem C28_needsIntervention_has_open (st : Store) (h : Reachable st) :
    ∀ r ∈ st.students, r.status = NeedsIntervention →
      ∃ i ∈ st.interventions, i.student_id = r.student_id ∧ i.completed_at = none :=
  reachable_needsInterventionHasOpen st h

/-- Witness of C28 on `oneOpen`. -/
theorem C28_needsIntervention_has_open_witness :
    Reachable oneOpen
    ∧ ∀ r ∈ oneOpen.students, r.status = NeedsIntervention →
      ∃ i ∈ oneOpen.interventions, i.student_id = r.student_id ∧ i.completed_at = none :=
  have hreach : Reachable oneOpen :=
    Reachable.checkin utc _ 10 noFaults Webhook.notConfigured failingCheckin Reachable.empty
  ⟨hreach, C28_needsIntervention_has_open oneOpen hreach⟩

/-! ## Failing store writes -/

/-- The student update of the check-in route is not checked: when it fails the route still
answers code 200, with the Intervention created and the status left at `'Normal'`. -/
theorem dailyCheckin_unchecked_status_update :
    (dailyCheckin utc Store.empty 10 studentUpdateFault Webhook.notConfigured
        failingCheckin).response.code = 200
    ∧ (dailyCheckin utc Store.empty 10 studentUpdateFault Webhook.notConfigured
        failingCheckin).store.students = [⟨"s1", Normal⟩]
    ∧ (dailyCheckin utc Store.empty 10 studentUpdateFault Webhook.notConfigured
        failingCheckin).store.interventions
        = [⟨1, "s1", Pending, none, false, 10, none, none, some 43200010⟩] := by
  decide

/-- A failing insert into `daily_logs` is answered with code 500. -/
theorem dailyCheckin_log_failure_code (zone : TimeZone) (st : Store) (now : Int) (f : Faults) (hook : Webhook)
    (sid : String) (q fm : Int) (pen : Bool) (hs : sid ≠ "") (hf : f.insertLog = true) :
    (dailyCheckin zone st now f hook ⟨some sid, some q, some fm, pen⟩).response.code = 500 := by
  cases he : ensureStudent st f sid with
  | none => simp [dailyCheckin, truthy, hs, he, Response.blank]
  | some st1 => simp [dailyCheckin, truthy, hs, he, insertDailyLog, hf, Response.blank]

/-- A check-in answered with code 500 has applied no verdict. -/
theorem dailyCheckin_error_shape (zone : TimeZone) (st : Store) (now : Int) (f : Faults) (hook : Webhook)
    (sid : String) (q fm : Int) (pen : Bool) (hs : sid ≠ "")
    (hcode : (dailyCheckin zone st now f hook ⟨some sid, some q, some fm, pen⟩).response.code = 500) :
    (dailyCheckin zone st now f hook ⟨some sid, some q, some fm, pen⟩).store.interventions
        = st.interventions
    ∧ ((dailyCheckin zone st now f hook ⟨some sid, some q, some fm, pen⟩).store.students
          = st.students
      ∨ (dailyCheckin zone st now f hook ⟨some sid, some q, some fm, pen⟩).store.students
          = st.students ++ [⟨sid, Normal⟩]) := by
  have ht : truthy (some sid) = some sid := by simp [truthy, hs]
  unfold dailyCheckin at hcode ⊢
  simp only [ht] at hcode ⊢
  split
  · exact ⟨rfl, Or.inl rfl⟩
  · rename_i st1 h1
    have e1 := ensureStudent_interventions _ _ _ _ h1
    have hbase : st1.students = st.students ∨ st1.students = st.students ++ [⟨sid, Normal⟩] := by
      rcases ensureStudent_students _ _ _ _ h1 with e | e
      · exact Or.inl (by rw [e])
      · exact Or.inr (by rw [e])
    simp only [h1] at hcode
    split
    · exact ⟨e1, hbase⟩
    · rename_i st2 h2
      have e2 := insertDailyLog_interventions _ _ _ _ h2
      have s2 := insertDailyLog_students _ _ _ _ h2
      simp only [h2] at hcode
      split
      · rename_i hq
        simp [hq, Response.blank] at hcode
      · rename_i hq
        simp only [hq, if_false] at hcode
        split
        · refine ⟨e2.trans e1, ?_⟩
          rw [s2]; exact hbase
        · rename_i iv st3 h3
          simp [h3, Response.blank] at hcode

/-- C22 as stated fails: when the second write of an assignment or of a completion fails,
the route answers code 500 but the first write stays (the Intervention is assigned while
the student's status is unchanged; the student's status is `'Normal'` while the
Intervention is unchanged). -/
theorem C22_partial_write_counterexample :
    oneOpen = ⟨[⟨"s1", NeedsIntervention⟩],
               [⟨1, "s1", Pending, none, false, 10, none, none, some 43200010⟩],
               [⟨"s1", 4, 30⟩]⟩
    ∧ (assignInterventionPost oneOpen 30 studentUpdateFault
        ⟨some "s1", some "Review chapter 3", some 1⟩).response.code = 500
    ∧ (assignInterventionPost oneOpen 30 studentUpdateFault
        ⟨some "s1", some "Review chapter 3", some 1⟩).store
        = ⟨[⟨"s1", NeedsIntervention⟩],
           [⟨1, "s1", Assigned, some "Review chapter 3", true, 10, some 30, none,
              some 43200010⟩],
           [⟨"s1", 4, 30⟩]⟩
    ∧ (completeRemedial oneOpen 30 interventionUpdateFault ⟨some "s1"⟩).response.code = 500
    ∧ (completeRemedial oneOpen 30 interventionUpdateFault ⟨some "s1"⟩).store
        = ⟨[⟨"s1", Normal⟩],
           [⟨1, "s1", Pending, none, false, 10, none, none, some 43200010⟩],
           [⟨"s1", 4, 30⟩]⟩ := by
  decide

/-- C22 amended: for every store, for the assignment routes (the POST route for an
`intervention_id` other than the number `0`, which its validation rejects) and the
completion route of `server.js`, a failing store write is answered with code 500, the
failing write and the writes after it are not applied, and a write made before it stays:
if the first write fails the store is unchanged; if only the second fails the first is
kept. For the check-in route, a failing insert into `daily_logs` or (on a failing pair)
into `interventions` is answered with code 500, and a check-in answered with code 500 has
created no Intervention and changed no status (at most the bootstrap row of the student
was added). -/
theorem C22_failing_write_amended (zone : TimeZone) (st : Store) (now : Int) (f : Faults)
    (sid task : String) (iid : Nat) (hs : sid ≠ "") (ht : task ≠ "") :
    (iid ≠ 0 →
      (f.updateIntervention = true →
        (assignInterventionPost st now f ⟨some sid, some task, some iid⟩).response.code = 500
        ∧ (assignInterventionPost st now f ⟨some sid, some task, some iid⟩).store = st)
      ∧ (f.updateIntervention = false → f.updateStudent = true →
          (assignInterventionPost st now f ⟨some sid, some task, some iid⟩).response.code = 500
          ∧ (assignInterventionPost st now f ⟨some sid, some task, some iid⟩).store
              = ⟨st.students,
                 st.interventions.map (fun i =>
                   if i.id = iid ∧ i.student_id = sid then assignedRow i task now else i),
                 st.daily_logs⟩))
    ∧ ((f.updateIntervention = true →
        (assignInterventionGet st now f ⟨some sid, some task, some iid⟩).response.code = 500
        ∧ (assignInterventionGet st now f ⟨some sid, some task, some iid⟩).store = st)
      ∧ (f.updateIntervention = false → f.updateStudent = true →
          (assignInterventionGet st now f ⟨some sid, some task, some iid⟩).response.code = 500
          ∧ (assignInterventionGet st now f ⟨some sid, some task, some iid⟩).store
              = ⟨st.students,
                 st.interventions.map (fun i =>
                   if i.id = iid ∧ i.student_id = sid then assignedRow i task now else i),
                 st.daily_logs⟩))
    ∧ ((f.updateStudent = true →
          (completeRemedial st now f ⟨some sid⟩).response.code = 500
          ∧ (completeRemedial st now f ⟨some sid⟩).store = st)
      ∧ (f.updateStudent = false → f.updateIntervention = true →
          (completeRemedial st now f ⟨some sid⟩).response.code = 500
          ∧ (completeRemedial st now f ⟨some sid⟩).store
              = ⟨st.students.map
                   (fun r => if r.student_id = sid then { r with status := Normal } else r),
                 st.interventions, st.daily_logs⟩))
    ∧ (∀ (hook : Webhook) (q fm : Int) (pen : Bool),
        (f.insertLog = true ∨ (f.insertIntervention = true ∧ ¬ (q > 7 ∧ fm > 60)) →
          (dailyCheckin zone st now f hook ⟨some sid, some q, some fm, pen⟩).response.code = 500)
        ∧ ((dailyCheckin zone st now f hook ⟨some sid, some q, some fm, pen⟩).response.code = 500 →
          (dailyCheckin zone st now f hook ⟨some sid, some q, some fm, pen⟩).store.interventions
              = st.interventions
          ∧ ((dailyCheckin zone st now f hook ⟨some sid, some q, some fm, pen⟩).store.students
                = st.students
            ∨ (dailyCheckin zone st now f hook ⟨some sid, some q, some fm, pen⟩).store.students
                = st.students ++ [⟨sid, Normal⟩]))) := by
  refine ⟨?_, ⟨?_, ?_⟩, ⟨?_, ?_⟩, ?_⟩
  · intro hid0
    constructor
    · intro h1
      simp [assignInterventionPost, truthy, truthyId, hs, ht, hid0, updateInterventionAssign, h1,
        Response.blank]
    · intro h1 h2
      simp [assignInterventionPost, truthy, truthyId, hs, ht, hid0, updateInterventionAssign,
        updateStudentStatus, h1, h2, Response.blank, assignedRow]
  · intro h1
    simp [assignInterventionGet, truthy, hs, ht, updateInterventionAssign, h1,
      Response.blank]
  · intro h1 h2
    simp [assignInterventionGet, truthy, hs, ht, updateInterventionAssign,
      updateStudentStatus, h1, h2, Response.blank, assignedRow]
  · intro h1
    simp [completeRemedial, truthy, hs, updateStudentStatus, h1, Response.blank]
  · intro h1 h2
    simp [completeRemedial, truthy, hs, updateStudentStatus, updateInterventionComplete,
      h1, h2, Response.blank]
  · intro hook q fm pen
    constructor
    · intro hf
      rcases hf with hf | ⟨hf, hq⟩
      · exact (dailyCheckin_log_failure_code zone st now f hook sid q fm pen hs hf)
      · cases he : ensureStudent st f sid with
        | none => simp [dailyCheckin, truthy, hs, he, Response.blank]
        | some st1 =>
          by_cases hl : f.insertLog = true
          · simp [dailyCheckin, truthy, hs, he, insertDailyLog, hl, Response.blank]
          · simp [dailyCheckin, truthy, hs, he, insertDailyLog, hl, hq, insertIntervention,
              hf, Response.blank]
    · intro hcode
      exact dailyCheckin_error_shape zone st now f hook sid q fm pen hs hcode

/-- Witness of C22 amended on `oneOpen`: an assignment whose student update fails. -/
theorem C22_failing_write_amended_witness :
    ("s1" ≠ "" ∧ "Review chapter 3" ≠ "" ∧ (1 : Nat) ≠ 0)
    ∧ (assignInterventionPost oneOpen 30 studentUpdateFault
        ⟨some "s1", some "Review chapter 3", some 1⟩).response.code = 500 :=
  ⟨⟨by decide, by decide, by decide⟩,
   (((C22_failing_write_amended utc oneOpen 30 studentUpdateFault "s1" "Review chapter 3" 1
      (by decide) (by decide)).1 (by decide)).2 rfl rfl).1⟩

/-! ## Generated ids -/

/-- No Intervention of a reachable store has id `0`: the ids are generated by the table. -/
theorem reachable_id_ne_zero (st : Store) (h : Reachable st) :
    ∀ i ∈ st.interventions, i.id ≠ 0 := by
  have assignCase : ∀ (st : Store) (res : Result) (now : Int) (f : Faults) (req : AssignReq),
      (∀ i ∈ st.interventions, i.id ≠ 0) →
      res ∈ [assignInterventionPost st now f req, assignInterventionGet st now f req] →
      ∀ i ∈ res.store.interventions, i.id ≠ 0 := by
    intro st res now f req ih hres
    rcases assign_interventions st now f req res hres with e | ⟨sid, task, iid, _, _, e⟩
    · intro i hi; rw [e] at hi; exact ih i hi
    · intro i hi
      rw [e] at hi
      obtain ⟨j, hj, hji⟩ := List.mem_map.mp hi
      by_cases c : j.id = iid ∧ j.student_id = sid
      · rw [if_pos c] at hji
        subst hji
        exact ih j hj
      · rw [if_neg c] at hji
        subst hji
        exact ih j hj
  induction h with
  | empty => intro i hi; exact absurd hi (List.not_mem_nil _)
  | checkin zone st now f hook req _ ih =>
    rcases dailyCheckin_interventions zone st now f hook req with
      e | ⟨sid, q, fm, _, _, _, _, e⟩
    · intro i hi; rw [e] at hi; exact ih i hi
    · intro i hi
      rw [e] at hi
      rcases List.mem_append.mp hi with h1 | h1
      · exact ih i h1
      · rw [List.mem_singleton] at h1
        subst h1
        exact Nat.succ_ne_zero _
  | assignPost st now f req _ ih =>
    exact assignCase st _ now f req ih (List.mem_cons_self _ _)
  | assignGet st now f req _ ih =>
    exact assignCase st _ now f req ih (List.mem_cons_of_mem _ (List.mem_cons_self _ _))
  | status st now f sid _ ih =>
    intro i hi
    rw [studentStatus_interventions] at hi
    exact ih i hi
  | complete st now f req _ ih =>
    rcases completeRemedial_interventions st now f req with e | ⟨sid, _, e⟩
    · intro i hi; rw [e] at hi; exact ih i hi
    · intro i hi
      rw [e] at hi
      obtain ⟨j, hj, hji⟩ := List.mem_map.mp hi
      by_cases c : j.student_id = sid ∧ j.completed_at = none
      · rw [if_pos c] at hji
        subst hji
        exact ih j hj
      · rw [if_neg c] at hji
        subst hji
        exact ih j hj

end Alcovia
